import Mathlib

/-! Sakura language runtime: validator, blossom registry, host entry point,
file discovery and parse-error reporting.

A shallow embedding of `src/src/validator.cpp`, `src/src/sakura_lang_interface.cpp`,
`src/src/sakura_parsing.cpp` and `src/src/sakura_parsing/sakura_parser_interface.cpp`.

* C++ objects that are mutated in place (items, the registry, tables, the error
  message taken by reference) are passed in and returned explicitly.
* `std::map<std::string, T>` is the list of its entries in iteration order.
* The value type `V` of the item maps is a parameter: the validator never
  looks inside a value.
* Functions of other libraries and of files that are not under src are
  parameters, or are modelled from the spec where their result is needed.
-/

namespace Sakura

/-! ## `std::map<std::string, T>` -/

/-- Entries of a `std::map<std::string, T>` in iteration order. -/
abbrev StdMap (β : Type) := List (String × β)

namespace StdMap

variable {β : Type}

/-- Lookup `std::map::find`: the mapped value, or `none` for `end()`. -/
def find : StdMap β → String → Option β
  | [], _ => none
  | (k, v) :: rest, key => if k = key then some v else find rest key

/-- Placement of a new entry before the first entry with a larger key. -/
def insertSorted : StdMap β → String → β → StdMap β
  | [], key, value => [(key, value)]
  | (k, v) :: rest, key, value =>
      if key.data < k.data then (key, value) :: (k, v) :: rest
      else (k, v) :: insertSorted rest key value

/-- Insertion `std::map::insert`: an existing key keeps its old value. -/
def insert (m : StdMap β) (key : String) (value : β) : StdMap β :=
  if (find m key).isSome then m else insertSorted m key value

/-- Write through the iterator that `find` returned for `key`. -/
def modify : StdMap β → String → (β → β) → StdMap β
  | [], _, _ => []
  | (k, v) :: rest, key, f =>
      if k = key then (k, f v) :: rest else (k, v) :: modify rest key f

end StdMap

/-! ## Items -/

/-- Modelled from the spec: the item declarations (`items/sakura_items.h`) are
not under src. A blossom call with the fields that the validator reads and
writes, under the names `validator.cpp` uses. -/
structure BlossomItem (V : Type) where
  blossomType : String
  blossomGroupType : String
  blossomName : String
  blossomPath : String
  values : StdMap V

/-- Modelled from the spec: the fields of a `Tree` item; `childs` is its body. -/
structure TreeItemOf (α : Type) (V : Type) where
  rootPath : String
  relativePath : String
  id : String
  values : StdMap V
  childs : α

/-- Modelled from the spec: the item sum type of `items/sakura_items.h`, one
constructor per type tag that `checkSakuraItem` tests, in the order it tests
them, and `undefined` for every other tag. -/
inductive SakuraItem (V : Type) where
  | sequentiell (childs : List (SakuraItem V))
  | tree (item : TreeItemOf (SakuraItem V) V)
  | subtree (referencedId : String) (values : StdMap V)
  | blossom (item : BlossomItem V)
  | blossomGroup (id : String) (blossomGroupType : String)
      (nameHirarchie : List String) (values : StdMap V)
      (blossoms : List (BlossomItem V))
  | ifBranching (condition : V) (ifContent : SakuraItem V)
      (elseContent : SakuraItem V)
  | forEachBranching (tempVarName : String) (iterateArray : V)
      (content : SakuraItem V)
  | forBranching (tempVarName : String) (start : V) (stop : V)
      (content : SakuraItem V)
  | parallel (childs : SakuraItem V)
  | undefined

/-- The class `TreeItem`. -/
abbrev TreeItem (V : Type) := TreeItemOf (SakuraItem V) V

/-- Modelled from the spec: the merge modes of `overrideItems`
(`items/item_methods.h` is not under src). -/
inductive OverrideType where
  | REPLACE
  | ONLY_NON_EXISTING
  | ONLY_EXISTING
  deriving DecidableEq

open OverrideType

/-- Modelled from the spec: `overrideItems(original, override, mode)` of
`items/item_methods.h`, which is not under src. For each entry of `override`:
`REPLACE` overwrites or adds it, `ONLY_NON_EXISTING` adds it only when
`original` has no such key, `ONLY_EXISTING` overwrites only an existing key. -/
def overrideItems {V : Type} (original : StdMap V) (override : StdMap V)
    (mode : OverrideType) : StdMap V :=
  override.foldl
    (fun dst entry =>
      match mode with
      | REPLACE =>
          if (StdMap.find dst entry.1).isSome
          then StdMap.modify dst entry.1 (fun _ => entry.2)
          else StdMap.insert dst entry.1 entry.2
      | ONLY_NON_EXISTING => StdMap.insert dst entry.1 entry.2
      | ONLY_EXISTING => StdMap.modify dst entry.1 (fun _ => entry.2))
    original

/-! ## Garden, handlers, interface -/

/-- The members of `SakuraGarden` (`sakura_garden.h`); a `DataBuffer` is its
bytes. -/
structure SakuraGarden (V : Type) where
  rootPath : String
  trees : StdMap (TreeItem V)
  resources : StdMap (TreeItem V)
  templates : StdMap String
  files : StdMap (List Nat)

/-- Modelled from the spec: `SakuraGarden::getRessource` is declared in
`sakura_garden.h` and its body is not under src; a lookup of `id` in
`resources` returning an optional. -/
def getRessource {V : Type} (garden : SakuraGarden V) (id : String) :
    Option (TreeItem V) :=
  StdMap.find garden.resources id

/-- Modelled from the spec: the handler contract of `blossom.h`, which is not
under src. `validateInput` gets the item and the error message by reference
and returns its verdict with the message it leaves behind; the spec calls it
pure, so the item is left as it is. -/
structure Blossom (V : Type) where
  validateInput : BlossomItem V → String → Bool × String

/-- The members of `SakuraLangInterface` that the validator and the registry
operations use: the garden and the two-level handler map. A stored `Blossom*`
is `some handler`, or `none` for the null pointer. -/
structure SakuraLangInterface (V : Type) where
  m_garden : SakuraGarden V
  m_registeredBlossoms : StdMap (StdMap (Option (Blossom V)))

variable {V : Type}

/-- Lookup `SakuraLangInterface::doesBlossomExist`. -/
def doesBlossomExist (interface : SakuraLangInterface V) (groupName : String)
    (itemName : String) : Bool :=
  match StdMap.find interface.m_registeredBlossoms groupName with
  | some group =>
      match StdMap.find group itemName with
      | some _ => true
      | none => false
  | none => false

/-- Registration `SakuraLangInterface::addBlossom`: the result and the
interface afterwards. The pointer `newBlossom` is stored as it is passed. -/
def addBlossom (interface : SakuraLangInterface V) (groupName : String)
    (itemName : String) (newBlossom : Option (Blossom V)) :
    Bool × SakuraLangInterface V :=
  if doesBlossomExist interface groupName itemName = true then
    (false, interface)
  else
    let withGroup :=
      match StdMap.find interface.m_registeredBlossoms groupName with
      | none => StdMap.insert interface.m_registeredBlossoms groupName []
      | some _ => interface.m_registeredBlossoms
    let registered :=
      StdMap.modify withGroup groupName
        (fun group => StdMap.insert group itemName newBlossom)
    (true, { interface with m_registeredBlossoms := registered })

/-- Lookup `SakuraLangInterface::getBlossom`: the stored pointer, and the null
pointer `none` when there is no entry. -/
def getBlossom (interface : SakuraLangInterface V) (groupName : String)
    (itemName : String) : Option (Blossom V) :=
  match StdMap.find interface.m_registeredBlossoms groupName with
  | some group =>
      match StdMap.find group itemName with
      | some blossom => blossom
      | none => none
  | none => none

/-! ## Validator

`createError` (`items/item_methods.h`) is not under src and is a parameter:
it composes a message from a blossom item, a component name and a reason. -/

/-- Check `checkBlossomItem`: the result and the error message afterwards. -/
def checkBlossomItem (createError : BlossomItem V → String → String → String)
    (interface : SakuraLangInterface V) (blossomItem : BlossomItem V)
    (errorMessage : String) : Bool × String :=
  match getRessource interface.m_garden blossomItem.blossomType with
  | some _ => (true, errorMessage)
  | none =>
      match getBlossom interface blossomItem.blossomGroupType
          blossomItem.blossomType with
      | none =>
          (false, createError blossomItem "validator" "unknow blossom-type")
      | some blossom => blossom.validateInput blossomItem errorMessage

/-- The `BLOSSOM_ITEM` branch of `checkSakuraItem`: the path is written into
the item, then `checkBlossomItem` decides. -/
def checkBlossomBranch (createError : BlossomItem V → String → String → String)
    (interface : SakuraLangInterface V) (blossomItem : BlossomItem V)
    (filePath : String) (errorMessage : String) :
    Bool × BlossomItem V × String :=
  let withPath := { blossomItem with blossomPath := filePath }
  let result := checkBlossomItem createError interface withPath errorMessage
  (result.1, withPath, result.2)

/-- The loop of the `BLOSSOM_GROUP_ITEM` branch of `checkSakuraItem` over
`blossomGroupItem->blossoms`; every child is a `BlossomItem`, so the call of
`checkSakuraItem` on it runs the `BLOSSOM_ITEM` branch. -/
def checkBlossomGroupChilds
    (createError : BlossomItem V → String → String → String)
    (interface : SakuraLangInterface V) (blossomGroupType : String)
    (id : String) (values : StdMap V) :
    List (BlossomItem V) → String → String →
      Bool × List (BlossomItem V) × String
  | [], _, errorMessage => (true, [], errorMessage)
  | blossomItem :: rest, filePath, errorMessage =>
      let prepared : BlossomItem V :=
        { blossomItem with
            blossomGroupType := blossomGroupType
            blossomName := id
            values := overrideItems blossomItem.values values ONLY_NON_EXISTING }
      let result :=
        checkBlossomBranch createError interface prepared filePath errorMessage
      if result.1 = false then (false, result.2.1 :: rest, result.2.2)
      else
        let others :=
          checkBlossomGroupChilds createError interface blossomGroupType id
            values rest filePath result.2.2
        (others.1, result.2.1 :: others.2.1, others.2.2)

mutual

/-- Check `checkSakuraItem`: the result, the item afterwards and the error
message afterwards. -/
def checkSakuraItem (createError : BlossomItem V → String → String → String)
    (interface : SakuraLangInterface V) :
    SakuraItem V → String → String → Bool × SakuraItem V × String
  | .sequentiell childs, filePath, errorMessage =>
      let result :=
        checkSequentiellChilds createError interface childs filePath
          errorMessage
      (result.1, .sequentiell result.2.1, result.2.2)
  | .tree treeItem, _, errorMessage =>
      let result := checkTreeItem createError interface treeItem errorMessage
      (result.1, .tree result.2.1, result.2.2)
  | .subtree referencedId values, _, errorMessage =>
      (true, .subtree referencedId values, errorMessage)
  | .blossom blossomItem, filePath, errorMessage =>
      let result :=
        checkBlossomBranch createError interface blossomItem filePath
          errorMessage
      (result.1, .blossom result.2.1, result.2.2)
  | .blossomGroup id blossomGroupType nameHirarchie values blossoms, filePath,
      errorMessage =>
      let result :=
        checkBlossomGroupChilds createError interface blossomGroupType id
          values blossoms filePath errorMessage
      (result.1,
        .blossomGroup id blossomGroupType nameHirarchie values result.2.1,
        result.2.2)
  | .ifBranching condition ifContent elseContent, filePath, errorMessage =>
      let first :=
        checkSakuraItem createError interface ifContent filePath errorMessage
      if first.1 = false then
        (false, .ifBranching condition first.2.1 elseContent, first.2.2)
      else
        let second :=
          checkSakuraItem createError interface elseContent filePath first.2.2
        if second.1 = false then
          (false, .ifBranching condition first.2.1 second.2.1, second.2.2)
        else (true, .ifBranching condition first.2.1 second.2.1, second.2.2)
  | .forEachBranching tempVarName iterateArray content, filePath,
      errorMessage =>
      let result :=
        checkSakuraItem createError interface content filePath errorMessage
      (result.1, .forEachBranching tempVarName iterateArray result.2.1,
        result.2.2)
  | .forBranching tempVarName start stop content, filePath, errorMessage =>
      let result :=
        checkSakuraItem createError interface content filePath errorMessage
      (result.1, .forBranching tempVarName start stop result.2.1, result.2.2)
  | .parallel childs, filePath, errorMessage =>
      let result :=
        checkSakuraItem createError interface childs filePath errorMessage
      (result.1, .parallel result.2.1, result.2.2)
  | .undefined, _, errorMessage => (false, .undefined, errorMessage)

/-- The `TREE_ITEM` branch of `checkSakuraItem`: the body is checked under the
path `rootPath + "/" + relativePath`. -/
def checkTreeItem (createError : BlossomItem V → String → String → String)
    (interface : SakuraLangInterface V) :
    TreeItemOf (SakuraItem V) V → String → Bool × TreeItem V × String
  | ⟨rootPath, relativePath, id, values, childs⟩, errorMessage =>
      let completePath := rootPath ++ "/" ++ relativePath
      let result :=
        checkSakuraItem createError interface childs completePath errorMessage
      (result.1, ⟨rootPath, relativePath, id, values, result.2.1⟩, result.2.2)

/-- The loop of the `SEQUENTIELL_ITEM` branch of `checkSakuraItem`. -/
def checkSequentiellChilds
    (createError : BlossomItem V → String → String → String)
    (interface : SakuraLangInterface V) :
    List (SakuraItem V) → String → String →
      Bool × List (SakuraItem V) × String
  | [], _, errorMessage => (true, [], errorMessage)
  | item :: rest, filePath, errorMessage =>
      let result :=
        checkSakuraItem createError interface item filePath errorMessage
      if result.1 = false then (false, result.2.1 :: rest, result.2.2)
      else
        let others :=
          checkSequentiellChilds createError interface rest filePath result.2.2
        (others.1, result.2.1 :: others.2.1, others.2.2)

end

/-- The loop of `checkAllItems` over the entries of `garden.trees`; every
mapped item is a `TreeItem`, so the call of `checkSakuraItem` on it runs the
`TREE_ITEM` branch, whatever file path is passed. -/
def checkAllTrees (createError : BlossomItem V → String → String → String)
    (interface : SakuraLangInterface V) :
    StdMap (TreeItem V) → String → Bool × StdMap (TreeItem V) × String
  | [], errorMessage => (true, [], errorMessage)
  | (key, treeItem) :: rest, errorMessage =>
      let result := checkTreeItem createError interface treeItem errorMessage
      if result.1 = false then (false, (key, result.2.1) :: rest, result.2.2)
      else
        let others := checkAllTrees createError interface rest result.2.2
        (others.1, (key, result.2.1) :: others.2.1, others.2.2)

/-- Check `checkAllItems`: the result, the trees of the garden afterwards and
the error message afterwards. -/
def checkAllItems (createError : BlossomItem V → String → String → String)
    (interface : SakuraLangInterface V) (garden : SakuraGarden V)
    (errorMessage : String) : Bool × StdMap (TreeItem V) × String :=
  checkAllTrees createError interface garden.trees errorMessage

/-! ## Printing

`std::string` is a Lean string with one character for each `char`. -/

/-- Output `SakuraLangInterface::printOutput(const std::string&)`: the text
handed to `LOG_INFO`, for the `ws_col` that the terminal query left in `size`.
The mutex is not part of the model. -/
def printOutput (ws_col : Nat) (output : String) : String :=
  let terminalWidth := ws_col % 2 ^ 32
  let terminalWidth := if terminalWidth > 300 then 300 else terminalWidth
  let line := String.mk (List.replicate terminalWidth '=')
  line ++ "\n\n" ++ output ++ "\n"

/-! ## Parsed files

A `JsonItem` (libKitsunemimiJson) is a value of a parameter type `J`; what the
code asks of it is passed in as functions. -/

/-- The search loop of `SakuraParsing::getParsedFileContent`; `idOf` is
`get("b_id").toString()` and `invalid` is `JsonItem()`. -/
def searchParsedFileContent {J : Type} (idOf : J → String) (invalid : J) :
    List (String × J) → String → J
  | [], _ => invalid
  | entry :: rest, name =>
      if idOf entry.2 = name then entry.2
      else searchParsedFileContent idOf invalid rest name

/-- Lookup `SakuraParsing::getParsedFileContent` on `m_fileContents`. -/
def getParsedFileContent {J : Type} (idOf : J → String) (invalid : J)
    (m_fileContents : List (String × J)) (name : String) : J :=
  if name = "" ∧ m_fileContents.length > 0 then
    match m_fileContents with
    | first :: _ => first.2
    | [] => invalid
  else searchParsedFileContent idOf invalid m_fileContents name

/-- What a `directory_iterator` yields: for each entry its `path().string()`,
its `path().leaf().string()` and, for a directory, its own entries. -/
inductive DirEntry where
  | file (path : String) (leaf : String)
  | directory (path : String) (leaf : String) (entries : List DirEntry)

mutual

/-- The body of the loop of `SakuraParsing::getFilesInDir` for one entry;
`invalid` is `JsonItem()`. The debug output is not part of the model. -/
def getFilesInDirEntry {J : Type} (invalid : J) :
    DirEntry → List (String × J) → List (String × J)
  | .directory _ leaf entries, m_fileContents =>
      if leaf ≠ "templates" ∧ leaf ≠ "files" then
        getFilesInDir invalid entries m_fileContents
      else m_fileContents
  | .file path _, m_fileContents => m_fileContents ++ [(path, invalid)]

/-- Walk `SakuraParsing::getFilesInDir` over the entries of a directory:
`m_fileContents` afterwards. -/
def getFilesInDir {J : Type} (invalid : J) :
    List DirEntry → List (String × J) → List (String × J)
  | [], m_fileContents => m_fileContents
  | entry :: rest, m_fileContents =>
      getFilesInDir invalid rest
        (getFilesInDirEntry invalid entry m_fileContents)

end

/-! ## Host entry point

`W` is the state that running a tree changes (queued subtrees, executed
blossoms); `D` is the value type of the initial values. -/

/-- Modelled from the spec: `checkInput(declared, supplied)` of
`items/item_methods.h`, which is not under src: the keys of `supplied` that
`declared` does not have, in the iteration order of `supplied`. -/
def checkInput {A B : Type} (declared : StdMap A) (supplied : StdMap B) :
    List String :=
  (supplied.filter
    (fun entry => (StdMap.find declared entry.1).isNone)).map Prod.fst

/-- What `processFiles` calls and src does not hold: the boost::filesystem
queries, `SakuraGarden::addTree` and `SakuraGarden::getTree` (declared in
`sakura_garden.h`), `createError`, and `SubtreeQueue::spawnParallelSubtrees`.
A function that writes through a reference returns what it left there. -/
structure Collaborators (V : Type) (D : Type) (W : Type) where
  is_regular_file : String → Bool
  is_directory : String → Bool
  parent_path : String → String
  relative : String → String → String
  addTree : SakuraGarden V → String → String → Bool × SakuraGarden V × String
  getTree : SakuraGarden V → String → String → Option (TreeItem V)
  createError : BlossomItem V → String → String → String
  spawnParallelSubtrees :
    W → SakuraLangInterface V → List (SakuraItem V) → String → List String →
      StdMap D → String → Bool × W × String

/-- The first line of the message for input values the root tree lacks. -/
def failedInputHeader : String :=
  "Following input-values are not valid for the initial tress:\n"

/-- The file that `processFiles` parses: `root.sakura` inside a directory, the
input path itself otherwise. -/
def rootTreeFile {D W : Type} (env : Collaborators V D W) (inputPath : String) :
    String :=
  if env.is_directory inputPath = true then inputPath ++ "/root.sakura"
  else inputPath

/-- Run `SakuraLangInterface::runProcess`: the result, the state of execution
afterwards and the error message afterwards. -/
def runProcess {D W : Type} (env : Collaborators V D W) (world : W)
    (interface : SakuraLangInterface V) (item : SakuraItem V)
    (initialValues : StdMap D) (errorMessage : String) : Bool × W × String :=
  let childs := [item]
  let hierarchy : List String := []
  env.spawnParallelSubtrees world interface childs "" hierarchy initialValues
    errorMessage

/-- Entry `SakuraLangInterface::processFiles`: the result, the interface
afterwards, the state of execution afterwards and the error message
afterwards. `checkAllItems(this, errorMessage)` is the check of
`validator.cpp` on the interface's own garden. The pointer `tree` is an entry
of the garden that the validator writes to, so it is read again before it is
run. -/
def processFiles {D W : Type} (env : Collaborators V D W) (world : W)
    (interface : SakuraLangInterface V) (inputPath : String)
    (initialValues : StdMap D) (dryRun : Bool) (errorMessage : String) :
    Bool × SakuraLangInterface V × W × String :=
  if env.is_regular_file inputPath = false
      ∧ env.is_directory inputPath = false then
    (false, interface, world,
      "Not a regular file or directory as input-path " ++ inputPath)
  else
    let treeFile := rootTreeFile env inputPath
    let added := env.addTree interface.m_garden treeFile errorMessage
    let loaded : SakuraLangInterface V :=
      { interface with m_garden := added.2.1 }
    if added.1 = false then
      (false, loaded, world, "failed to add trees\n    " ++ added.2.2)
    else
      let parent := env.parent_path treeFile
      let relPath := env.relative treeFile parent
      match env.getTree loaded.m_garden relPath parent with
      | none =>
          (false, loaded, world,
            "No tree found for the input-path " ++ treeFile)
      | some tree =>
          let failedInput := checkInput tree.values initialValues
          if failedInput.length > 0 then
            (false, loaded, world,
              failedInput.foldl
                (fun message item => message ++ ("    " ++ item ++ "\n"))
                failedInputHeader)
          else
            let checked :=
              checkAllItems env.createError loaded loaded.m_garden added.2.2
            let validated : SakuraLangInterface V :=
              { loaded with
                  m_garden := { loaded.m_garden with trees := checked.2.1 } }
            if checked.1 = false then
              (false, validated, world, checked.2.2)
            else if dryRun = true then (true, validated, world, checked.2.2)
            else
              let current :=
                (env.getTree validated.m_garden relPath parent).getD tree
              let ran :=
                runProcess env world validated (.tree current) initialValues
                  checked.2.2
              if ran.1 = false then (false, validated, ran.2.1, ran.2.2)
              else (true, validated, ran.2.1, ran.2.2)

/-! ## Error tables and the parser interface -/

/-- Modelled from the spec: a key-value error table. `TableItem`
(libKitsunemimiCommon) is not under src; it holds column names and rows of
cells, and a row is added when it has one cell for each column. -/
structure TableItem where
  columns : List String
  rows : List (List String)

/-- Reset `TableItem::clearTable`. -/
def TableItem.clearTable (_ : TableItem) : TableItem :=
  { columns := [], rows := [] }

/-- Append `TableItem::addColumn`. -/
def TableItem.addColumn (table : TableItem) (name : String) : TableItem :=
  { table with columns := table.columns ++ [name] }

/-- Append `TableItem::addRow`. -/
def TableItem.addRow (table : TableItem) (row : List String) : TableItem :=
  if row.length = table.columns.length then
    { table with rows := table.rows ++ [row] }
  else table

/-- A line and a column of the parsed text, as bison counts them. -/
structure Position where
  line : Nat
  column : Nat

/-- The span `location` of bison: where a token begins and where it ends. -/
structure Location where
  begin_ : Position
  end_ : Position

/-- What C++ leaves undefined or answers with an exception. -/
inductive Fault where
  | indexOutOfBounds
  | substrOutOfRange
  deriving DecidableEq

/-- Member `std::string::substr(pos, len)`: at most `len` characters from
`pos` on, and `std::out_of_range` when `pos` is behind the end. -/
def substr (text : String) (pos : Nat) (len : Nat) : Except Fault String :=
  if pos > text.length then .error .substrOutOfRange
  else .ok (String.mk ((text.data.drop pos).take len))

/-- Callback `SakuraParserInterface::error`: the error table afterwards.
`splitStringByDelimiter` (libKitsunemimiCommon) is a parameter. The `uint32_t`
values are taken modulo 2^32; indexing the vector of lines behind its end is
a fault. -/
def error (splitStringByDelimiter : String → Char → List String)
    (m_inputString : String) (m_errorMessage : TableItem)
    (location : Location) (message : String) (customError : Bool) :
    Except Fault TableItem :=
  let errorStart := location.begin_.column % 2 ^ 32
  let errorLength :=
    (location.end_.column + 2 ^ 32 - location.begin_.column % 2 ^ 32) % 2 ^ 32
  let linenumber := location.begin_.line % 2 ^ 32
  let splittedContent := splitStringByDelimiter m_inputString '\n'
  let table :=
    (((m_errorMessage.addRow ["component", "libKitsunemimiSakuraParser"]).addRow
      ["source", "while parsing sakura-file"]).addRow
      ["message", message]).addRow ["line-number", toString linenumber]
  if customError = false then
    match splittedContent[(linenumber + 2 ^ 32 - 1) % 2 ^ 32]? with
    | none => .error .indexOutOfBounds
    | some line =>
        if line.length > (errorStart + 2 ^ 32 - 1 + errorLength) % 2 ^ 32 then
          match substr line ((errorStart + 2 ^ 32 - 1) % 2 ^ 32)
              errorLength with
          | .error fault => .error fault
          | .ok part =>
              .ok
                ((table.addRow
                  ["position in line", toString location.begin_.column]).addRow
                  ["broken part in string", "\"" ++ part ++ "\""])
        else
          .ok
            (table.addRow
              ["position in line",
                "UNKNOWN POSITION (maybe a string was not closed)"])
  else .ok table

/-- One run of the bison parser on an input: its return code, the calls of
`error` it makes in order, and the output it sets. The parser itself
(`sakura_parser.h`) is generated and not under src. -/
structure ParserRun (J : Type) where
  res : Int
  errors : List (Location × String × Bool)
  output : J

/-- The calls of `error` of one parser run, applied in order. -/
def reportErrors (splitStringByDelimiter : String → Char → List String)
    (m_inputString : String) :
    TableItem → List (Location × String × Bool) → Except Fault TableItem
  | table, [] => .ok table
  | table, call :: rest =>
      match error splitStringByDelimiter m_inputString table call.1 call.2.1
          call.2.2 with
      | .error fault => .error fault
      | .ok reported =>
          reportErrors splitStringByDelimiter m_inputString reported rest

/-- Start `SakuraParserInterface::parse`: the result, `m_errorMessage` and
`m_output` afterwards. -/
def parse {J : Type} (splitStringByDelimiter : String → Char → List String)
    (parser : String → ParserRun J) (m_errorMessage : TableItem)
    (inputString : String) : Except Fault (Bool × TableItem × J) :=
  let table :=
    ((m_errorMessage.clearTable.addColumn "key").addColumn "value").addRow
      ["ERROR", " "]
  let run := parser inputString
  match reportErrors splitStringByDelimiter inputString table run.errors with
  | .error fault => .error fault
  | .ok reported =>
      if run.res ≠ 0 then .ok (false, reported, run.output)
      else .ok (true, reported, run.output)

/-- What `SakuraParsing` calls and src does not hold: the boost::filesystem
queries, the entries a `directory_iterator` yields below a path, `readFile`
(with the error message it leaves), `splitStringByDelimiter`, the generated
parser, the conversion of the parser output with its "b_path" set, and the
empty `JsonItem()`. -/
structure ParsingCollaborators (J : Type) where
  pathExists : String → Bool
  is_directory : String → Bool
  directoryEntries : String → List DirEntry
  readFile : String → String → (Bool × String) × String
  splitStringByDelimiter : String → Char → List String
  parser : String → ParserRun J
  withPath : J → String → J
  invalid : J

/-- The members of `SakuraParsing` and of its parser interface that
`parseFiles` writes: the file list, its own error table and the error table of
the parser interface. -/
structure SakuraParsing (J : Type) where
  m_fileContents : List (String × J)
  m_errorMessage : TableItem
  m_parserErrorMessage : TableItem

/-- The loop of `SakuraParsing::parseAllFiles` over `m_fileContents`: `done`
are the entries before index i, the second list those from index i on. The
debug output is not part of the model. -/
def parseFileContents {J : Type} (env : ParsingCollaborators J) :
    List (String × J) → List (String × J) → TableItem → TableItem →
      Except Fault (Bool × SakuraParsing J)
  | done, [], m_errorMessage, parserTable =>
      .ok (true, ⟨done, m_errorMessage, parserTable⟩)
  | done, (filePath, content) :: rest, m_errorMessage, parserTable =>
      let result := env.readFile filePath ""
      if result.1.1 = false then
        .ok (false,
          ⟨done ++ (filePath, content) :: rest,
            (m_errorMessage.addRow ["source", "while reading sakura-files"]).addRow
              ["message",
                "failed to read file-path: " ++ filePath ++ " with error: "
                  ++ result.2],
            parserTable⟩)
      else
        match parse env.splitStringByDelimiter env.parser parserTable
            result.1.2 with
        | .error fault => .error fault
        | .ok parsed =>
            if parsed.1 = false then
              .ok (false,
                ⟨done ++ (filePath, content) :: rest, parsed.2.1, parsed.2.1⟩)
            else
              parseFileContents env
                (done ++ [(filePath, env.withPath parsed.2.2 filePath)]) rest
                m_errorMessage parsed.2.1

/-- Search `SakuraParsing::parseAllFiles`: the result and the members
afterwards. -/
def parseAllFiles {J : Type} (env : ParsingCollaborators J)
    (self : SakuraParsing J) (rootPath : String) :
    Except Fault (Bool × SakuraParsing J) :=
  if env.pathExists rootPath = false then
    .ok (false,
      { self with
          m_errorMessage :=
            (self.m_errorMessage.addRow
              ["source", "while reading sakura-files"]).addRow
              ["message", "path doesn't exist: " ++ rootPath] })
  else if env.is_directory rootPath = true then
    let found :=
      getFilesInDir env.invalid (env.directoryEntries rootPath)
        self.m_fileContents
    if found.length = 0 then
      .ok (false,
        { self with
            m_fileContents := found
            m_errorMessage :=
              (self.m_errorMessage.addRow
                ["source", "while reading sakura-files"]).addRow
                ["message", "no files found in the directory: " ++ rootPath] })
    else
      parseFileContents env [] found self.m_errorMessage
        self.m_parserErrorMessage
  else
    parseFileContents env []
      (self.m_fileContents ++ [(rootPath, env.invalid)]) self.m_errorMessage
      self.m_parserErrorMessage

/-- Entry `SakuraParsing::parseFiles`: the result and the members
afterwards. -/
def parseFiles {J : Type} (env : ParsingCollaborators J)
    (self : SakuraParsing J) (rootPath : String) :
    Except Fault (Bool × SakuraParsing J) :=
  let table :=
    (((self.m_errorMessage.clearTable.addColumn "key").addColumn
      "value").addRow ["ERROR", " "]).addRow
      ["component", "libKitsunemimiSakuraParser"]
  parseAllFiles env
    { self with m_fileContents := [], m_errorMessage := table } rootPath

/-- Getter `SakuraParsing::getError`. -/
def getError {J : Type} (self : SakuraParsing J) : TableItem :=
  self.m_errorMessage

/-! ## Quoted tokens -/

/-- The loop of `SakuraParserInterface::removeQuotes`. The counter `i` is a
`uint32_t` and is taken modulo 2^32, the bound `input.length()-1` is a
`size_t`. `fuel` bounds the number of times the loop condition is tested;
`none` when the fuel runs out. -/
def removeQuotesLoop (input : String) : Nat → Nat → String → Option String
  | 0, _, _ => none
  | fuel + 1, i, result =>
      if i < input.length - 1 then
        removeQuotesLoop input fuel ((i + 1) % 2 ^ 32)
          (result.push (input.data.getD i ' '))
      else some result

/-- Helper `SakuraParserInterface::removeQuotes`; `none` when the loop has not
ended within `fuel` tests of its condition. -/
def removeQuotes (fuel : Nat) (input : String) : Option String :=
  if input.length = 0 then some input
  else if input.data.getD 0 ' ' = '"'
      ∧ input.data.getD (input.length - 1) ' ' = '"' then
    removeQuotesLoop input fuel 1 ""
  else some input

/-! ## Notions the properties are stated with -/

mutual

/-- The blossoms reachable from an item: through Sequential children, a Tree
body, BlossomGroup children, both branches of an If, For and ForEach bodies
and a Parallel body. -/
def reachableBlossoms : SakuraItem V → List (BlossomItem V)
  | .sequentiell childs => reachableBlossomsOfChilds childs
  | .tree treeItem => reachableBlossomsOfTree treeItem
  | .subtree _ _ => []
  | .blossom blossomItem => [blossomItem]
  | .blossomGroup _ _ _ _ blossoms => blossoms
  | .ifBranching _ ifContent elseContent =>
      reachableBlossoms ifContent ++ reachableBlossoms elseContent
  | .forEachBranching _ _ content => reachableBlossoms content
  | .forBranching _ _ _ content => reachableBlossoms content
  | .parallel childs => reachableBlossoms childs
  | .undefined => []

/-- The blossoms reachable from the body of a Tree. -/
def reachableBlossomsOfTree : TreeItemOf (SakuraItem V) V → List (BlossomItem V)
  | ⟨_, _, _, _, childs⟩ => reachableBlossoms childs

/-- The blossoms reachable from a list of items. -/
def reachableBlossomsOfChilds : List (SakuraItem V) → List (BlossomItem V)
  | [] => []
  | item :: rest => reachableBlossoms item ++ reachableBlossomsOfChilds rest

end

/-- A child of a BlossomGroup as the group loop hands it to the check: group
type and name taken from the group, values filled from the group's values,
path set to the file path in force. -/
def preparedChild (blossomGroupType : String) (id : String) (values : StdMap V)
    (filePath : String) (blossomItem : BlossomItem V) : BlossomItem V :=
  { blossomItem with
      blossomGroupType := blossomGroupType
      blossomName := id
      blossomPath := filePath
      values := overrideItems blossomItem.values values ONLY_NON_EXISTING }

/-- A blossom that has a matching resource, or a registered handler whose
validateInput returned true for it. -/
def ResolvedBlossom (interface : SakuraLangInterface V)
    (blossomItem : BlossomItem V) : Prop :=
  (getRessource interface.m_garden blossomItem.blossomType).isSome = true ∨
    ∃ handler : Blossom V,
      getBlossom interface blossomItem.blossomGroupType
          blossomItem.blossomType = some handler ∧
        ∃ errorMessage : String,
          (handler.validateInput blossomItem errorMessage).1 = true

mutual

/-- The reachable blossoms, each with the file path in force where it stands:
the path handed in, replaced below a Tree by rootPath + "/" + relativePath. -/
def reachableBlossomsAt : SakuraItem V → String → List (String × BlossomItem V)
  | .sequentiell childs, filePath => reachableBlossomsAtOfChilds childs filePath
  | .tree treeItem, _ => reachableBlossomsAtOfTree treeItem
  | .subtree _ _, _ => []
  | .blossom blossomItem, filePath => [(filePath, blossomItem)]
  | .blossomGroup _ _ _ _ blossoms, filePath =>
      blossoms.map (fun blossomItem => (filePath, blossomItem))
  | .ifBranching _ ifContent elseContent, filePath =>
      reachableBlossomsAt ifContent filePath
        ++ reachableBlossomsAt elseContent filePath
  | .forEachBranching _ _ content, filePath =>
      reachableBlossomsAt content filePath
  | .forBranching _ _ _ content, filePath =>
      reachableBlossomsAt content filePath
  | .parallel childs, filePath => reachableBlossomsAt childs filePath
  | .undefined, _ => []

/-- The reachable blossoms of the body of a Tree with their file path. -/
def reachableBlossomsAtOfTree :
    TreeItemOf (SakuraItem V) V → List (String × BlossomItem V)
  | ⟨rootPath, relativePath, _, _, childs⟩ =>
      reachableBlossomsAt childs (rootPath ++ "/" ++ relativePath)

/-- The reachable blossoms of a list of items with their file path. -/
def reachableBlossomsAtOfChilds :
    List (SakuraItem V) → String → List (String × BlossomItem V)
  | [], _ => []
  | item :: rest, filePath =>
      reachableBlossomsAt item filePath
        ++ reachableBlossomsAtOfChilds rest filePath

end

mutual

/-- Whether an item is built only from Sequential, Tree, Subtree, Blossom,
BlossomGroup, If, ForEach, For and Parallel items. -/
def onlyKnownItems : SakuraItem V → Bool
  | .sequentiell childs => onlyKnownItemsOfChilds childs
  | .tree treeItem => onlyKnownItemsOfTree treeItem
  | .subtree _ _ => true
  | .blossom _ => true
  | .blossomGroup _ _ _ _ _ => true
  | .ifBranching _ ifContent elseContent =>
      onlyKnownItems ifContent && onlyKnownItems elseContent
  | .forEachBranching _ _ content => onlyKnownItems content
  | .forBranching _ _ _ content => onlyKnownItems content
  | .parallel childs => onlyKnownItems childs
  | .undefined => false

/-- Whether the body of a Tree is built only from the nine item kinds. -/
def onlyKnownItemsOfTree : TreeItemOf (SakuraItem V) V → Bool
  | ⟨_, _, _, _, childs⟩ => onlyKnownItems childs

/-- Whether a list of items is built only from the nine item kinds. -/
def onlyKnownItemsOfChilds : List (SakuraItem V) → Bool
  | [] => true
  | item :: rest => onlyKnownItems item && onlyKnownItemsOfChilds rest

end

mutual

/-- The referencedId of every Subtree item reachable from an item. -/
def reachableSubtreeIds : SakuraItem V → List String
  | .sequentiell childs => reachableSubtreeIdsOfChilds childs
  | .tree treeItem => reachableSubtreeIdsOfTree treeItem
  | .subtree referencedId _ => [referencedId]
  | .blossom _ => []
  | .blossomGroup _ _ _ _ _ => []
  | .ifBranching _ ifContent elseContent =>
      reachableSubtreeIds ifContent ++ reachableSubtreeIds elseContent
  | .forEachBranching _ _ content => reachableSubtreeIds content
  | .forBranching _ _ _ content => reachableSubtreeIds content
  | .parallel childs => reachableSubtreeIds childs
  | .undefined => []

/-- The referencedId of every Subtree item in the body of a Tree. -/
def reachableSubtreeIdsOfTree : TreeItemOf (SakuraItem V) V → List String
  | ⟨_, _, _, _, childs⟩ => reachableSubtreeIds childs

/-- The referencedId of every Subtree item in a list of items. -/
def reachableSubtreeIdsOfChilds : List (SakuraItem V) → List String
  | [] => []
  | item :: rest => reachableSubtreeIds item ++ reachableSubtreeIdsOfChilds rest

end

mutual

/-- The item with the referencedId of every reachable Subtree item replaced
through `rename`. -/
def renameSubtrees (rename : String → String) : SakuraItem V → SakuraItem V
  | .sequentiell childs => .sequentiell (renameSubtreesOfChilds rename childs)
  | .tree treeItem => .tree (renameSubtreesOfTree rename treeItem)
  | .subtree referencedId values => .subtree (rename referencedId) values
  | .blossom blossomItem => .blossom blossomItem
  | .blossomGroup id blossomGroupType nameHirarchie values blossoms =>
      .blossomGroup id blossomGroupType nameHirarchie values blossoms
  | .ifBranching condition ifContent elseContent =>
      .ifBranching condition (renameSubtrees rename ifContent)
        (renameSubtrees rename elseContent)
  | .forEachBranching tempVarName iterateArray content =>
      .forEachBranching tempVarName iterateArray (renameSubtrees rename content)
  | .forBranching tempVarName start stop content =>
      .forBranching tempVarName start stop (renameSubtrees rename content)
  | .parallel childs => .parallel (renameSubtrees rename childs)
  | .undefined => .undefined

/-- The Tree with the Subtree items of its body renamed. -/
def renameSubtreesOfTree (rename : String → String) :
    TreeItemOf (SakuraItem V) V → TreeItem V
  | ⟨rootPath, relativePath, id, values, childs⟩ =>
      ⟨rootPath, relativePath, id, values, renameSubtrees rename childs⟩

/-- The list of items with their Subtree items renamed. -/
def renameSubtreesOfChilds (rename : String → String) :
    List (SakuraItem V) → List (SakuraItem V)
  | [] => []
  | item :: rest =>
      renameSubtrees rename item :: renameSubtreesOfChilds rename rest

end

/-- The entries of `trees` with the Subtree items of every tree renamed. -/
def renameSubtreesOfTrees (rename : String → String) :
    StdMap (TreeItem V) → StdMap (TreeItem V)
  | [] => []
  | (key, treeItem) :: rest =>
      (key, renameSubtreesOfTree rename treeItem)
        :: renameSubtreesOfTrees rename rest

/-- The garden with the Subtree items of its trees renamed; resources,
templates and files are kept. -/
def renameSubtreesOfGarden (rename : String → String)
    (garden : SakuraGarden V) : SakuraGarden V :=
  { garden with trees := renameSubtreesOfTrees rename garden.trees }

/-- The referencedId of every Subtree item reachable in the trees of a map. -/
def reachableSubtreeIdsOfTrees : StdMap (TreeItem V) → List String
  | [] => []
  | (_, treeItem) :: rest =>
      reachableSubtreeIdsOfTree treeItem ++ reachableSubtreeIdsOfTrees rest

/-- The error message `message` is the one of the rejected blossom
`blossomItem`, visited under `filePath`: its path has been written, it names
no resource, and either no handler is registered for it and the message is
composed by createError from the item, the component "validator" and a reason
text, or its registered handler returned false and left the message. -/
def RejectedBlossomMessage
    (createError : BlossomItem V → String → String → String)
    (interface : SakuraLangInterface V) (filePath : String)
    (blossomItem : BlossomItem V) (message : String) : Prop :=
  blossomItem.blossomPath = filePath ∧
    getRessource interface.m_garden blossomItem.blossomType = none ∧
    ((getBlossom interface blossomItem.blossomGroupType
          blossomItem.blossomType = none ∧
        ∃ reason : String,
          message = createError blossomItem "validator" reason) ∨
      ∃ (handler : Blossom V) (before : String),
        getBlossom interface blossomItem.blossomGroupType
            blossomItem.blossomType = some handler ∧
          handler.validateInput blossomItem before = (false, message))

/-- A non-directory entry with the path `path` can be reached from the entries
of a directory through subdirectories none of which is named exactly
"templates" or "files". -/
inductive ReachableFile (path : String) : List DirEntry → Prop where
  | direct (leaf : String) (entries : List DirEntry) :
      DirEntry.file path leaf ∈ entries → ReachableFile path entries
  | through (dirPath : String) (leaf : String) (sub : List DirEntry)
      (entries : List DirEntry) :
      DirEntry.directory dirPath leaf sub ∈ entries →
      leaf ≠ "templates" → leaf ≠ "files" →
      ReachableFile path sub → ReachableFile path entries

mutual

/-- The blossoms of an item that stand outside every Tree item below it. -/
def blossomsOutsideTrees : SakuraItem V → List (BlossomItem V)
  | .sequentiell childs => blossomsOutsideTreesOfChilds childs
  | .tree _ => []
  | .subtree _ _ => []
  | .blossom blossomItem => [blossomItem]
  | .blossomGroup _ _ _ _ blossoms => blossoms
  | .ifBranching _ ifContent elseContent =>
      blossomsOutsideTrees ifContent ++ blossomsOutsideTrees elseContent
  | .forEachBranching _ _ content => blossomsOutsideTrees content
  | .forBranching _ _ _ content => blossomsOutsideTrees content
  | .parallel childs => blossomsOutsideTrees childs
  | .undefined => []

/-- The blossoms of a list of items that stand outside every Tree item. -/
def blossomsOutsideTreesOfChilds : List (SakuraItem V) → List (BlossomItem V)
  | [] => []
  | item :: rest =>
      blossomsOutsideTrees item ++ blossomsOutsideTreesOfChilds rest

end

mutual

/-- The reachable blossoms after the group fill and the path assignment: a
blossom with the file path in force written into it, a child of a
BlossomGroup as `preparedChild` describes it. -/
def blossomsAsValidated : SakuraItem V → String → List (BlossomItem V)
  | .sequentiell childs, filePath => blossomsAsValidatedOfChilds childs filePath
  | .tree treeItem, _ => blossomsAsValidatedOfTree treeItem
  | .subtree _ _, _ => []
  | .blossom blossomItem, filePath =>
      [{ blossomItem with blossomPath := filePath }]
  | .blossomGroup id blossomGroupType _ values blossoms, filePath =>
      blossoms.map (preparedChild blossomGroupType id values filePath)
  | .ifBranching _ ifContent elseContent, filePath =>
      blossomsAsValidated ifContent filePath
        ++ blossomsAsValidated elseContent filePath
  | .forEachBranching _ _ content, filePath =>
      blossomsAsValidated content filePath
  | .forBranching _ _ _ content, filePath =>
      blossomsAsValidated content filePath
  | .parallel childs, filePath => blossomsAsValidated childs filePath
  | .undefined, _ => []

/-- The blossoms of the body of a Tree after fill and path assignment. -/
def blossomsAsValidatedOfTree :
    TreeItemOf (SakuraItem V) V → List (BlossomItem V)
  | ⟨rootPath, relativePath, _, _, childs⟩ =>
      blossomsAsValidated childs (rootPath ++ "/" ++ relativePath)

/-- The blossoms of a list of items after fill and path assignment. -/
def blossomsAsValidatedOfChilds :
    List (SakuraItem V) → String → List (BlossomItem V)
  | [], _ => []
  | item :: rest, filePath =>
      blossomsAsValidated item filePath
        ++ blossomsAsValidatedOfChilds rest filePath

end

/-- A blossom that names a resource, or has a registered handler whose
validateInput accepts it whatever error message it is handed. -/
def AcceptableBlossom (interface : SakuraLangInterface V)
    (blossomItem : BlossomItem V) : Prop :=
  (getRessource interface.m_garden blossomItem.blossomType).isSome = true ∨
    ∃ handler : Blossom V,
      getBlossom interface blossomItem.blossomGroupType
          blossomItem.blossomType = some handler ∧
        ∀ before : String,
          (handler.validateInput blossomItem before).1 = true

/-- The keys of a list, each on its own line indented by four spaces, in the
order of the list. -/
def indentedLines : List String → String
  | [] => ""
  | key :: rest => "    " ++ key ++ "\n" ++ indentedLines rest

/-- The table has a row whose first cell is `key`. -/
def TableItem.hasRowFor (table : TableItem) (key : String) : Prop :=
  ∃ row ∈ table.rows, row.head? = some key

/-- The entry of the registry under (group, name), when there is one: the
stored pointer. -/
def registryEntry (interface : SakuraLangInterface V) (groupName : String)
    (itemName : String) : Option (Option (Blossom V)) :=
  (StdMap.find interface.m_registeredBlossoms groupName).bind
    (fun group => StdMap.find group itemName)

/-- The interfaces whose registry is built from the empty registry by
addBlossom calls that pass a handler (a pointer that is not null). -/
inductive ReachableRegistry : SakuraLangInterface V → Prop where
  | empty (garden : SakuraGarden V) :
      ReachableRegistry { m_garden := garden, m_registeredBlossoms := [] }
  | added (interface : SakuraLangInterface V) (groupName : String)
      (itemName : String) (handler : Blossom V) :
      ReachableRegistry interface →
      ReachableRegistry
        (addBlossom interface groupName itemName (some handler)).2

/-! ## Concrete data -/

/-- A message composer that joins component, reason, path, group type and
blossom type. -/
def sampleCreateError (blossomItem : BlossomItem Nat) (component : String)
    (reason : String) : String :=
  component ++ ": " ++ reason ++ " [" ++ blossomItem.blossomPath ++ "|"
    ++ blossomItem.blossomGroupType ++ "|" ++ blossomItem.blossomType ++ "]"

/-- An empty garden. -/
def emptyGarden : SakuraGarden Nat :=
  { rootPath := "", trees := [], resources := [], templates := [], files := [] }

/-- An interface with an empty garden and an empty registry. -/
def emptyInterface : SakuraLangInterface Nat :=
  { m_garden := emptyGarden, m_registeredBlossoms := [] }

/-- The blossom of the source text with group type foo and type bar. -/
def barBlossom : BlossomItem Nat :=
  { blossomType := "bar", blossomGroupType := "foo", blossomName := "",
    blossomPath := "", values := [] }

/-- A handler that accepts every item and leaves the message alone. -/
def acceptAll : Blossom Nat :=
  { validateInput := fun _ errorMessage => (true, errorMessage) }

/-- A handler that rejects every item and leaves the message alone. -/
def rejectSilently : Blossom Nat :=
  { validateInput := fun _ errorMessage => (false, errorMessage) }

/-- A handler that rejects every item with its own message. -/
def rejectLoudly : Blossom Nat :=
  { validateInput := fun _ _ => (false, "bad input") }

/-- An interface whose registry holds one handler under (foo, bar). -/
def fooBarInterface : SakuraLangInterface Nat :=
  { m_garden := emptyGarden,
    m_registeredBlossoms := [("foo", [("bar", some acceptAll)])] }

/-- A tree with an empty body, used as a resource. -/
def emptyTree : TreeItem Nat :=
  { rootPath := "", relativePath := "", id := "bar", values := [],
    childs := .sequentiell [] }

/-- An interface whose garden has the resource bar and whose registry holds a
rejecting handler under (foo, bar). -/
def resourceInterface : SakuraLangInterface Nat :=
  { m_garden := { emptyGarden with resources := [("bar", emptyTree)] },
    m_registeredBlossoms := [("foo", [("bar", some rejectLoudly)])] }

/-- A blossom of type bar that carries its own value for the key x. -/
def barWithValue : BlossomItem Nat :=
  { blossomType := "bar", blossomGroupType := "", blossomName := "",
    blossomPath := "", values := [("x", 7)] }

/-- A group of type foo with the defaults x and y and two children. -/
def fooGroup : SakuraItem Nat :=
  .blossomGroup "step" "foo" ["root", "step"] [("x", 1), ("y", 2)]
    [barWithValue, barBlossom]

/-- A tree whose body holds the group, a subtree call and an If. -/
def sampleTree : SakuraItem Nat :=
  .tree
    { rootPath := "/r", relativePath := "root.sakura", id := "root",
      values := [],
      childs :=
        .sequentiell
          [fooGroup, .subtree "other" [],
            .ifBranching 0 (.blossom barBlossom) (.sequentiell [])] }

/-- An interface whose registry holds a handler under (foo, bar) that rejects
without writing a message. -/
def silentInterface : SakuraLangInterface Nat :=
  { m_garden := emptyGarden,
    m_registeredBlossoms := [("foo", [("bar", some rejectSilently)])] }

/-- A garden whose only tree calls a subtree that no tree and no resource
provides. -/
def danglingGarden : SakuraGarden Nat :=
  { rootPath := "/r",
    trees :=
      [("root.sakura",
        { rootPath := "/r", relativePath := "root.sakura", id := "root",
          values := [],
          childs := .sequentiell [.subtree "missing" []] })],
    resources := [], templates := [], files := [] }

/-- An interface over the garden with the dangling subtree call. -/
def danglingInterface : SakuraLangInterface Nat :=
  { m_garden := danglingGarden, m_registeredBlossoms := [] }

/-- A directory with a tree file, a file named "files", a subdirectory with
one file, and a directory "templates" with one file. -/
def sampleDirectory : List DirEntry :=
  [.file "/r/root.sakura" "root.sakura",
    .file "/r/files" "files",
    .directory "/r/sub" "sub" [.file "/r/sub/a.sakura" "a.sakura"],
    .directory "/r/templates" "templates" [.file "/r/templates/t.j2" "t.j2"]]

/-- Two parsed files; the content of a file is its b_id. -/
def sampleFileContents : List (String × String) :=
  [("/r/root.sakura", "root"), ("/r/sub/a.sakura", "a")]

/-- A Sequential whose second child has no handler and whose third child is
a blossom that is never reached. -/
def stoppingSequence : List (SakuraItem Nat) :=
  [.blossom barBlossom,
    .blossom { barBlossom with blossomType := "unheard" },
    .blossom barWithValue]

/-- A root tree that declares the value x and calls the blossom bar. -/
def declaringTree : TreeItem Nat :=
  { rootPath := "/r", relativePath := "root.sakura", id := "root",
    values := [("x", 0)], childs := .sequentiell [.blossom barBlossom] }

/-- Collaborators over a file system that holds the directory /r: addTree
registers `declaringTree` under the relative path it is asked for, getTree
looks the relative path up, and running a tree counts one execution. -/
def sampleCollaborators : Collaborators Nat Nat Nat :=
  { is_regular_file := fun _ => false
    is_directory := fun path => path = "/r"
    parent_path := fun _ => "/r"
    relative := fun _ _ => "root.sakura"
    addTree := fun garden _ errorMessage =>
      (true,
        { garden with
            trees := StdMap.insert garden.trees "root.sakura" declaringTree },
        errorMessage)
    getTree := fun garden relativePath _ =>
      StdMap.find garden.trees relativePath
    createError := sampleCreateError
    spawnParallelSubtrees := fun world _ _ _ _ _ errorMessage =>
      (true, world + 1, errorMessage) }

/-- A stand-in for `splitStringByDelimiter` on texts of one line: the text
itself is its only line. -/
def oneLine (text : String) (_ : Char) : List String := [text]

/-- The span of the token bc in the line abc: columns 2 to 4 of line 1. -/
def lastTokenLocation : Location :=
  { begin_ := { line := 1, column := 2 }, end_ := { line := 1, column := 4 } }

/-- The error table as `parse` sets it up. -/
def freshErrorTable : TableItem :=
  { columns := ["key", "value"], rows := [["ERROR", " "]] }

/-- Collaborators over a small file system. The directory /r holds the
entries of `sampleDirectory`, the directory /empty holds nothing, and
/nowhere does not exist. The file /r/locked.sakura cannot be read; /r/files
holds the text abcd, every other file the text fine. The parser rejects the
text abcd with one call of error() for the token at columns 2 to 4 of line 1
and accepts every other text. -/
def sampleFileSystem : ParsingCollaborators String :=
  { pathExists := fun path => path ≠ "/nowhere"
    is_directory := fun path => path = "/r" ∨ path = "/empty"
    directoryEntries := fun path => if path = "/r" then sampleDirectory else []
    readFile := fun path errorMessage =>
      if path = "/r/locked.sakura" then ((false, ""), "permission denied")
      else if path = "/r/files" then ((true, "abcd"), errorMessage)
      else ((true, "fine"), errorMessage)
    splitStringByDelimiter := oneLine
    parser := fun input =>
      if input = "abcd" then
        { res := 1, errors := [(lastTokenLocation, "syntax error", false)],
          output := "" }
      else { res := 0, errors := [], output := input }
    withPath := fun content path => content ++ "@" ++ path
    invalid := "" }

/-- A parsing object before its first use. -/
def freshParsing : SakuraParsing String :=
  { m_fileContents := [], m_errorMessage := { columns := [], rows := [] },
    m_parserErrorMessage := { columns := [], rows := [] } }

/-- A tree whose body calls a blossom that no handler is registered for. -/
def unheardTree : TreeItem Nat :=
  { rootPath := "/r", relativePath := "b.sakura", id := "b", values := [],
    childs := .sequentiell [.blossom { barBlossom with blossomType := "unheard" }] }

/-- A tree whose body calls the resource bar. -/
def callingTree : TreeItem Nat :=
  { rootPath := "/r", relativePath := "a.sakura", id := "a", values := [],
    childs := .sequentiell [.blossom barBlossom] }

/-- A garden whose tree calls the resource bar, an empty tree. -/
def gardenWithEmptyResource : SakuraGarden Nat :=
  { rootPath := "/r", trees := [("a.sakura", callingTree)],
    resources := [("bar", emptyTree)], templates := [], files := [] }

/-- The same garden with another body for the resource bar: a call of a
blossom that no handler is registered for. -/
def gardenWithBrokenResource : SakuraGarden Nat :=
  { gardenWithEmptyResource with resources := [("bar", unheardTree)] }

/-- A garden with three trees in ascending key order; the second and the
third call a blossom that no handler is registered for. -/
def threeTreeGarden : SakuraGarden Nat :=
  { rootPath := "/r",
    trees :=
      [("a.sakura", callingTree), ("b.sakura", unheardTree),
        ("c.sakura", { unheardTree with relativePath := "c.sakura" })],
    resources := [], templates := [], files := [] }

/-- A double quote, `count` times the letter a, a double quote. -/
def quotedRun (count : Nat) : String :=
  String.mk ('"' :: (List.replicate count 'a' ++ ['"']))

/-! ## Lemmas on the map model -/

namespace StdMap

variable {β : Type}

theorem find_insertSorted (m : StdMap β) (key : String) (value : β)
    (other : String) (h : find m key = none) :
    find (insertSorted m key value) other =
      if key = other then some value else find m other := by
  induction m with
  | nil => simp [insertSorted, find]
  | cons entry rest ih =>
    obtain ⟨k, v⟩ := entry
    have hk : k ≠ key := by
      intro hEq
      simp [find, hEq] at h
    have hrest : find rest key = none := by
      simpa [find, hk] using h
    by_cases hlt : key.data < k.data
    · simp [insertSorted, hlt, find]
    · by_cases hko : k = other
      · subst hko
        have hne : key ≠ k := fun hEq => hk hEq.symm
        simp [insertSorted, hlt, find, hne]
      · simp [insertSorted, hlt, find, hko, ih hrest]

theorem find_insert_self (m : StdMap β) (key : String) (value : β)
    (h : find m key = none) : find (insert m key value) key = some value := by
  simp [insert, h, find_insertSorted]

theorem find_insert_of_some (m : StdMap β) (key : String) (value : β)
    (other : String) (old : β) (h : find m other = some old) :
    find (insert m key value) other = some old := by
  unfold insert
  cases hk : find m key with
  | some x => simpa using h
  | none =>
    have hne : key ≠ other := by
      intro hEq
      rw [hEq, h] at hk
      cases hk
    simp [find_insertSorted m key value other hk, hne, h]

theorem find_insert_other (m : StdMap β) (key : String) (value : β)
    (other : String) (h : key ≠ other) :
    find (insert m key value) other = find m other := by
  unfold insert
  cases hk : find m key with
  | some x => simp
  | none => simp [find_insertSorted m key value other hk, h]

theorem find_modify_self (m : StdMap β) (key : String) (f : β → β) :
    find (modify m key f) key = (find m key).map f := by
  induction m with
  | nil => simp [modify, find]
  | cons entry rest ih =>
    obtain ⟨k, v⟩ := entry
    by_cases hk : k = key
    · simp [modify, find, hk]
    · simp [modify, find, hk, ih]

theorem find_modify_other (m : StdMap β) (key : String) (f : β → β)
    (other : String) (h : key ≠ other) :
    find (modify m key f) other = find m other := by
  induction m with
  | nil => simp [modify, find]
  | cons entry rest ih =>
    obtain ⟨k, v⟩ := entry
    by_cases hk : k = key
    · have : k ≠ other := fun hEq => h (hk.symm.trans hEq)
      simp [modify, find, hk, this, h]
    · by_cases hko : k = other
      · subst hko
        simp [modify, find, hk]
      · simp [modify, find, hk, hko, ih]

end StdMap

/-! ## Registry -/

theorem doesBlossomExist_of_getBlossom (interface : SakuraLangInterface V)
    (groupName : String) (itemName : String) (handler : Blossom V)
    (found : getBlossom interface groupName itemName = some handler) :
    doesBlossomExist interface groupName itemName = true := by
  unfold getBlossom at found
  unfold doesBlossomExist
  cases hGroup : StdMap.find interface.m_registeredBlossoms groupName with
  | none => simp [hGroup] at found
  | some group =>
    cases hItem : StdMap.find group itemName with
    | none => simp [hGroup, hItem] at found
    | some blossom => simp [hItem]

/-- C3: when (group, name) is registered with h1, addBlossom(group, name, h2)
returns false and leaves the registry unchanged, so getBlossom(group, name)
still returns h1. -/
theorem C3_addBlossom_keeps_first_registration
    (interface : SakuraLangInterface V) (groupName : String)
    (itemName : String) (h1 : Blossom V) (h2 : Option (Blossom V))
    (registered : getBlossom interface groupName itemName = some h1) :
    addBlossom interface groupName itemName h2 = (false, interface) ∧
      getBlossom (addBlossom interface groupName itemName h2).2 groupName
        itemName = some h1 := by
  have hExists : doesBlossomExist interface groupName itemName = true :=
    doesBlossomExist_of_getBlossom interface groupName itemName h1 registered
  have hAdd : addBlossom interface groupName itemName h2 = (false, interface) := by
    simp [addBlossom, hExists]
  rw [hAdd]
  exact ⟨rfl, registered⟩

theorem C3_addBlossom_keeps_first_registration_witness :
    getBlossom fooBarInterface "foo" "bar" = some acceptAll ∧
      (addBlossom fooBarInterface "foo" "bar" (some rejectLoudly)
          = (false, fooBarInterface) ∧
        getBlossom
          (addBlossom fooBarInterface "foo" "bar" (some rejectLoudly)).2
          "foo" "bar" = some acceptAll) :=
  ⟨rfl, C3_addBlossom_keeps_first_registration fooBarInterface "foo" "bar"
    acceptAll (some rejectLoudly) rfl⟩

/-- C4: when (group, name) is not registered, addBlossom(group, name, h)
returns true, and afterwards getBlossom(group, name) returns h and
doesBlossomExist(group, name) returns true, whether or not the group was
there before. -/
theorem C4_addBlossom_then_getBlossom (interface : SakuraLangInterface V)
    (groupName : String) (itemName : String) (h : Blossom V)
    (fresh : doesBlossomExist interface groupName itemName = false) :
    (addBlossom interface groupName itemName (some h)).1 = true ∧
      getBlossom (addBlossom interface groupName itemName (some h)).2
        groupName itemName = some h ∧
      doesBlossomExist (addBlossom interface groupName itemName (some h)).2
        groupName itemName = true := by
  have hGet :
      getBlossom (addBlossom interface groupName itemName (some h)).2
        groupName itemName = some h := by
    simp only [addBlossom, fresh, Bool.false_eq_true, if_false, getBlossom]
    cases hGroup : StdMap.find interface.m_registeredBlossoms groupName with
    | none =>
      have hEmpty :
          StdMap.find ([] : StdMap (Option (Blossom V))) itemName = none := rfl
      simp only [StdMap.find_modify_self, StdMap.find_insert_self _ _ _ hGroup,
        Option.map_some']
      rw [StdMap.find_insert_self _ _ _ hEmpty]
    | some group =>
      have hItem : StdMap.find group itemName = none := by
        cases hFind : StdMap.find group itemName with
        | none => rfl
        | some old => simp [doesBlossomExist, hGroup, hFind] at fresh
      simp [StdMap.find_modify_self, hGroup,
        StdMap.find_insert_self _ _ _ hItem]
  refine ⟨?_, hGet, ?_⟩
  · simp [addBlossom, fresh]
  · exact doesBlossomExist_of_getBlossom _ groupName itemName h hGet

theorem C4_addBlossom_then_getBlossom_witness :
    doesBlossomExist fooBarInterface "foo" "baz" = false ∧
      ((addBlossom fooBarInterface "foo" "baz" (some rejectLoudly)).1 = true ∧
        getBlossom
          (addBlossom fooBarInterface "foo" "baz" (some rejectLoudly)).2
          "foo" "baz" = some rejectLoudly ∧
        doesBlossomExist
          (addBlossom fooBarInterface "foo" "baz" (some rejectLoudly)).2
          "foo" "baz" = true) :=
  ⟨rfl, C4_addBlossom_then_getBlossom fooBarInterface "foo" "baz" rejectLoudly
    rfl⟩

/-! ## Validating one blossom -/

theorem checkBlossomItem_unregistered
    (createError : BlossomItem V → String → String → String)
    (interface : SakuraLangInterface V) (blossomItem : BlossomItem V)
    (errorMessage : String)
    (noResource :
      getRessource interface.m_garden blossomItem.blossomType = none)
    (noHandler :
      getBlossom interface blossomItem.blossomGroupType
        blossomItem.blossomType = none) :
    checkBlossomItem createError interface blossomItem errorMessage =
      (false, createError blossomItem "validator" "unknow blossom-type") := by
  simp [checkBlossomItem, noResource, noHandler]

/-- C2 (code defect): for the blossom bar of group foo, with no resource and an
empty registry, checkBlossomItem returns false and builds the message with the
reason text "unknow blossom-type"; that message is not the one built with
"unknown blossom-type". -/
theorem C2_reason_text_is_misspelled :
    checkBlossomItem sampleCreateError emptyInterface barBlossom "" =
        (false,
          sampleCreateError barBlossom "validator" "unknow blossom-type") ∧
      sampleCreateError barBlossom "validator" "unknow blossom-type" ≠
        sampleCreateError barBlossom "validator" "unknown blossom-type" := by
  constructor
  · rfl
  · decide

/-- C5: a blossom whose blossomType is a key of the garden's resources is
accepted with the error message unchanged, whatever the registry holds. -/
theorem C5_resource_call_is_accepted
    (createError : BlossomItem V → String → String → String)
    (interface : SakuraLangInterface V)
    (registry : StdMap (StdMap (Option (Blossom V))))
    (blossomItem : BlossomItem V)
    (errorMessage : String)
    (isResource :
      (getRessource interface.m_garden blossomItem.blossomType).isSome
        = true) :
    checkBlossomItem createError
        { interface with m_registeredBlossoms := registry } blossomItem
        errorMessage = (true, errorMessage) := by
  unfold checkBlossomItem
  cases hRes : getRessource interface.m_garden blossomItem.blossomType with
  | none => rw [hRes] at isResource; cases isResource
  | some treeItem => simp [hRes]

theorem C5_resource_call_is_accepted_witness :
    (getRessource resourceInterface.m_garden barBlossom.blossomType).isSome
        = true ∧
      checkBlossomItem sampleCreateError
        { resourceInterface with
            m_registeredBlossoms := [("foo", [("bar", some rejectLoudly)])] }
        barBlossom "earlier" = (true, "earlier") :=
  ⟨rfl, C5_resource_call_is_accepted sampleCreateError resourceInterface
    [("foo", [("bar", rejectLoudly)])] barBlossom "earlier" rfl⟩

/-- C6: for a blossom that names no resource and has a handler registered under
(blossomGroupType, blossomType), checkBlossomItem returns what that handler's
validateInput returns on the blossom, result and error message alike. -/
theorem C6_registered_blossom_is_delegated
    (createError : BlossomItem V → String → String → String)
    (interface : SakuraLangInterface V) (blossomItem : BlossomItem V)
    (errorMessage : String) (handler : Blossom V)
    (noResource :
      getRessource interface.m_garden blossomItem.blossomType = none)
    (registered :
      getBlossom interface blossomItem.blossomGroupType
        blossomItem.blossomType = some handler) :
    checkBlossomItem createError interface blossomItem errorMessage =
      handler.validateInput blossomItem errorMessage := by
  simp [checkBlossomItem, noResource, registered]

theorem C6_registered_blossom_is_delegated_witness :
    getRessource emptyGarden barBlossom.blossomType = none ∧
      getBlossom
          { m_garden := emptyGarden,
            m_registeredBlossoms := [("foo", [("bar", some rejectLoudly)])] }
          barBlossom.blossomGroupType barBlossom.blossomType
        = some rejectLoudly ∧
      checkBlossomItem sampleCreateError
          { m_garden := emptyGarden,
            m_registeredBlossoms := [("foo", [("bar", some rejectLoudly)])] }
          barBlossom "earlier" = (false, "bad input") :=
  ⟨rfl, rfl,
    C6_registered_blossom_is_delegated sampleCreateError
      { m_garden := emptyGarden,
        m_registeredBlossoms := [("foo", [("bar", some rejectLoudly)])] }
      barBlossom "earlier" rejectLoudly rfl rfl⟩

/-! ## Validating an item tree -/

/-- C8: a Subtree item is accepted for every garden and registry, and the item
and the error message are left as they were. -/
theorem C8_subtree_is_accepted
    (createError : BlossomItem V → String → String → String)
    (interface : SakuraLangInterface V) (referencedId : String)
    (values : StdMap V) (filePath : String) (errorMessage : String) :
    checkSakuraItem createError interface (.subtree referencedId values)
        filePath errorMessage =
      (true, .subtree referencedId values, errorMessage) := by
  simp [checkSakuraItem]

theorem resolved_of_checkBlossomItem
    (createError : BlossomItem V → String → String → String)
    (interface : SakuraLangInterface V) (blossomItem : BlossomItem V)
    (errorMessage : String)
    (accepted :
      (checkBlossomItem createError interface blossomItem errorMessage).1
        = true) :
    ResolvedBlossom interface blossomItem := by
  unfold checkBlossomItem at accepted
  cases hRes : getRessource interface.m_garden blossomItem.blossomType with
  | some treeItem => exact Or.inl (by simp [hRes])
  | none =>
    cases hGet : getBlossom interface blossomItem.blossomGroupType
        blossomItem.blossomType with
    | none => simp [hRes, hGet] at accepted
    | some handler =>
      simp only [hRes, hGet] at accepted
      exact Or.inr ⟨handler, hGet, errorMessage, accepted⟩

theorem checkBlossomGroupChilds_accepted
    (createError : BlossomItem V → String → String → String)
    (interface : SakuraLangInterface V) (blossomGroupType : String)
    (id : String) (values : StdMap V) :
    ∀ (blossoms : List (BlossomItem V)) (filePath errorMessage : String),
      (checkBlossomGroupChilds createError interface blossomGroupType id
          values blossoms filePath errorMessage).1 = true →
      (checkBlossomGroupChilds createError interface blossomGroupType id
          values blossoms filePath errorMessage).2.1 =
        blossoms.map (preparedChild blossomGroupType id values filePath) ∧
      ∀ child ∈ blossoms, ∃ before : String,
        (checkBlossomItem createError interface
          (preparedChild blossomGroupType id values filePath child)
          before).1 = true
  | [], _, _, _ => by simp [checkBlossomGroupChilds]
  | blossomItem :: rest, filePath, errorMessage, accepted => by
    simp only [checkBlossomGroupChilds, checkBlossomBranch] at accepted ⊢
    cases hFirst :
        (checkBlossomItem createError interface
          (preparedChild blossomGroupType id values filePath blossomItem)
          errorMessage).1 with
    | false =>
      simp only [preparedChild] at hFirst
      simp [hFirst] at accepted
    | true =>
      simp only [preparedChild] at hFirst
      simp only [hFirst, Bool.true_eq_false, if_false] at accepted ⊢
      have ih :=
        checkBlossomGroupChilds_accepted createError interface
          blossomGroupType id values rest filePath _ accepted
      refine ⟨?_, ?_⟩
      · simp only [List.map_cons, ih.1]
        rfl
      · intro child hChild
        rcases List.mem_cons.mp hChild with hEq | hIn
        · subst hEq
          exact ⟨errorMessage, hFirst⟩
        · exact ih.2 child hIn

mutual

theorem resolved_of_checkSakuraItem
    (createError : BlossomItem V → String → String → String)
    (interface : SakuraLangInterface V) :
    ∀ (item : SakuraItem V) (filePath errorMessage : String),
      (checkSakuraItem createError interface item filePath errorMessage).1
        = true →
      ∀ blossomItem ∈
        reachableBlossoms
          (checkSakuraItem createError interface item filePath
            errorMessage).2.1,
        ResolvedBlossom interface blossomItem
  | .sequentiell childs, filePath, errorMessage, accepted, b, hb => by
    simp only [checkSakuraItem, reachableBlossoms] at accepted hb
    exact resolved_of_checkSequentiellChilds createError interface childs
      filePath errorMessage accepted b hb
  | .tree treeItem, filePath, errorMessage, accepted, b, hb => by
    simp only [checkSakuraItem, reachableBlossoms] at accepted hb
    exact resolved_of_checkTreeItem createError interface treeItem
      errorMessage accepted b hb
  | .subtree referencedId values, _, _, _, b, hb => by
    simp [checkSakuraItem, reachableBlossoms] at hb
  | .blossom blossomItem, filePath, errorMessage, accepted, b, hb => by
    simp only [checkSakuraItem, checkBlossomBranch, reachableBlossoms,
      List.mem_singleton] at accepted hb
    subst hb
    exact resolved_of_checkBlossomItem createError interface _ errorMessage
      accepted
  | .blossomGroup id blossomGroupType nameHirarchie values blossoms, filePath,
      errorMessage, accepted, b, hb => by
    simp only [checkSakuraItem, reachableBlossoms] at accepted hb
    have hGroup :=
      checkBlossomGroupChilds_accepted createError interface blossomGroupType
        id values blossoms filePath errorMessage accepted
    rw [hGroup.1] at hb
    obtain ⟨child, hChild, rfl⟩ := List.mem_map.mp hb
    obtain ⟨before, hBefore⟩ := hGroup.2 child hChild
    exact resolved_of_checkBlossomItem createError interface _ before hBefore
  | .ifBranching condition ifContent elseContent, filePath, errorMessage,
      accepted, b, hb => by
    simp only [checkSakuraItem] at accepted hb
    cases hFirst :
        (checkSakuraItem createError interface ifContent filePath
          errorMessage).1 with
    | false => simp [hFirst] at accepted
    | true =>
      simp only [hFirst, Bool.true_eq_false, if_false] at accepted hb
      cases hSecond :
          (checkSakuraItem createError interface elseContent filePath
            (checkSakuraItem createError interface ifContent filePath
              errorMessage).2.2).1 with
      | false => simp [hSecond] at accepted
      | true =>
        simp only [hSecond, Bool.true_eq_false, if_false, reachableBlossoms,
          List.mem_append] at hb
        rcases hb with hb | hb
        · exact resolved_of_checkSakuraItem createError interface ifContent
            filePath errorMessage hFirst b hb
        · exact resolved_of_checkSakuraItem createError interface elseContent
            filePath _ hSecond b hb
  | .forEachBranching tempVarName iterateArray content, filePath, errorMessage,
      accepted, b, hb => by
    simp only [checkSakuraItem, reachableBlossoms] at accepted hb
    exact resolved_of_checkSakuraItem createError interface content filePath
      errorMessage accepted b hb
  | .forBranching tempVarName start stop content, filePath, errorMessage,
      accepted, b, hb => by
    simp only [checkSakuraItem, reachableBlossoms] at accepted hb
    exact resolved_of_checkSakuraItem createError interface content filePath
      errorMessage accepted b hb
  | .parallel childs, filePath, errorMessage, accepted, b, hb => by
    simp only [checkSakuraItem, reachableBlossoms] at accepted hb
    exact resolved_of_checkSakuraItem createError interface childs filePath
      errorMessage accepted b hb
  | .undefined, _, _, accepted, _, _ => by
    simp [checkSakuraItem] at accepted

theorem resolved_of_checkTreeItem
    (createError : BlossomItem V → String → String → String)
    (interface : SakuraLangInterface V) :
    ∀ (treeItem : TreeItemOf (SakuraItem V) V) (errorMessage : String),
      (checkTreeItem createError interface treeItem errorMessage).1 = true →
      ∀ blossomItem ∈
        reachableBlossomsOfTree
          (checkTreeItem createError interface treeItem errorMessage).2.1,
        ResolvedBlossom interface blossomItem
  | ⟨rootPath, relativePath, id, values, childs⟩, errorMessage, accepted, b,
      hb => by
    simp only [checkTreeItem, reachableBlossomsOfTree] at accepted hb
    exact resolved_of_checkSakuraItem createError interface childs _
      errorMessage accepted b hb

theorem resolved_of_checkSequentiellChilds
    (createError : BlossomItem V → String → String → String)
    (interface : SakuraLangInterface V) :
    ∀ (childs : List (SakuraItem V)) (filePath errorMessage : String),
      (checkSequentiellChilds createError interface childs filePath
          errorMessage).1 = true →
      ∀ blossomItem ∈
        reachableBlossomsOfChilds
          (checkSequentiellChilds createError interface childs filePath
            errorMessage).2.1,
        ResolvedBlossom interface blossomItem
  | [], _, _, _, b, hb => by
    simp [checkSequentiellChilds, reachableBlossomsOfChilds] at hb
  | item :: rest, filePath, errorMessage, accepted, b, hb => by
    simp only [checkSequentiellChilds] at accepted hb
    cases hFirst :
        (checkSakuraItem createError interface item filePath
          errorMessage).1 with
    | false => simp [hFirst] at accepted
    | true =>
      simp only [hFirst, Bool.true_eq_false, if_false,
        reachableBlossomsOfChilds, List.mem_append] at accepted hb
      rcases hb with hb | hb
      · exact resolved_of_checkSakuraItem createError interface item filePath
          errorMessage hFirst b hb
      · exact resolved_of_checkSequentiellChilds createError interface rest
          filePath _ accepted b hb

end

/-- C1: when checkSakuraItem returns true, every blossom reachable in the
checked item (through Sequential children, a Parallel body, a Tree body,
BlossomGroup children, both branches of an If, For and ForEach bodies) has a
blossomType that is a key of the garden's resources, or a handler registered
under (blossomGroupType, blossomType) whose validateInput returned true for
it. -/
theorem C1_accepted_item_has_only_resolved_blossoms
    (createError : BlossomItem V → String → String → String)
    (interface : SakuraLangInterface V) (item : SakuraItem V)
    (filePath : String) (errorMessage : String)
    (accepted :
      (checkSakuraItem createError interface item filePath errorMessage).1
        = true) :
    ∀ blossomItem ∈
      reachableBlossoms
        (checkSakuraItem createError interface item filePath
          errorMessage).2.1,
      (getRessource interface.m_garden blossomItem.blossomType).isSome = true ∨
        ∃ handler : Blossom V,
          getBlossom interface blossomItem.blossomGroupType
              blossomItem.blossomType = some handler ∧
            ∃ before : String,
              (handler.validateInput blossomItem before).1 = true :=
  resolved_of_checkSakuraItem createError interface item filePath errorMessage
    accepted

theorem C1_accepted_item_has_only_resolved_blossoms_witness :
    (checkSakuraItem sampleCreateError fooBarInterface sampleTree "" "").1
        = true ∧
      ∀ blossomItem ∈
        reachableBlossoms
          (checkSakuraItem sampleCreateError fooBarInterface sampleTree ""
            "").2.1,
        (getRessource fooBarInterface.m_garden blossomItem.blossomType).isSome
            = true ∨
          ∃ handler : Blossom Nat,
            getBlossom fooBarInterface blossomItem.blossomGroupType
                blossomItem.blossomType = some handler ∧
              ∃ before : String,
                (handler.validateInput blossomItem before).1 = true :=
  ⟨rfl,
    C1_accepted_item_has_only_resolved_blossoms sampleCreateError
      fooBarInterface sampleTree "" "" rfl⟩

/-! ## Group defaults -/

theorem overrideItems_onlyNonExisting_eq (original : StdMap V)
    (override : StdMap V) :
    overrideItems original override ONLY_NON_EXISTING =
      override.foldl (fun dst entry => StdMap.insert dst entry.1 entry.2)
        original := rfl

theorem find_fill_of_some :
    ∀ (override original : StdMap V) (key : String) (value : V),
      StdMap.find original key = some value →
      StdMap.find
          (override.foldl (fun dst entry => StdMap.insert dst entry.1 entry.2)
            original) key = some value
  | [], _, _, _, h => h
  | entry :: rest, original, key, value, h => by
    simp only [List.foldl_cons]
    exact find_fill_of_some rest _ key value
      (StdMap.find_insert_of_some original entry.1 entry.2 key value h)

theorem find_fill_of_none :
    ∀ (override original : StdMap V) (key : String),
      StdMap.find original key = none →
      StdMap.find
          (override.foldl (fun dst entry => StdMap.insert dst entry.1 entry.2)
            original) key = StdMap.find override key
  | [], _, _, h => by simpa [StdMap.find] using h
  | (k, v) :: rest, original, key, h => by
    simp only [List.foldl_cons]
    by_cases hk : k = key
    · subst hk
      rw [find_fill_of_some rest _ k v (StdMap.find_insert_self original k v h)]
      simp [StdMap.find]
    · have hStill : StdMap.find (StdMap.insert original k v) key = none := by
        rw [StdMap.find_insert_other original k v key hk]
        exact h
      rw [find_fill_of_none rest _ key hStill]
      simp [StdMap.find, hk]

/-- C7: when the validator accepts a BlossomGroup, the item afterwards holds
each child with blossomGroupType set to the group's blossomGroupType,
blossomName set to the group's id and values set to overrideItems(child
values, group values, ONLY_NON_EXISTING), and the child was accepted in that
state; a key the child already had keeps the child's value, a group key the
child lacked carries the group's value, and blossomType is unchanged. -/
theorem C7_group_children_are_filled_before_validation
    (createError : BlossomItem V → String → String → String)
    (interface : SakuraLangInterface V) (id : String)
    (blossomGroupType : String) (nameHirarchie : List String)
    (values : StdMap V) (blossoms : List (BlossomItem V)) (filePath : String)
    (errorMessage : String)
    (accepted :
      (checkSakuraItem createError interface
        (.blossomGroup id blossomGroupType nameHirarchie values blossoms)
        filePath errorMessage).1 = true) :
    (checkSakuraItem createError interface
        (.blossomGroup id blossomGroupType nameHirarchie values blossoms)
        filePath errorMessage).2.1 =
        .blossomGroup id blossomGroupType nameHirarchie values
          (blossoms.map
            (preparedChild blossomGroupType id values filePath)) ∧
      ∀ child ∈ blossoms,
        (∃ before : String,
          (checkBlossomItem createError interface
            (preparedChild blossomGroupType id values filePath child)
            before).1 = true) ∧
        (preparedChild blossomGroupType id values filePath
            child).blossomGroupType = blossomGroupType ∧
        (preparedChild blossomGroupType id values filePath
            child).blossomName = id ∧
        (preparedChild blossomGroupType id values filePath
            child).blossomType = child.blossomType ∧
        (preparedChild blossomGroupType id values filePath child).values =
          overrideItems child.values values ONLY_NON_EXISTING ∧
        (∀ (key : String) (value : V),
          StdMap.find child.values key = some value →
          StdMap.find
            (preparedChild blossomGroupType id values filePath child).values
            key = some value) ∧
        (∀ (key : String) (value : V),
          StdMap.find child.values key = none →
          StdMap.find values key = some value →
          StdMap.find
            (preparedChild blossomGroupType id values filePath child).values
            key = some value) := by
  simp only [checkSakuraItem] at accepted ⊢
  have hGroup :=
    checkBlossomGroupChilds_accepted createError interface blossomGroupType id
      values blossoms filePath errorMessage accepted
  refine ⟨by rw [hGroup.1], ?_⟩
  intro child hChild
  refine ⟨hGroup.2 child hChild, rfl, rfl, rfl, rfl, ?_, ?_⟩
  · intro key value hKey
    exact find_fill_of_some values child.values key value hKey
  · intro key value hNone hKey
    have h := find_fill_of_none values child.values key hNone
    exact h.trans hKey

theorem C7_group_children_are_filled_before_validation_witness :
    (checkSakuraItem sampleCreateError fooBarInterface fooGroup "/r/a" "").1
        = true ∧
      (checkSakuraItem sampleCreateError fooBarInterface fooGroup "/r/a"
          "").2.1 =
        .blossomGroup "step" "foo" ["root", "step"] [("x", 1), ("y", 2)]
          ([barWithValue, barBlossom].map
            (preparedChild "foo" "step" [("x", 1), ("y", 2)] "/r/a")) ∧
      StdMap.find
          (preparedChild "foo" "step" [("x", 1), ("y", 2)] "/r/a"
            barWithValue).values "x" = some 7 ∧
      StdMap.find
          (preparedChild "foo" "step" [("x", 1), ("y", 2)] "/r/a"
            barWithValue).values "y" = some 2 :=
  have h :=
    C7_group_children_are_filled_before_validation sampleCreateError
      fooBarInterface "step" "foo" ["root", "step"] [("x", 1), ("y", 2)]
      [barWithValue, barBlossom] "/r/a" "" rfl
  have hChild := h.2 barWithValue (List.mem_cons_self _ _)
  ⟨rfl, h.1, hChild.2.2.2.2.2.1 "x" 7 rfl, hChild.2.2.2.2.2.2 "y" 2 rfl rfl⟩

/-! ## The message of a rejected item -/

theorem rejected_of_checkBlossomItem
    (createError : BlossomItem V → String → String → String)
    (interface : SakuraLangInterface V) (blossomItem : BlossomItem V)
    (errorMessage : String)
    (rejected :
      (checkBlossomItem createError interface blossomItem errorMessage).1
        = false) :
    RejectedBlossomMessage createError interface blossomItem.blossomPath
      blossomItem
      (checkBlossomItem createError interface blossomItem errorMessage).2 := by
  unfold checkBlossomItem at rejected ⊢
  cases hRes : getRessource interface.m_garden blossomItem.blossomType with
  | some treeItem => simp [hRes] at rejected
  | none =>
    cases hGet : getBlossom interface blossomItem.blossomGroupType
        blossomItem.blossomType with
    | none => exact ⟨rfl, hRes, Or.inl ⟨hGet, _, rfl⟩⟩
    | some handler =>
      simp only [hRes, hGet] at rejected
      exact ⟨rfl, hRes, Or.inr ⟨handler, errorMessage, hGet,
        Prod.ext rejected rfl⟩⟩

theorem rejected_of_checkBlossomGroupChilds
    (createError : BlossomItem V → String → String → String)
    (interface : SakuraLangInterface V) (blossomGroupType : String)
    (id : String) (values : StdMap V) :
    ∀ (blossoms : List (BlossomItem V)) (filePath errorMessage : String),
      (checkBlossomGroupChilds createError interface blossomGroupType id
          values blossoms filePath errorMessage).1 = false →
      ∃ blossomItem ∈
        (checkBlossomGroupChilds createError interface blossomGroupType id
          values blossoms filePath errorMessage).2.1,
        RejectedBlossomMessage createError interface filePath blossomItem
          (checkBlossomGroupChilds createError interface blossomGroupType id
            values blossoms filePath errorMessage).2.2
  | [], _, _, rejected => by simp [checkBlossomGroupChilds] at rejected
  | blossomItem :: rest, filePath, errorMessage, rejected => by
    simp only [checkBlossomGroupChilds, checkBlossomBranch] at rejected ⊢
    cases hFirst :
        (checkBlossomItem createError interface
          (preparedChild blossomGroupType id values filePath blossomItem)
          errorMessage).1 with
    | false =>
      have hMsg :=
        rejected_of_checkBlossomItem createError interface
          (preparedChild blossomGroupType id values filePath blossomItem)
          errorMessage hFirst
      simp only [preparedChild] at hFirst hMsg
      simp only [hFirst, if_true]
      exact ⟨_, List.mem_cons_self _ _, hMsg⟩
    | true =>
      simp only [preparedChild] at hFirst
      simp only [hFirst, Bool.true_eq_false, if_false] at rejected ⊢
      obtain ⟨b, hIn, hMsg⟩ :=
        rejected_of_checkBlossomGroupChilds createError interface
          blossomGroupType id values rest filePath _ rejected
      exact ⟨b, List.mem_cons_of_mem _ hIn, hMsg⟩

mutual

theorem rejected_of_checkSakuraItem
    (createError : BlossomItem V → String → String → String)
    (interface : SakuraLangInterface V) :
    ∀ (item : SakuraItem V) (filePath errorMessage : String),
      onlyKnownItems item = true →
      (checkSakuraItem createError interface item filePath errorMessage).1
        = false →
      ∃ entry ∈
        reachableBlossomsAt
          (checkSakuraItem createError interface item filePath
            errorMessage).2.1 filePath,
        RejectedBlossomMessage createError interface entry.1 entry.2
          (checkSakuraItem createError interface item filePath
            errorMessage).2.2
  | .sequentiell childs, filePath, errorMessage, known, rejected => by
    simp only [checkSakuraItem, reachableBlossomsAt, onlyKnownItems]
      at known rejected ⊢
    exact rejected_of_checkSequentiellChilds createError interface childs
      filePath errorMessage known rejected
  | .tree treeItem, filePath, errorMessage, known, rejected => by
    simp only [checkSakuraItem, reachableBlossomsAt, onlyKnownItems]
      at known rejected ⊢
    exact rejected_of_checkTreeItem createError interface treeItem
      errorMessage known rejected
  | .subtree referencedId values, _, _, _, rejected => by
    simp [checkSakuraItem] at rejected
  | .blossom blossomItem, filePath, errorMessage, _, rejected => by
    simp only [checkSakuraItem, checkBlossomBranch, reachableBlossomsAt]
      at rejected ⊢
    exact ⟨_, List.mem_singleton.mpr rfl,
      rejected_of_checkBlossomItem createError interface
        { blossomItem with blossomPath := filePath } errorMessage rejected⟩
  | .blossomGroup id blossomGroupType nameHirarchie values blossoms, filePath,
      errorMessage, _, rejected => by
    simp only [checkSakuraItem, reachableBlossomsAt] at rejected ⊢
    obtain ⟨b, hIn, hMsg⟩ :=
      rejected_of_checkBlossomGroupChilds createError interface
        blossomGroupType id values blossoms filePath errorMessage rejected
    exact ⟨(filePath, b), List.mem_map.mpr ⟨b, hIn, rfl⟩, hMsg⟩
  | .ifBranching condition ifContent elseContent, filePath, errorMessage,
      known, rejected => by
    simp only [onlyKnownItems, Bool.and_eq_true] at known
    simp only [checkSakuraItem] at rejected ⊢
    cases hFirst :
        (checkSakuraItem createError interface ifContent filePath
          errorMessage).1 with
    | false =>
      obtain ⟨entry, hIn, hMsg⟩ :=
        rejected_of_checkSakuraItem createError interface ifContent filePath
          errorMessage known.1 hFirst
      simp only [hFirst, if_true, reachableBlossomsAt, List.mem_append]
      exact ⟨entry, Or.inl hIn, hMsg⟩
    | true =>
      simp only [hFirst, Bool.true_eq_false, if_false] at rejected ⊢
      cases hSecond :
          (checkSakuraItem createError interface elseContent filePath
            (checkSakuraItem createError interface ifContent filePath
              errorMessage).2.2).1 with
      | false =>
        obtain ⟨entry, hIn, hMsg⟩ :=
          rejected_of_checkSakuraItem createError interface elseContent
            filePath _ known.2 hSecond
        simp only [if_true, reachableBlossomsAt, List.mem_append]
        exact ⟨entry, Or.inr hIn, hMsg⟩
      | true => simp [hSecond] at rejected
  | .forEachBranching tempVarName iterateArray content, filePath, errorMessage,
      known, rejected => by
    simp only [checkSakuraItem, reachableBlossomsAt, onlyKnownItems]
      at known rejected ⊢
    exact rejected_of_checkSakuraItem createError interface content filePath
      errorMessage known rejected
  | .forBranching tempVarName start stop content, filePath, errorMessage,
      known, rejected => by
    simp only [checkSakuraItem, reachableBlossomsAt, onlyKnownItems]
      at known rejected ⊢
    exact rejected_of_checkSakuraItem createError interface content filePath
      errorMessage known rejected
  | .parallel childs, filePath, errorMessage, known, rejected => by
    simp only [checkSakuraItem, reachableBlossomsAt, onlyKnownItems]
      at known rejected ⊢
    exact rejected_of_checkSakuraItem createError interface childs filePath
      errorMessage known rejected
  | .undefined, _, _, known, _ => by
    simp [onlyKnownItems] at known

theorem rejected_of_checkTreeItem
    (createError : BlossomItem V → String → String → String)
    (interface : SakuraLangInterface V) :
    ∀ (treeItem : TreeItemOf (SakuraItem V) V) (errorMessage : String),
      onlyKnownItemsOfTree treeItem = true →
      (checkTreeItem createError interface treeItem errorMessage).1 = false →
      ∃ entry ∈
        reachableBlossomsAtOfTree
          (checkTreeItem createError interface treeItem errorMessage).2.1,
        RejectedBlossomMessage createError interface entry.1 entry.2
          (checkTreeItem createError interface treeItem errorMessage).2.2
  | ⟨rootPath, relativePath, id, values, childs⟩, errorMessage, known,
      rejected => by
    simp only [checkTreeItem, reachableBlossomsAtOfTree, onlyKnownItemsOfTree]
      at known rejected ⊢
    exact rejected_of_checkSakuraItem createError interface childs _
      errorMessage known rejected

theorem rejected_of_checkSequentiellChilds
    (createError : BlossomItem V → String → String → String)
    (interface : SakuraLangInterface V) :
    ∀ (childs : List (SakuraItem V)) (filePath errorMessage : String),
      onlyKnownItemsOfChilds childs = true →
      (checkSequentiellChilds createError interface childs filePath
          errorMessage).1 = false →
      ∃ entry ∈
        reachableBlossomsAtOfChilds
          (checkSequentiellChilds createError interface childs filePath
            errorMessage).2.1 filePath,
        RejectedBlossomMessage createError interface entry.1 entry.2
          (checkSequentiellChilds createError interface childs filePath
            errorMessage).2.2
  | [], _, _, _, rejected => by simp [checkSequentiellChilds] at rejected
  | item :: rest, filePath, errorMessage, known, rejected => by
    simp only [onlyKnownItemsOfChilds, Bool.and_eq_true] at known
    simp only [checkSequentiellChilds] at rejected ⊢
    cases hFirst :
        (checkSakuraItem createError interface item filePath
          errorMessage).1 with
    | false =>
      obtain ⟨entry, hIn, hMsg⟩ :=
        rejected_of_checkSakuraItem createError interface item filePath
          errorMessage known.1 hFirst
      simp only [if_true, reachableBlossomsAtOfChilds, List.mem_append]
      exact ⟨entry, Or.inl hIn, hMsg⟩
    | true =>
      simp only [hFirst, Bool.true_eq_false, if_false] at rejected ⊢
      obtain ⟨entry, hIn, hMsg⟩ :=
        rejected_of_checkSequentiellChilds createError interface rest filePath
          _ known.2 rejected
      simp only [reachableBlossomsAtOfChilds, List.mem_append]
      exact ⟨entry, Or.inr hIn, hMsg⟩

end

/-- C10 as stated fails: a blossom whose registered handler rejects it without
writing a message makes checkSakuraItem return false with the error message
still empty, and no message composed by createError is empty. -/
theorem C10_silent_handler_leaves_message_unset :
    (checkSakuraItem sampleCreateError silentInterface (.blossom barBlossom)
        "/r/root.sakura" "").1 = false ∧
      (checkSakuraItem sampleCreateError silentInterface (.blossom barBlossom)
        "/r/root.sakura" "").2.2 = "" ∧
      ∀ (blossomItem : BlossomItem Nat) (component reason : String),
        sampleCreateError blossomItem component reason ≠ "" := by
  refine ⟨rfl, rfl, ?_⟩
  intro blossomItem component reason hEq
  have hLen := congrArg String.length hEq
  simp only [sampleCreateError, String.length_append] at hLen
  have hBracket : "]".length = 1 := rfl
  have hEmpty : "".length = 0 := rfl
  omega

/-- C10 (amended): when checkSakuraItem returns false on an item built only
from the nine item kinds, some blossom reachable in the checked item has its
blossomPath set to the file path in force where it stands and names no
resource, and either it has no registered handler and the error message is
createError of that blossom, the component "validator" and a reason text, or
its registered handler's validateInput returned false on it and the error
message is exactly the one that call left. -/
theorem C10_rejected_item_reports_a_rejected_blossom
    (createError : BlossomItem V → String → String → String)
    (interface : SakuraLangInterface V) (item : SakuraItem V)
    (filePath : String) (errorMessage : String)
    (known : onlyKnownItems item = true)
    (rejected :
      (checkSakuraItem createError interface item filePath errorMessage).1
        = false) :
    ∃ entry ∈
      reachableBlossomsAt
        (checkSakuraItem createError interface item filePath
          errorMessage).2.1 filePath,
      entry.2.blossomPath = entry.1 ∧
        getRessource interface.m_garden entry.2.blossomType = none ∧
        ((getBlossom interface entry.2.blossomGroupType entry.2.blossomType
              = none ∧
            ∃ reason : String,
              (checkSakuraItem createError interface item filePath
                  errorMessage).2.2 =
                createError entry.2 "validator" reason) ∨
          ∃ (handler : Blossom V) (before : String),
            getBlossom interface entry.2.blossomGroupType
                entry.2.blossomType = some handler ∧
              handler.validateInput entry.2 before =
                (false,
                  (checkSakuraItem createError interface item filePath
                    errorMessage).2.2)) :=
  rejected_of_checkSakuraItem createError interface item filePath errorMessage
    known rejected

theorem C10_rejected_item_reports_a_rejected_blossom_witness :
    onlyKnownItems sampleTree = true ∧
      (checkSakuraItem sampleCreateError emptyInterface sampleTree "" "").1
        = false ∧
      ∃ entry ∈
        reachableBlossomsAt
          (checkSakuraItem sampleCreateError emptyInterface sampleTree ""
            "").2.1 "",
        entry.2.blossomPath = entry.1 ∧
          getRessource emptyInterface.m_garden entry.2.blossomType = none ∧
          ((getBlossom emptyInterface entry.2.blossomGroupType
                entry.2.blossomType = none ∧
              ∃ reason : String,
                (checkSakuraItem sampleCreateError emptyInterface sampleTree
                    "" "").2.2 =
                  sampleCreateError entry.2 "validator" reason) ∨
            ∃ (handler : Blossom Nat) (before : String),
              getBlossom emptyInterface entry.2.blossomGroupType
                  entry.2.blossomType = some handler ∧
                handler.validateInput entry.2 before =
                  (false,
                    (checkSakuraItem sampleCreateError emptyInterface
                      sampleTree "" "").2.2)) :=
  ⟨rfl, rfl,
    C10_rejected_item_reports_a_rejected_blossom sampleCreateError
      emptyInterface sampleTree "" "" rfl rfl⟩

/-! ## Subtree calls are not resolved by the validator -/

/-- C9 as stated fails: checkAllItems returns true on a garden whose only tree
calls the subtree "missing", which is neither a key of the garden's trees nor
of its resources, nor the id or relative path of its tree. -/
theorem C9_dangling_subtree_passes_validation :
    (checkAllItems sampleCreateError danglingInterface danglingGarden "").1
        = true ∧
      "missing" ∈ reachableSubtreeIdsOfTrees danglingGarden.trees ∧
      StdMap.find danglingGarden.trees "missing" = none ∧
      getRessource danglingGarden "missing" = none ∧
      danglingGarden.trees.map
          (fun entry => (entry.1, entry.2.id, entry.2.relativePath)) =
        [("root.sakura", "root", "root.sakura")] := by
  refine ⟨rfl, by decide, rfl, rfl, rfl⟩

theorem checkBlossomGroupChilds_renamed_garden
    (createError : BlossomItem V → String → String → String)
    (interface : SakuraLangInterface V) (rename : String → String)
    (blossomGroupType : String) (id : String) (values : StdMap V) :
    ∀ (blossoms : List (BlossomItem V)) (filePath errorMessage : String),
      checkBlossomGroupChilds createError
          { interface with
              m_garden := renameSubtreesOfGarden rename interface.m_garden }
          blossomGroupType id values blossoms filePath errorMessage =
        checkBlossomGroupChilds createError interface blossomGroupType id
          values blossoms filePath errorMessage
  | [], _, _ => rfl
  | blossomItem :: rest, filePath, errorMessage => by
    simp only [checkBlossomGroupChilds]
    rw [checkBlossomGroupChilds_renamed_garden createError interface rename
      blossomGroupType id values rest filePath]
    rfl

mutual

theorem checkSakuraItem_renameSubtrees
    (createError : BlossomItem V → String → String → String)
    (interface : SakuraLangInterface V) (rename : String → String) :
    ∀ (item : SakuraItem V) (filePath errorMessage : String),
      checkSakuraItem createError
          { interface with
              m_garden := renameSubtreesOfGarden rename interface.m_garden }
          (renameSubtrees rename item) filePath errorMessage =
        ((checkSakuraItem createError interface item filePath errorMessage).1,
          renameSubtrees rename
            (checkSakuraItem createError interface item filePath
              errorMessage).2.1,
          (checkSakuraItem createError interface item filePath
            errorMessage).2.2)
  | .sequentiell childs, filePath, errorMessage => by
    simp only [renameSubtrees, checkSakuraItem]
    rw [checkSequentiellChilds_renameSubtrees createError interface rename
      childs filePath errorMessage]
  | .tree treeItem, filePath, errorMessage => by
    simp only [renameSubtrees, checkSakuraItem]
    rw [checkTreeItem_renameSubtrees createError interface rename treeItem
      errorMessage]
  | .subtree referencedId values, _, _ => by
    simp only [renameSubtrees, checkSakuraItem]
  | .blossom blossomItem, filePath, errorMessage => by
    simp only [renameSubtrees, checkSakuraItem]
    rfl
  | .blossomGroup id blossomGroupType nameHirarchie values blossoms, filePath,
      errorMessage => by
    simp only [renameSubtrees, checkSakuraItem]
    rw [checkBlossomGroupChilds_renamed_garden createError interface rename
      blossomGroupType id values blossoms filePath errorMessage]
  | .ifBranching condition ifContent elseContent, filePath, errorMessage => by
    simp only [renameSubtrees, checkSakuraItem]
    rw [checkSakuraItem_renameSubtrees createError interface rename ifContent
      filePath errorMessage]
    cases hFirst :
        (checkSakuraItem createError interface ifContent filePath
          errorMessage).1 with
    | false => simp only [if_true, renameSubtrees]
    | true =>
      simp only [Bool.true_eq_false, if_false]
      rw [checkSakuraItem_renameSubtrees createError interface rename
        elseContent filePath]
      cases hSecond :
          (checkSakuraItem createError interface elseContent filePath
            (checkSakuraItem createError interface ifContent filePath
              errorMessage).2.2).1 with
      | false => simp only [if_true, renameSubtrees]
      | true => simp only [Bool.true_eq_false, if_false, renameSubtrees]
  | .forEachBranching tempVarName iterateArray content, filePath,
      errorMessage => by
    simp only [renameSubtrees, checkSakuraItem]
    rw [checkSakuraItem_renameSubtrees createError interface rename content
      filePath errorMessage]
  | .forBranching tempVarName start stop content, filePath, errorMessage => by
    simp only [renameSubtrees, checkSakuraItem]
    rw [checkSakuraItem_renameSubtrees createError interface rename content
      filePath errorMessage]
  | .parallel childs, filePath, errorMessage => by
    simp only [renameSubtrees, checkSakuraItem]
    rw [checkSakuraItem_renameSubtrees createError interface rename childs
      filePath errorMessage]
  | .undefined, _, _ => by
    simp only [renameSubtrees, checkSakuraItem]

theorem checkTreeItem_renameSubtrees
    (createError : BlossomItem V → String → String → String)
    (interface : SakuraLangInterface V) (rename : String → String) :
    ∀ (treeItem : TreeItemOf (SakuraItem V) V) (errorMessage : String),
      checkTreeItem createError
          { interface with
              m_garden := renameSubtreesOfGarden rename interface.m_garden }
          (renameSubtreesOfTree rename treeItem) errorMessage =
        ((checkTreeItem createError interface treeItem errorMessage).1,
          renameSubtreesOfTree rename
            (checkTreeItem createError interface treeItem errorMessage).2.1,
          (checkTreeItem createError interface treeItem errorMessage).2.2)
  | ⟨rootPath, relativePath, id, values, childs⟩, errorMessage => by
    simp only [renameSubtreesOfTree, checkTreeItem]
    rw [checkSakuraItem_renameSubtrees createError interface rename childs _
      errorMessage]

theorem checkSequentiellChilds_renameSubtrees
    (createError : BlossomItem V → String → String → String)
    (interface : SakuraLangInterface V) (rename : String → String) :
    ∀ (childs : List (SakuraItem V)) (filePath errorMessage : String),
      checkSequentiellChilds createError
          { interface with
              m_garden := renameSubtreesOfGarden rename interface.m_garden }
          (renameSubtreesOfChilds rename childs) filePath errorMessage =
        ((checkSequentiellChilds createError interface childs filePath
            errorMessage).1,
          renameSubtreesOfChilds rename
            (checkSequentiellChilds createError interface childs filePath
              errorMessage).2.1,
          (checkSequentiellChilds createError interface childs filePath
            errorMessage).2.2)
  | [], _, _ => by
    simp only [renameSubtreesOfChilds, checkSequentiellChilds]
  | item :: rest, filePath, errorMessage => by
    simp only [renameSubtreesOfChilds, checkSequentiellChilds]
    rw [checkSakuraItem_renameSubtrees createError interface rename item
      filePath errorMessage]
    cases hFirst :
        (checkSakuraItem createError interface item filePath
          errorMessage).1 with
    | false => simp only [if_true, renameSubtreesOfChilds]
    | true =>
      simp only [Bool.true_eq_false, if_false]
      rw [checkSequentiellChilds_renameSubtrees createError interface rename
        rest filePath]
      simp only [renameSubtreesOfChilds]

end

theorem checkAllTrees_renameSubtrees
    (createError : BlossomItem V → String → String → String)
    (interface : SakuraLangInterface V) (rename : String → String) :
    ∀ (trees : StdMap (TreeItem V)) (errorMessage : String),
      checkAllTrees createError
          { interface with
              m_garden := renameSubtreesOfGarden rename interface.m_garden }
          (renameSubtreesOfTrees rename trees) errorMessage =
        ((checkAllTrees createError interface trees errorMessage).1,
          renameSubtreesOfTrees rename
            (checkAllTrees createError interface trees errorMessage).2.1,
          (checkAllTrees createError interface trees errorMessage).2.2)
  | [], _ => by simp only [renameSubtreesOfTrees, checkAllTrees]
  | (key, treeItem) :: rest, errorMessage => by
    simp only [renameSubtreesOfTrees, checkAllTrees]
    rw [checkTreeItem_renameSubtrees createError interface rename treeItem
      errorMessage]
    cases hFirst :
        (checkTreeItem createError interface treeItem errorMessage).1 with
    | false => simp only [if_true, renameSubtreesOfTrees]
    | true =>
      simp only [Bool.true_eq_false, if_false]
      rw [checkAllTrees_renameSubtrees createError interface rename rest]
      simp only [renameSubtreesOfTrees]

/-- C9 (amended): the validator does not resolve Subtree items. For every
garden, checkAllItems returns the same result and the same error message
whatever the referencedId of each Subtree item reachable in the garden's
trees; the trees afterwards differ only in those ids. -/
theorem C9_checkAllItems_ignores_subtree_references
    (createError : BlossomItem V → String → String → String)
    (interface : SakuraLangInterface V) (garden : SakuraGarden V)
    (rename : String → String) (errorMessage : String) :
    checkAllItems createError
        { interface with
            m_garden := renameSubtreesOfGarden rename interface.m_garden }
        (renameSubtreesOfGarden rename garden) errorMessage =
      ((checkAllItems createError interface garden errorMessage).1,
        renameSubtreesOfTrees rename
          (checkAllItems createError interface garden errorMessage).2.1,
        (checkAllItems createError interface garden errorMessage).2.2) := by
  simp only [checkAllItems, renameSubtreesOfGarden]
  exact checkAllTrees_renameSubtrees createError interface rename garden.trees
    errorMessage

/-! ## Printing -/

/-- C15: for every terminal width w (an unsigned short) and every output s,
printOutput logs min(w, 300) characters '=', two newlines, s and one newline,
and the separator line is at most 300 characters long. -/
theorem C15_printOutput_caps_the_separator (ws_col : Nat) (output : String)
    (width : ws_col < 2 ^ 16) :
    printOutput ws_col output =
        String.mk (List.replicate (min ws_col 300) '=') ++ "\n\n" ++ output
          ++ "\n" ∧
      (String.mk (List.replicate (min ws_col 300) '=')).length ≤ 300 := by
  have hMod : ws_col % 2 ^ 32 = ws_col := Nat.mod_eq_of_lt (by omega)
  constructor
  · unfold printOutput
    simp only [hMod]
    by_cases hBig : ws_col > 300
    · have hMin : min ws_col 300 = 300 := by omega
      simp only [hBig, if_true, hMin]
    · have hMin : min ws_col 300 = ws_col := by omega
      simp only [hBig, if_false, hMin]
  · simp only [String.length, List.length_replicate]
    omega

theorem C15_printOutput_caps_the_separator_witness :
    500 < 2 ^ 16 ∧
      (printOutput 500 "done" =
          String.mk (List.replicate (min 500 300) '=') ++ "\n\n" ++ "done"
            ++ "\n" ∧
        (String.mk (List.replicate (min 500 300) '=')).length ≤ 300) :=
  ⟨by decide, C15_printOutput_caps_the_separator 500 "done" (by decide)⟩

/-! ## Parsed files -/

theorem searchParsedFileContent_eq_find {J : Type} (idOf : J → String)
    (invalid : J) (name : String) :
    ∀ m_fileContents : List (String × J),
      searchParsedFileContent idOf invalid m_fileContents name =
        ((m_fileContents.find? (fun entry => decide (idOf entry.2 = name))).map
          Prod.snd).getD invalid
  | [] => rfl
  | entry :: rest => by
    by_cases hId : idOf entry.2 = name
    · simp [searchParsedFileContent, List.find?, hId]
    · simp [searchParsedFileContent, List.find?, hId,
        searchParsedFileContent_eq_find idOf invalid name rest]

/-- C17: getParsedFileContent(name) returns the content of the first file when
name is empty and the list is not; otherwise the content of the first entry
whose b_id equals name, and the invalid item when there is none. -/
theorem C17_getParsedFileContent_finds_first_match {J : Type}
    (idOf : J → String) (invalid : J) (m_fileContents : List (String × J))
    (name : String) :
    getParsedFileContent idOf invalid m_fileContents name =
      if name = "" ∧ 0 < m_fileContents.length then
        (m_fileContents.head?.map Prod.snd).getD invalid
      else
        ((m_fileContents.find? (fun entry => decide (idOf entry.2 = name))).map
          Prod.snd).getD invalid := by
  unfold getParsedFileContent
  cases m_fileContents with
  | nil => simp [searchParsedFileContent]
  | cons first rest =>
    by_cases hName : name = ""
    · simp [hName]
    · simp only [hName, false_and, if_false]
      exact searchParsedFileContent_eq_find idOf invalid name (first :: rest)

/-! ## Directory walk -/

theorem reachableFile_cons (path : String) (entry : DirEntry)
    (rest : List DirEntry) :
    ReachableFile path (entry :: rest) ↔
      ReachableFile path [entry] ∨ ReachableFile path rest := by
  constructor
  · intro h
    cases h with
    | direct leaf _ hMem =>
      rcases List.mem_cons.mp hMem with hEq | hIn
      · exact Or.inl (.direct leaf _ (by rw [hEq]; exact List.mem_singleton.mpr rfl))
      · exact Or.inr (.direct leaf _ hIn)
    | through dirPath leaf sub _ hMem hT hF hSub =>
      rcases List.mem_cons.mp hMem with hEq | hIn
      · exact Or.inl (.through dirPath leaf sub _
          (by rw [hEq]; exact List.mem_singleton.mpr rfl) hT hF hSub)
      · exact Or.inr (.through dirPath leaf sub _ hIn hT hF hSub)
  · intro h
    rcases h with h | h
    · cases h with
      | direct leaf _ hMem =>
        have hEq := List.mem_singleton.mp hMem
        exact .direct leaf _ (by rw [hEq]; exact List.mem_cons_self _ _)
      | through dirPath leaf sub _ hMem hT hF hSub =>
        have hEq := List.mem_singleton.mp hMem
        exact .through dirPath leaf sub _
          (by rw [hEq]; exact List.mem_cons_self _ _) hT hF hSub
    · cases h with
      | direct leaf _ hMem => exact .direct leaf _ (List.mem_cons_of_mem _ hMem)
      | through dirPath leaf sub _ hMem hT hF hSub =>
        exact .through dirPath leaf sub _ (List.mem_cons_of_mem _ hMem) hT hF hSub

theorem reachableFile_nil (path : String) : ¬ ReachableFile path [] := by
  intro h
  cases h with
  | direct leaf _ hMem => cases hMem
  | through dirPath leaf sub _ hMem _ _ _ => cases hMem

theorem reachableFile_single_file (path : String) (filePath : String)
    (leaf : String) :
    ReachableFile path [DirEntry.file filePath leaf] ↔ path = filePath := by
  constructor
  · intro h
    cases h with
    | direct leaf2 _ hMem =>
      have hEq := List.mem_singleton.mp hMem
      injection hEq
    | through dirPath leaf2 sub _ hMem _ _ _ =>
      have hEq := List.mem_singleton.mp hMem
      cases hEq
  · intro h
    subst h
    exact .direct leaf _ (List.mem_singleton.mpr rfl)

theorem reachableFile_single_directory (path : String) (dirPath : String)
    (leaf : String) (entries : List DirEntry) :
    ReachableFile path [DirEntry.directory dirPath leaf entries] ↔
      leaf ≠ "templates" ∧ leaf ≠ "files" ∧ ReachableFile path entries := by
  constructor
  · intro h
    cases h with
    | direct leaf2 _ hMem =>
      have hEq := List.mem_singleton.mp hMem
      cases hEq
    | through dirPath2 leaf2 sub _ hMem hT hF hSub =>
      have hEq := List.mem_singleton.mp hMem
      injection hEq with _ hLeaf hEntries
      subst hLeaf
      subst hEntries
      exact ⟨hT, hF, hSub⟩
  · intro h
    exact .through dirPath leaf entries _ (List.mem_singleton.mpr rfl) h.1 h.2.1
      h.2.2

mutual

theorem getFilesInDirEntry_appends {J : Type} (invalid : J) :
    ∀ (entry : DirEntry) (m_fileContents : List (String × J)),
      ∃ added : List (String × J),
        getFilesInDirEntry invalid entry m_fileContents
            = m_fileContents ++ added ∧
          (∀ item ∈ added, item.2 = invalid) ∧
          ∀ path : String,
            path ∈ added.map Prod.fst ↔ ReachableFile path [entry]
  | .directory dirPath leaf entries, m_fileContents => by
    by_cases hLeaf : leaf ≠ "templates" ∧ leaf ≠ "files"
    · obtain ⟨added, hEq, hInvalid, hIff⟩ :=
        getFilesInDir_appends invalid entries m_fileContents
      refine ⟨added, ?_, hInvalid, ?_⟩
      · simp only [getFilesInDirEntry, if_pos hLeaf, hEq]
      · intro path
        rw [hIff path, reachableFile_single_directory]
        exact ⟨fun h => ⟨hLeaf.1, hLeaf.2, h⟩, fun h => h.2.2⟩
    · refine ⟨[], ?_, ?_, ?_⟩
      · simp only [getFilesInDirEntry, if_neg hLeaf, List.append_nil]
      · intro item hItem
        cases hItem
      · intro path
        rw [reachableFile_single_directory]
        constructor
        · intro h
          cases h
        · intro h
          exact absurd ⟨h.1, h.2.1⟩ hLeaf
  | .file filePath leaf, m_fileContents => by
    refine ⟨[(filePath, invalid)], ?_, ?_, ?_⟩
    · simp only [getFilesInDirEntry]
    · intro item hItem
      rw [List.mem_singleton.mp hItem]
    · intro path
      rw [reachableFile_single_file]
      simp

theorem getFilesInDir_appends {J : Type} (invalid : J) :
    ∀ (entries : List DirEntry) (m_fileContents : List (String × J)),
      ∃ added : List (String × J),
        getFilesInDir invalid entries m_fileContents
            = m_fileContents ++ added ∧
          (∀ item ∈ added, item.2 = invalid) ∧
          ∀ path : String,
            path ∈ added.map Prod.fst ↔ ReachableFile path entries
  | [], m_fileContents => by
    refine ⟨[], ?_, ?_, ?_⟩
    · simp only [getFilesInDir, List.append_nil]
    · intro item hItem
      cases hItem
    · intro path
      constructor
      · intro h
        cases h
      · intro h
        exact absurd h (reachableFile_nil path)
  | entry :: rest, m_fileContents => by
    obtain ⟨first, hFirst, hFirstInvalid, hFirstIff⟩ :=
      getFilesInDirEntry_appends invalid entry m_fileContents
    obtain ⟨others, hOthers, hOthersInvalid, hOthersIff⟩ :=
      getFilesInDir_appends invalid rest (m_fileContents ++ first)
    refine ⟨first ++ others, ?_, ?_, ?_⟩
    · simp only [getFilesInDir, hFirst, hOthers, List.append_assoc]
    · intro item hItem
      rcases List.mem_append.mp hItem with h | h
      · exact hFirstInvalid item h
      · exact hOthersInvalid item h
    · intro path
      rw [List.map_append, List.mem_append, hFirstIff path, hOthersIff path]
      exact (reachableFile_cons path entry rest).symm

end

/-- C16: getFilesInDir appends to m_fileContents exactly the paths of the
non-directory entries that can be reached through subdirectories none of which
is named exactly "templates" or "files", each with an empty JsonItem; what was
collected before is kept. -/
theorem C16_getFilesInDir_collects_reachable_files {J : Type} (invalid : J)
    (entries : List DirEntry) (m_fileContents : List (String × J)) :
    ∃ added : List (String × J),
      getFilesInDir invalid entries m_fileContents = m_fileContents ++ added ∧
        (∀ item ∈ added, item.2 = invalid) ∧
        ∀ path : String,
          path ∈ added.map Prod.fst ↔ ReachableFile path entries :=
  getFilesInDir_appends invalid entries m_fileContents

/-! ## The file path written into blossoms -/

mutual

theorem path_of_checkSakuraItem
    (createError : BlossomItem V → String → String → String)
    (interface : SakuraLangInterface V) :
    ∀ (item : SakuraItem V) (filePath errorMessage : String),
      (checkSakuraItem createError interface item filePath errorMessage).1
        = true →
      ∀ blossomItem ∈
        blossomsOutsideTrees
          (checkSakuraItem createError interface item filePath
            errorMessage).2.1,
        blossomItem.blossomPath = filePath
  | .sequentiell childs, filePath, errorMessage, accepted, b, hb => by
    simp only [checkSakuraItem, blossomsOutsideTrees] at accepted hb
    exact path_of_checkSequentiellChilds createError interface childs filePath
      errorMessage accepted b hb
  | .tree treeItem, _, _, _, b, hb => by
    simp [checkSakuraItem, blossomsOutsideTrees] at hb
  | .subtree referencedId values, _, _, _, b, hb => by
    simp [checkSakuraItem, blossomsOutsideTrees] at hb
  | .blossom blossomItem, filePath, errorMessage, _, b, hb => by
    simp only [checkSakuraItem, checkBlossomBranch, blossomsOutsideTrees,
      List.mem_singleton] at hb
    rw [hb]
  | .blossomGroup id blossomGroupType nameHirarchie values blossoms, filePath,
      errorMessage, accepted, b, hb => by
    simp only [checkSakuraItem, blossomsOutsideTrees] at accepted hb
    have hGroup :=
      checkBlossomGroupChilds_accepted createError interface blossomGroupType
        id values blossoms filePath errorMessage accepted
    rw [hGroup.1] at hb
    obtain ⟨child, _, rfl⟩ := List.mem_map.mp hb
    rfl
  | .ifBranching condition ifContent elseContent, filePath, errorMessage,
      accepted, b, hb => by
    simp only [checkSakuraItem] at accepted hb
    cases hFirst :
        (checkSakuraItem createError interface ifContent filePath
          errorMessage).1 with
    | false => simp [hFirst] at accepted
    | true =>
      simp only [hFirst, Bool.true_eq_false, if_false] at accepted hb
      cases hSecond :
          (checkSakuraItem createError interface elseContent filePath
            (checkSakuraItem createError interface ifContent filePath
              errorMessage).2.2).1 with
      | false => simp [hSecond] at accepted
      | true =>
        simp only [hSecond, Bool.true_eq_false, if_false, blossomsOutsideTrees,
          List.mem_append] at hb
        rcases hb with hb | hb
        · exact path_of_checkSakuraItem createError interface ifContent
            filePath errorMessage hFirst b hb
        · exact path_of_checkSakuraItem createError interface elseContent
            filePath _ hSecond b hb
  | .forEachBranching tempVarName iterateArray content, filePath, errorMessage,
      accepted, b, hb => by
    simp only [checkSakuraItem, blossomsOutsideTrees] at accepted hb
    exact path_of_checkSakuraItem createError interface content filePath
      errorMessage accepted b hb
  | .forBranching tempVarName start stop content, filePath, errorMessage,
      accepted, b, hb => by
    simp only [checkSakuraItem, blossomsOutsideTrees] at accepted hb
    exact path_of_checkSakuraItem createError interface content filePath
      errorMessage accepted b hb
  | .parallel childs, filePath, errorMessage, accepted, b, hb => by
    simp only [checkSakuraItem, blossomsOutsideTrees] at accepted hb
    exact path_of_checkSakuraItem createError interface childs filePath
      errorMessage accepted b hb
  | .undefined, _, _, accepted, _, _ => by
    simp [checkSakuraItem] at accepted

theorem path_of_checkSequentiellChilds
    (createError : BlossomItem V → String → String → String)
    (interface : SakuraLangInterface V) :
    ∀ (childs : List (SakuraItem V)) (filePath errorMessage : String),
      (checkSequentiellChilds createError interface childs filePath
          errorMessage).1 = true →
      ∀ blossomItem ∈
        blossomsOutsideTreesOfChilds
          (checkSequentiellChilds createError interface childs filePath
            errorMessage).2.1,
        blossomItem.blossomPath = filePath
  | [], _, _, _, b, hb => by
    simp [checkSequentiellChilds, blossomsOutsideTreesOfChilds] at hb
  | item :: rest, filePath, errorMessage, accepted, b, hb => by
    simp only [checkSequentiellChilds] at accepted hb
    cases hFirst :
        (checkSakuraItem createError interface item filePath
          errorMessage).1 with
    | false => simp [hFirst] at accepted
    | true =>
      simp only [hFirst, Bool.true_eq_false, if_false,
        blossomsOutsideTreesOfChilds, List.mem_append] at accepted hb
      rcases hb with hb | hb
      · exact path_of_checkSakuraItem createError interface item filePath
          errorMessage hFirst b hb
      · exact path_of_checkSequentiellChilds createError interface rest
          filePath _ accepted b hb

end

/-- C18: when the validator accepts a Tree item, the tree afterwards keeps its
rootPath and relativePath, and every blossom of its body that stands outside
nested Trees has blossomPath = rootPath + "/" + relativePath of the tree,
whatever file path the caller passed. -/
theorem C18_tree_sets_the_path_of_its_blossoms
    (createError : BlossomItem V → String → String → String)
    (interface : SakuraLangInterface V) (treeItem : TreeItem V)
    (filePath : String) (errorMessage : String)
    (accepted :
      (checkSakuraItem createError interface (.tree treeItem) filePath
        errorMessage).1 = true) :
    ∃ checked : TreeItem V,
      (checkSakuraItem createError interface (.tree treeItem) filePath
          errorMessage).2.1 = .tree checked ∧
        checked.rootPath = treeItem.rootPath ∧
        checked.relativePath = treeItem.relativePath ∧
        ∀ blossomItem ∈ blossomsOutsideTrees checked.childs,
          blossomItem.blossomPath =
            treeItem.rootPath ++ "/" ++ treeItem.relativePath := by
  obtain ⟨rootPath, relativePath, id, values, childs⟩ := treeItem
  simp only [checkSakuraItem, checkTreeItem] at accepted ⊢
  refine ⟨_, rfl, rfl, rfl, ?_⟩
  exact path_of_checkSakuraItem createError interface childs
    (rootPath ++ "/" ++ relativePath) errorMessage accepted

theorem C18_tree_sets_the_path_of_its_blossoms_witness :
    (checkSakuraItem sampleCreateError fooBarInterface
        (.tree
          { rootPath := "/r", relativePath := "root.sakura", id := "root",
            values := [], childs := .sequentiell [fooGroup] })
        "/elsewhere" "").1 = true ∧
      ∃ checked : TreeItem Nat,
        (checkSakuraItem sampleCreateError fooBarInterface
            (.tree
              { rootPath := "/r", relativePath := "root.sakura", id := "root",
                values := [], childs := .sequentiell [fooGroup] })
            "/elsewhere" "").2.1 = .tree checked ∧
          checked.rootPath = "/r" ∧
          checked.relativePath = "root.sakura" ∧
          ∀ blossomItem ∈ blossomsOutsideTrees checked.childs,
            blossomItem.blossomPath = "/r" ++ "/" ++ "root.sakura" :=
  ⟨rfl,
    C18_tree_sets_the_path_of_its_blossoms sampleCreateError fooBarInterface
      { rootPath := "/r", relativePath := "root.sakura", id := "root",
        values := [], childs := .sequentiell [fooGroup] }
      "/elsewhere" "" rfl⟩

/-! ## Sequential items stop at the first failure -/

theorem checkSequentiellChilds_append
    (createError : BlossomItem V → String → String → String)
    (interface : SakuraLangInterface V) (rest : List (SakuraItem V))
    (filePath : String) :
    ∀ (pre : List (SakuraItem V)) (errorMessage : String),
      (checkSequentiellChilds createError interface pre filePath
          errorMessage).1 = true →
      checkSequentiellChilds createError interface (pre ++ rest) filePath
          errorMessage =
        ((checkSequentiellChilds createError interface rest filePath
            (checkSequentiellChilds createError interface pre filePath
              errorMessage).2.2).1,
          (checkSequentiellChilds createError interface pre filePath
              errorMessage).2.1 ++
            (checkSequentiellChilds createError interface rest filePath
              (checkSequentiellChilds createError interface pre filePath
                errorMessage).2.2).2.1,
          (checkSequentiellChilds createError interface rest filePath
            (checkSequentiellChilds createError interface pre filePath
              errorMessage).2.2).2.2)
  | [], errorMessage, _ => by
    simp only [checkSequentiellChilds, List.nil_append]
  | item :: pre, errorMessage, accepted => by
    rw [List.cons_append] at *
    simp only [checkSequentiellChilds] at accepted ⊢
    cases hFirst :
        (checkSakuraItem createError interface item filePath
          errorMessage).1 with
    | false => simp [hFirst] at accepted
    | true =>
      simp only [hFirst, Bool.true_eq_false, if_false] at accepted ⊢
      rw [checkSequentiellChilds_append createError interface rest filePath
        pre _ accepted]
      simp only [List.cons_append]

theorem checkSequentiellChilds_of_append_accepted
    (createError : BlossomItem V → String → String → String)
    (interface : SakuraLangInterface V) (rest : List (SakuraItem V))
    (filePath : String) :
    ∀ (pre : List (SakuraItem V)) (errorMessage : String),
      (checkSequentiellChilds createError interface (pre ++ rest) filePath
          errorMessage).1 = true →
      (checkSequentiellChilds createError interface pre filePath
          errorMessage).1 = true
  | [], _, _ => by simp only [checkSequentiellChilds]
  | item :: pre, errorMessage, accepted => by
    rw [List.cons_append] at *
    simp only [checkSequentiellChilds] at accepted ⊢
    cases hFirst :
        (checkSakuraItem createError interface item filePath
          errorMessage).1 with
    | false => simp [hFirst] at accepted
    | true =>
      simp only [hFirst, Bool.true_eq_false, if_false] at accepted ⊢
      exact checkSequentiellChilds_of_append_accepted createError interface rest filePath
        pre _ accepted

theorem checkSequentiellChilds_of_each_child
    (createError : BlossomItem V → String → String → String)
    (interface : SakuraLangInterface V) (filePath : String) :
    ∀ (childs : List (SakuraItem V)) (errorMessage : String),
      (∀ (pre : List (SakuraItem V)) (child : SakuraItem V)
          (post : List (SakuraItem V)),
        childs = pre ++ child :: post →
        (checkSakuraItem createError interface child filePath
          (checkSequentiellChilds createError interface pre filePath
            errorMessage).2.2).1 = true) →
      (checkSequentiellChilds createError interface childs filePath
          errorMessage).1 = true
  | [], _, _ => by simp only [checkSequentiellChilds]
  | item :: rest, errorMessage, each => by
    have hFirst :
        (checkSakuraItem createError interface item filePath
          errorMessage).1 = true := by
      have h := each [] item rest rfl
      simpa only [checkSequentiellChilds] using h
    simp only [checkSequentiellChilds, hFirst, Bool.true_eq_false, if_false]
    apply checkSequentiellChilds_of_each_child createError interface filePath
      rest
    intro pre child post hSplit
    have h := each (item :: pre) child post (by rw [hSplit]; rfl)
    simpa only [checkSequentiellChilds, hFirst, Bool.true_eq_false, if_false]
      using h

/-- C19: checkSakuraItem returns true on a Sequential exactly when it returns
true on every child, each checked with the error message its predecessors
left; when all children before some child are accepted and that child fails,
the result is false, the children after it are left as they were, and the
error message is the one the check of that child left. -/
theorem C19_sequential_stops_at_first_failure
    (createError : BlossomItem V → String → String → String)
    (interface : SakuraLangInterface V) (childs : List (SakuraItem V))
    (filePath : String) (errorMessage : String) :
    ((checkSakuraItem createError interface (.sequentiell childs) filePath
          errorMessage).1 = true ↔
        ∀ (pre : List (SakuraItem V)) (child : SakuraItem V)
            (post : List (SakuraItem V)),
          childs = pre ++ child :: post →
          (checkSakuraItem createError interface child filePath
            (checkSakuraItem createError interface (.sequentiell pre) filePath
              errorMessage).2.2).1 = true) ∧
      ∀ (pre : List (SakuraItem V)) (child : SakuraItem V)
          (post : List (SakuraItem V)),
        childs = pre ++ child :: post →
        (checkSakuraItem createError interface (.sequentiell pre) filePath
          errorMessage).1 = true →
        (checkSakuraItem createError interface child filePath
          (checkSakuraItem createError interface (.sequentiell pre) filePath
            errorMessage).2.2).1 = false →
        ∃ checkedPre : List (SakuraItem V),
          (checkSakuraItem createError interface (.sequentiell pre) filePath
              errorMessage).2.1 = .sequentiell checkedPre ∧
            checkSakuraItem createError interface (.sequentiell childs)
                filePath errorMessage =
              (false,
                .sequentiell
                  (checkedPre ++
                    (checkSakuraItem createError interface child filePath
                      (checkSakuraItem createError interface
                        (.sequentiell pre) filePath errorMessage).2.2).2.1
                      :: post),
                (checkSakuraItem createError interface child filePath
                  (checkSakuraItem createError interface (.sequentiell pre)
                    filePath errorMessage).2.2).2.2) := by
  simp only [checkSakuraItem]
  refine ⟨⟨?_, ?_⟩, ?_⟩
  · intro accepted pre child post hSplit
    subst hSplit
    have hPre :=
      checkSequentiellChilds_of_append_accepted createError interface (child :: post)
        filePath pre errorMessage accepted
    rw [checkSequentiellChilds_append createError interface (child :: post)
      filePath pre errorMessage hPre] at accepted
    simp only [checkSequentiellChilds] at accepted
    cases hChild :
        (checkSakuraItem createError interface child filePath
          (checkSequentiellChilds createError interface pre filePath
            errorMessage).2.2).1 with
    | false => simp [hChild] at accepted
    | true => rfl
  · exact checkSequentiellChilds_of_each_child createError interface filePath
      childs errorMessage
  · intro pre child post hSplit hPre hChild
    subst hSplit
    refine ⟨_, rfl, ?_⟩
    rw [checkSequentiellChilds_append createError interface (child :: post)
      filePath pre errorMessage hPre]
    simp only [checkSequentiellChilds, hChild, if_true]

theorem C19_sequential_stops_at_first_failure_witness :
    (checkSakuraItem sampleCreateError fooBarInterface
        (.sequentiell stoppingSequence) "/r/a" "").1 = false ∧
      checkSakuraItem sampleCreateError fooBarInterface
          (.sequentiell stoppingSequence) "/r/a" "" =
        (false,
          .sequentiell
            [.blossom { barBlossom with blossomPath := "/r/a" },
              .blossom
                { barBlossom with
                    blossomType := "unheard", blossomPath := "/r/a" },
              .blossom barWithValue],
          "validator: unknow blossom-type [/r/a|foo|unheard]") := by
  have h :=
    (C19_sequential_stops_at_first_failure sampleCreateError fooBarInterface
      stoppingSequence "/r/a" "").2
      [.blossom barBlossom]
      (.blossom { barBlossom with blossomType := "unheard" })
      [.blossom barWithValue] rfl rfl rfl
  obtain ⟨checkedPre, hPre, hAll⟩ := h
  refine ⟨by rw [hAll], ?_⟩
  rw [hAll]
  have hChecked :
      checkedPre = [.blossom { barBlossom with blossomPath := "/r/a" }] := by
    have hEval :
        (checkSakuraItem sampleCreateError fooBarInterface
            (.sequentiell [.blossom barBlossom]) "/r/a" "").2.1 =
          .sequentiell [.blossom { barBlossom with blossomPath := "/r/a" }] :=
      rfl
    rw [hEval] at hPre
    injection hPre with hList
    exact hList.symm
  rw [hChecked]
  rfl

/-! ## Completeness of the validator -/

theorem checkBlossomItem_of_acceptable
    (createError : BlossomItem V → String → String → String)
    (interface : SakuraLangInterface V) (blossomItem : BlossomItem V)
    (errorMessage : String)
    (acceptable : AcceptableBlossom interface blossomItem) :
    (checkBlossomItem createError interface blossomItem errorMessage).1
      = true := by
  unfold checkBlossomItem
  cases hRes : getRessource interface.m_garden blossomItem.blossomType with
  | some treeItem => rfl
  | none =>
    rcases acceptable with hSome | ⟨handler, hGet, hAccepts⟩
    · rw [hRes] at hSome
      cases hSome
    · simp only [hGet]
      exact hAccepts errorMessage

theorem checkBlossomGroupChilds_of_acceptable
    (createError : BlossomItem V → String → String → String)
    (interface : SakuraLangInterface V) (blossomGroupType : String)
    (id : String) (values : StdMap V) (filePath : String) :
    ∀ (blossoms : List (BlossomItem V)) (errorMessage : String),
      (∀ blossomItem ∈
          blossoms.map (preparedChild blossomGroupType id values filePath),
        AcceptableBlossom interface blossomItem) →
      (checkBlossomGroupChilds createError interface blossomGroupType id
          values blossoms filePath errorMessage).1 = true
  | [], _, _ => by simp only [checkBlossomGroupChilds]
  | blossomItem :: rest, errorMessage, acceptable => by
    have hFirst :
        (checkBlossomItem createError interface
          (preparedChild blossomGroupType id values filePath blossomItem)
          errorMessage).1 = true :=
      checkBlossomItem_of_acceptable createError interface _ errorMessage
        (acceptable _ (List.mem_cons_self _ _))
    simp only [preparedChild] at hFirst
    simp only [checkBlossomGroupChilds, checkBlossomBranch, hFirst,
      Bool.true_eq_false, if_false]
    apply checkBlossomGroupChilds_of_acceptable createError interface
      blossomGroupType id values filePath rest
    intro b hb
    exact acceptable b (List.mem_cons_of_mem _ hb)

mutual

theorem checkSakuraItem_of_acceptable
    (createError : BlossomItem V → String → String → String)
    (interface : SakuraLangInterface V) :
    ∀ (item : SakuraItem V) (filePath errorMessage : String),
      onlyKnownItems item = true →
      (∀ blossomItem ∈ blossomsAsValidated item filePath,
        AcceptableBlossom interface blossomItem) →
      (checkSakuraItem createError interface item filePath errorMessage).1
        = true
  | .sequentiell childs, filePath, errorMessage, known, acceptable => by
    simp only [onlyKnownItems, blossomsAsValidated] at known acceptable
    simp only [checkSakuraItem]
    exact checkSequentiellChilds_of_acceptable createError interface childs
      filePath errorMessage known acceptable
  | .tree treeItem, filePath, errorMessage, known, acceptable => by
    simp only [onlyKnownItems, blossomsAsValidated] at known acceptable
    simp only [checkSakuraItem]
    exact checkTreeItem_of_acceptable createError interface treeItem
      errorMessage known acceptable
  | .subtree referencedId values, _, _, _, _ => by
    simp only [checkSakuraItem]
  | .blossom blossomItem, filePath, errorMessage, _, acceptable => by
    simp only [blossomsAsValidated, List.mem_singleton] at acceptable
    simp only [checkSakuraItem, checkBlossomBranch]
    exact checkBlossomItem_of_acceptable createError interface _ errorMessage
      (acceptable _ rfl)
  | .blossomGroup id blossomGroupType nameHirarchie values blossoms, filePath,
      errorMessage, _, acceptable => by
    simp only [blossomsAsValidated] at acceptable
    simp only [checkSakuraItem]
    exact checkBlossomGroupChilds_of_acceptable createError interface
      blossomGroupType id values filePath blossoms errorMessage acceptable
  | .ifBranching condition ifContent elseContent, filePath, errorMessage,
      known, acceptable => by
    simp only [onlyKnownItems, Bool.and_eq_true] at known
    simp only [blossomsAsValidated, List.mem_append] at acceptable
    have hFirst :=
      checkSakuraItem_of_acceptable createError interface ifContent filePath
        errorMessage known.1 (fun b hb => acceptable b (Or.inl hb))
    have hSecond :=
      checkSakuraItem_of_acceptable createError interface elseContent filePath
        (checkSakuraItem createError interface ifContent filePath
          errorMessage).2.2 known.2 (fun b hb => acceptable b (Or.inr hb))
    simp only [checkSakuraItem, hFirst, hSecond, Bool.true_eq_false, if_false]
  | .forEachBranching tempVarName iterateArray content, filePath, errorMessage,
      known, acceptable => by
    simp only [onlyKnownItems, blossomsAsValidated] at known acceptable
    simp only [checkSakuraItem]
    exact checkSakuraItem_of_acceptable createError interface content filePath
      errorMessage known acceptable
  | .forBranching tempVarName start stop content, filePath, errorMessage,
      known, acceptable => by
    simp only [onlyKnownItems, blossomsAsValidated] at known acceptable
    simp only [checkSakuraItem]
    exact checkSakuraItem_of_acceptable createError interface content filePath
      errorMessage known acceptable
  | .parallel childs, filePath, errorMessage, known, acceptable => by
    simp only [onlyKnownItems, blossomsAsValidated] at known acceptable
    simp only [checkSakuraItem]
    exact checkSakuraItem_of_acceptable createError interface childs filePath
      errorMessage known acceptable
  | .undefined, _, _, known, _ => by
    simp [onlyKnownItems] at known

theorem checkTreeItem_of_acceptable
    (createError : BlossomItem V → String → String → String)
    (interface : SakuraLangInterface V) :
    ∀ (treeItem : TreeItemOf (SakuraItem V) V) (errorMessage : String),
      onlyKnownItemsOfTree treeItem = true →
      (∀ blossomItem ∈ blossomsAsValidatedOfTree treeItem,
        AcceptableBlossom interface blossomItem) →
      (checkTreeItem createError interface treeItem errorMessage).1 = true
  | ⟨rootPath, relativePath, id, values, childs⟩, errorMessage, known,
      acceptable => by
    simp only [onlyKnownItemsOfTree, blossomsAsValidatedOfTree]
      at known acceptable
    simp only [checkTreeItem]
    exact checkSakuraItem_of_acceptable createError interface childs _
      errorMessage known acceptable

theorem checkSequentiellChilds_of_acceptable
    (createError : BlossomItem V → String → String → String)
    (interface : SakuraLangInterface V) :
    ∀ (childs : List (SakuraItem V)) (filePath errorMessage : String),
      onlyKnownItemsOfChilds childs = true →
      (∀ blossomItem ∈ blossomsAsValidatedOfChilds childs filePath,
        AcceptableBlossom interface blossomItem) →
      (checkSequentiellChilds createError interface childs filePath
          errorMessage).1 = true
  | [], _, _, _, _ => by simp only [checkSequentiellChilds]
  | item :: rest, filePath, errorMessage, known, acceptable => by
    simp only [onlyKnownItemsOfChilds, Bool.and_eq_true] at known
    simp only [blossomsAsValidatedOfChilds, List.mem_append] at acceptable
    have hFirst :=
      checkSakuraItem_of_acceptable createError interface item filePath
        errorMessage known.1 (fun b hb => acceptable b (Or.inl hb))
    simp only [checkSequentiellChilds, hFirst, Bool.true_eq_false, if_false]
    exact checkSequentiellChilds_of_acceptable createError interface rest
      filePath _ known.2 (fun b hb => acceptable b (Or.inr hb))

end

/-- C20: on an item built only from the nine item kinds, when every reachable
blossom, after the group fill and the path assignment, names a resource or has
a registered handler for (blossomGroupType, blossomType) whose validateInput
accepts it, checkSakuraItem returns true; an If is accepted exactly when its
then-branch is accepted and then its else-branch is, and a ForEach, a For and
a Parallel are accepted exactly when their body is. -/
theorem C20_validator_accepts_acceptable_items
    (createError : BlossomItem V → String → String → String)
    (interface : SakuraLangInterface V) :
    (∀ (item : SakuraItem V) (filePath errorMessage : String),
        onlyKnownItems item = true →
        (∀ blossomItem ∈ blossomsAsValidated item filePath,
          (getRessource interface.m_garden blossomItem.blossomType).isSome
              = true ∨
            ∃ handler : Blossom V,
              getBlossom interface blossomItem.blossomGroupType
                  blossomItem.blossomType = some handler ∧
                ∀ before : String,
                  (handler.validateInput blossomItem before).1 = true) →
        (checkSakuraItem createError interface item filePath errorMessage).1
          = true) ∧
      (∀ (condition : V) (ifContent elseContent : SakuraItem V)
          (filePath errorMessage : String),
        (checkSakuraItem createError interface
            (.ifBranching condition ifContent elseContent) filePath
            errorMessage).1 = true ↔
          (checkSakuraItem createError interface ifContent filePath
              errorMessage).1 = true ∧
            (checkSakuraItem createError interface elseContent filePath
              (checkSakuraItem createError interface ifContent filePath
                errorMessage).2.2).1 = true) ∧
      (∀ (tempVarName : String) (iterateArray : V) (content : SakuraItem V)
          (filePath errorMessage : String),
        (checkSakuraItem createError interface
            (.forEachBranching tempVarName iterateArray content) filePath
            errorMessage).1 =
          (checkSakuraItem createError interface content filePath
            errorMessage).1) ∧
      (∀ (tempVarName : String) (start stop : V) (content : SakuraItem V)
          (filePath errorMessage : String),
        (checkSakuraItem createError interface
            (.forBranching tempVarName start stop content) filePath
            errorMessage).1 =
          (checkSakuraItem createError interface content filePath
            errorMessage).1) ∧
      ∀ (childs : SakuraItem V) (filePath errorMessage : String),
        (checkSakuraItem createError interface (.parallel childs) filePath
            errorMessage).1 =
          (checkSakuraItem createError interface childs filePath
            errorMessage).1 := by
  refine ⟨?_, ?_, ?_, ?_, ?_⟩
  · intro item filePath errorMessage known acceptable
    exact checkSakuraItem_of_acceptable createError interface item filePath
      errorMessage known acceptable
  · intro condition ifContent elseContent filePath errorMessage
    simp only [checkSakuraItem]
    cases hFirst :
        (checkSakuraItem createError interface ifContent filePath
          errorMessage).1 with
    | false => simp
    | true =>
      cases hSecond :
          (checkSakuraItem createError interface elseContent filePath
            (checkSakuraItem createError interface ifContent filePath
              errorMessage).2.2).1 with
      | false => simp [hSecond]
      | true => simp [hSecond]
  · intro tempVarName iterateArray content filePath errorMessage
    simp only [checkSakuraItem]
  · intro tempVarName start stop content filePath errorMessage
    simp only [checkSakuraItem]
  · intro childs filePath errorMessage
    simp only [checkSakuraItem]

theorem C20_validator_accepts_acceptable_items_witness :
    (checkSakuraItem sampleCreateError fooBarInterface sampleTree "" "x").1
      = true :=
  (C20_validator_accepts_acceptable_items sampleCreateError
    fooBarInterface).1 sampleTree "" "x" rfl
    (by
      intro blossomItem hMem
      refine Or.inr ⟨acceptAll, ?_, fun _ => rfl⟩
      simp only [sampleTree, fooGroup, blossomsAsValidated,
        blossomsAsValidatedOfTree, blossomsAsValidatedOfChilds, List.map,
        List.append_nil, List.nil_append, List.mem_append, List.mem_cons,
        List.mem_singleton, List.not_mem_nil, or_false, false_or] at hMem
      rcases hMem with (hMem | hMem) | hMem <;> subst hMem <;> rfl)

/-! ## Host entry point -/

theorem foldl_failedInput (items : List String) :
    ∀ message : String,
      items.foldl (fun message item => message ++ ("    " ++ item ++ "\n"))
          message = message ++ indentedLines items := by
  induction items with
  | nil =>
    intro message
    simp only [List.foldl_nil, indentedLines, String.append_empty]
  | cons item rest ih =>
    intro message
    rw [List.foldl_cons, ih]
    simp only [indentedLines, String.append_assoc]

/-- C11: when the root tree was loaded and checkInput(tree values,
initialValues) returns a non-empty list, processFiles returns false with the
header line followed by every returned key on its own line, indented by four
spaces, in the order of the list; the interface is the one addTree left and
the state of execution is untouched, whatever the validator's createError and
the subtree queue would do. -/
theorem C11_unknown_input_keys_abort {D W : Type} (env : Collaborators V D W)
    (createError : BlossomItem V → String → String → String)
    (spawnParallelSubtrees :
      W → SakuraLangInterface V → List (SakuraItem V) → String → List String →
        StdMap D → String → Bool × W × String)
    (world : W) (interface : SakuraLangInterface V) (inputPath : String)
    (initialValues : StdMap D) (dryRun : Bool) (errorMessage : String)
    (tree : TreeItem V)
    (pathExists :
      env.is_regular_file inputPath = true ∨ env.is_directory inputPath = true)
    (added :
      (env.addTree interface.m_garden (rootTreeFile env inputPath)
        errorMessage).1 = true)
    (found :
      env.getTree
          (env.addTree interface.m_garden (rootTreeFile env inputPath)
            errorMessage).2.1
          (env.relative (rootTreeFile env inputPath)
            (env.parent_path (rootTreeFile env inputPath)))
          (env.parent_path (rootTreeFile env inputPath)) = some tree)
    (failed : checkInput tree.values initialValues ≠ []) :
    processFiles
        { env with
            createError := createError
            spawnParallelSubtrees := spawnParallelSubtrees }
        world interface inputPath initialValues dryRun errorMessage =
      (false,
        { interface with
            m_garden :=
              (env.addTree interface.m_garden (rootTreeFile env inputPath)
                errorMessage).2.1 },
        world,
        failedInputHeader
          ++ indentedLines (checkInput tree.values initialValues)) := by
  have hPath :
      ¬ (env.is_regular_file inputPath = false
          ∧ env.is_directory inputPath = false) := by
    intro h
    rcases pathExists with h1 | h1
    · rw [h.1] at h1; cases h1
    · rw [h.2] at h1; cases h1
  have hLength : (checkInput tree.values initialValues).length > 0 :=
    List.length_pos.mpr failed
  simp only [processFiles, rootTreeFile] at *
  simp only [hPath, if_false, added, Bool.true_eq_false, found, hLength,
    if_true, foldl_failedInput]

theorem C11_unknown_input_keys_abort_witness :
    processFiles sampleCollaborators 0 emptyInterface "/r" [("y", 3)] false ""
      = (false,
          { emptyInterface with
              m_garden :=
                { emptyGarden with
                    trees := [("root.sakura", declaringTree)] } },
          0,
          "Following input-values are not valid for the initial tress:\n"
            ++ "    y\n") :=
  C11_unknown_input_keys_abort sampleCollaborators sampleCreateError
    sampleCollaborators.spawnParallelSubtrees 0 emptyInterface "/r"
    [("y", 3)] false "" declaringTree (Or.inr rfl) rfl rfl (by decide)

/-- C12: with dryRun = true the result of processFiles does not depend on the
subtree queue and the state of execution is left untouched, and processFiles
returns true exactly when the path check, addTree, the lookup of the root
tree, checkInput and the validator all succeed. -/
theorem C12_dry_run_executes_nothing {D W : Type} (env : Collaborators V D W)
    (world : W) (interface : SakuraLangInterface V) (inputPath : String)
    (initialValues : StdMap D) (errorMessage : String) :
    (∀ spawnParallelSubtrees :
        W → SakuraLangInterface V → List (SakuraItem V) → String →
          List String → StdMap D → String → Bool × W × String,
      processFiles
          { env with spawnParallelSubtrees := spawnParallelSubtrees } world
          interface inputPath initialValues true errorMessage =
        processFiles env world interface inputPath initialValues true
          errorMessage) ∧
      (processFiles env world interface inputPath initialValues true
        errorMessage).2.2.1 = world ∧
      ((processFiles env world interface inputPath initialValues true
          errorMessage).1 = true ↔
        (env.is_regular_file inputPath = true
            ∨ env.is_directory inputPath = true) ∧
          (env.addTree interface.m_garden (rootTreeFile env inputPath)
            errorMessage).1 = true ∧
          ∃ tree : TreeItem V,
            env.getTree
                (env.addTree interface.m_garden (rootTreeFile env inputPath)
                  errorMessage).2.1
                (env.relative (rootTreeFile env inputPath)
                  (env.parent_path (rootTreeFile env inputPath)))
                (env.parent_path (rootTreeFile env inputPath)) = some tree ∧
              checkInput tree.values initialValues = [] ∧
              (checkAllItems env.createError
                { interface with
                    m_garden :=
                      (env.addTree interface.m_garden
                        (rootTreeFile env inputPath) errorMessage).2.1 }
                (env.addTree interface.m_garden (rootTreeFile env inputPath)
                  errorMessage).2.1
                (env.addTree interface.m_garden (rootTreeFile env inputPath)
                  errorMessage).2.2).1 = true) := by
  refine ⟨?_, ?_, ?_⟩
  · intro spawnParallelSubtrees
    simp only [processFiles, rootTreeFile, if_true]
  · simp only [processFiles, if_true]
    split
    · rfl
    · split
      · rfl
      · split
        · rfl
        · split
          · rfl
          · split <;> rfl
  · simp only [processFiles, if_true]
    by_cases hPath :
        env.is_regular_file inputPath = false
          ∧ env.is_directory inputPath = false
    · simp only [hPath, and_self, if_true, Bool.false_eq_true, or_self,
        false_and]
    · have hExists :
          env.is_regular_file inputPath = true
            ∨ env.is_directory inputPath = true := by
        cases h1 : env.is_regular_file inputPath with
        | true => exact Or.inl rfl
        | false =>
          cases h2 : env.is_directory inputPath with
          | true => exact Or.inr rfl
          | false => exact absurd ⟨h1, h2⟩ hPath
      simp only [if_neg hPath, hExists, true_and]
      cases hAdded :
          (env.addTree interface.m_garden (rootTreeFile env inputPath)
            errorMessage).1 with
      | false => simp
      | true =>
        simp only [Bool.true_eq_false, if_false, true_and]
        cases hFound :
            env.getTree
              (env.addTree interface.m_garden (rootTreeFile env inputPath)
                errorMessage).2.1
              (env.relative (rootTreeFile env inputPath)
                (env.parent_path (rootTreeFile env inputPath)))
              (env.parent_path (rootTreeFile env inputPath)) with
        | none => simp
        | some tree =>
          simp only [Option.some.injEq, exists_eq_left']
          cases hFailed : checkInput tree.values initialValues with
          | cons key rest => simp
          | nil =>
            simp only [List.length_nil, gt_iff_lt, Nat.lt_irrefl, if_false,
              true_and]
            cases hChecked :
                (checkAllItems env.createError
                  { interface with
                      m_garden :=
                        (env.addTree interface.m_garden
                          (rootTreeFile env inputPath) errorMessage).2.1 }
                  (env.addTree interface.m_garden
                    (rootTreeFile env inputPath) errorMessage).2.1
                  (env.addTree interface.m_garden
                    (rootTreeFile env inputPath) errorMessage).2.2).1 with
            | false => simp
            | true => simp

/-! ## Parse errors -/

/-- C13 (code defect): for the token bc at columns 2 to 4 of the one-line
input abc, whose span ends exactly at the end of the line (2 - 1 + 2 = 3, the
length of the line, and substr(1, 2) is bc), error() reports the note
"UNKNOWN POSITION (maybe a string was not closed)" and no broken part. -/
theorem C13_span_ending_at_line_end_is_unknown :
    error oneLine "abc" freshErrorTable lastTokenLocation "syntax error" false =
        .ok
          { columns := ["key", "value"],
            rows :=
              [["ERROR", " "],
                ["component", "libKitsunemimiSakuraParser"],
                ["source", "while parsing sakura-file"],
                ["message", "syntax error"],
                ["line-number", "1"],
                ["position in line",
                  "UNKNOWN POSITION (maybe a string was not closed)"]] } ∧
      lastTokenLocation.begin_.column - 1
          + (lastTokenLocation.end_.column - lastTokenLocation.begin_.column)
        ≤ "abc".length ∧
      substr "abc" (lastTokenLocation.begin_.column - 1)
          (lastTokenLocation.end_.column - lastTokenLocation.begin_.column) =
        .ok "bc" := by
  refine ⟨rfl, by decide, rfl⟩

/-! ## Error tables of the parsing object -/

theorem TableItem.addRow_columns (table : TableItem) (row : List String) :
    (table.addRow row).columns = table.columns := by
  unfold TableItem.addRow
  split <;> rfl

theorem TableItem.addRow_rows (table : TableItem) (key : String)
    (value : String) (hCols : table.columns = ["key", "value"]) :
    (table.addRow [key, value]).rows = table.rows ++ [[key, value]] := by
  simp [TableItem.addRow, hCols]

theorem TableItem.hasRowFor_of_mem (table : TableItem) (key : String)
    (value : String) (hMem : [key, value] ∈ table.rows) :
    table.hasRowFor key :=
  ⟨[key, value], hMem, rfl⟩

theorem error_reports
    (splitStringByDelimiter : String → Char → List String)
    (m_inputString : String) (table : TableItem) (location : Location)
    (message : String) (customError : Bool) (reported : TableItem)
    (hCols : table.columns = ["key", "value"])
    (hOk :
      error splitStringByDelimiter m_inputString table location message
        customError = .ok reported) :
    reported.columns = ["key", "value"] ∧
      (∀ row ∈ table.rows, row ∈ reported.rows) ∧
      ["component", "libKitsunemimiSakuraParser"] ∈ reported.rows ∧
      ["source", "while parsing sakura-file"] ∈ reported.rows ∧
      ["message", message] ∈ reported.rows := by
  unfold error at hOk
  simp only at hOk
  split at hOk
  · split at hOk
    · cases hOk
    · split at hOk
      · split at hOk
        · cases hOk
        · injection hOk with hEq
          subst hEq
          simp [TableItem.addRow, hCols]
          exact fun _ h => Or.inl h
      · injection hOk with hEq
        subst hEq
        simp [TableItem.addRow, hCols]
        exact fun _ h => Or.inl h
  · injection hOk with hEq
    subst hEq
    simp [TableItem.addRow, hCols]
    exact fun _ h => Or.inl h

theorem reportErrors_reports
    (splitStringByDelimiter : String → Char → List String)
    (m_inputString : String) :
    ∀ (errors : List (Location × String × Bool)) (table reported : TableItem),
      table.columns = ["key", "value"] →
      reportErrors splitStringByDelimiter m_inputString table errors
        = .ok reported →
      reported.columns = ["key", "value"] ∧
        (∀ row ∈ table.rows, row ∈ reported.rows) ∧
        (errors ≠ [] →
          reported.hasRowFor "component" ∧ reported.hasRowFor "source" ∧
            reported.hasRowFor "message")
  | [], table, reported, hCols, hOk => by
    simp only [reportErrors] at hOk
    injection hOk with hEq
    subst hEq
    exact ⟨hCols, fun _ h => h, fun h => absurd rfl h⟩
  | call :: rest, table, reported, hCols, hOk => by
    simp only [reportErrors] at hOk
    split at hOk
    · cases hOk
    · rename_i first hFirst
      obtain ⟨hCols1, hKeep1, hComponent, hSource, hMessage⟩ :=
        error_reports splitStringByDelimiter m_inputString table call.1
          call.2.1 call.2.2 first hCols hFirst
      obtain ⟨hCols2, hKeep2, _⟩ :=
        reportErrors_reports splitStringByDelimiter m_inputString rest first
          reported hCols1 hOk
      refine ⟨hCols2, fun row h => hKeep2 row (hKeep1 row h), fun _ => ?_⟩
      exact ⟨TableItem.hasRowFor_of_mem _ _ _ (hKeep2 _ hComponent),
        TableItem.hasRowFor_of_mem _ _ _ (hKeep2 _ hSource),
        TableItem.hasRowFor_of_mem _ _ _ (hKeep2 _ hMessage)⟩

theorem parse_rejected_reports {J : Type}
    (splitStringByDelimiter : String → Char → List String)
    (parser : String → ParserRun J) (m_errorMessage : TableItem)
    (inputString : String) (reported : TableItem) (output : J)
    (reports :
      ∀ input : String, (parser input).res ≠ 0 → (parser input).errors ≠ [])
    (hOk :
      parse splitStringByDelimiter parser m_errorMessage inputString =
        .ok (false, reported, output)) :
    reported.columns = ["key", "value"] ∧ reported.hasRowFor "component" ∧
      reported.hasRowFor "source" ∧ reported.hasRowFor "message" := by
  unfold parse at hOk
  simp only at hOk
  split at hOk
  · cases hOk
  · rename_i table hTable
    have hInit :
        (((m_errorMessage.clearTable.addColumn "key").addColumn "value").addRow
          ["ERROR", " "]).columns = ["key", "value"] := by
      simp [TableItem.addRow, TableItem.addColumn, TableItem.clearTable]
    obtain ⟨hCols, _, hKeys⟩ :=
      reportErrors_reports splitStringByDelimiter inputString _ _ _ hInit
        hTable
    by_cases hRes : (parser inputString).res ≠ 0
    · simp only [hRes, ne_eq, not_false_eq_true, if_true] at hOk
      injection hOk with hEq
      injection hEq with _ hEq
      injection hEq with hEq _
      subst hEq
      exact ⟨hCols, hKeys (reports inputString hRes)⟩
    · simp only [hRes, if_false] at hOk
      injection hOk with hEq
      injection hEq with hEq _
      cases hEq

theorem parseFileContents_rejected_reports {J : Type}
    (env : ParsingCollaborators J)
    (reports :
      ∀ input : String,
        (env.parser input).res ≠ 0 → (env.parser input).errors ≠ []) :
    ∀ (todo done : List (String × J)) (m_errorMessage parserTable : TableItem)
        (after : SakuraParsing J),
      m_errorMessage.columns = ["key", "value"] →
      ["component", "libKitsunemimiSakuraParser"] ∈ m_errorMessage.rows →
      parseFileContents env done todo m_errorMessage parserTable
        = .ok (false, after) →
      after.m_errorMessage.columns = ["key", "value"] ∧
        after.m_errorMessage.hasRowFor "component" ∧
        after.m_errorMessage.hasRowFor "source" ∧
        after.m_errorMessage.hasRowFor "message"
  | [], done, m_errorMessage, parserTable, after, _, _, hOk => by
    simp only [parseFileContents] at hOk
    injection hOk with hEq
    injection hEq with hEq _
    cases hEq
  | (filePath, content) :: rest, done, m_errorMessage, parserTable, after,
      hCols, hComponent, hOk => by
    simp only [parseFileContents] at hOk
    split at hOk
    · injection hOk with hEq
      injection hEq with _ hEq
      subst hEq
      refine ⟨by simp [TableItem.addRow, hCols], ?_, ?_, ?_⟩
      · exact TableItem.hasRowFor_of_mem _ _ "libKitsunemimiSakuraParser"
          (by simp [TableItem.addRow, hCols, hComponent])
      · exact TableItem.hasRowFor_of_mem _ _ "while reading sakura-files"
          (by simp [TableItem.addRow, hCols])
      · exact TableItem.hasRowFor_of_mem _ _
          ("failed to read file-path: " ++ filePath ++ " with error: "
            ++ (env.readFile filePath "").2)
          (by simp [TableItem.addRow, hCols])
    · split at hOk
      · cases hOk
      · rename_i parsed hParsed
        split at hOk
        · rename_i hRejected
          injection hOk with hEq
          injection hEq with _ hEq
          subst hEq
          have hShape : parsed = (false, parsed.2.1, parsed.2.2) := by
            rw [← hRejected]
          rw [hShape] at hParsed
          exact parse_rejected_reports env.splitStringByDelimiter env.parser
            parserTable _ _ _ reports hParsed
        · exact parseFileContents_rejected_reports env reports rest _
            m_errorMessage _ after hCols hComponent hOk

/-- C14: when parseFiles returns false and every rejecting run of the parser
has called error(), the table that getError returns has the two columns key
and value and a row for each of the keys component, source and message. -/
theorem C14_failed_parseFiles_reports_key_rows {J : Type}
    (env : ParsingCollaborators J) (self : SakuraParsing J)
    (rootPath : String) (after : SakuraParsing J)
    (reports :
      ∀ input : String,
        (env.parser input).res ≠ 0 → (env.parser input).errors ≠ [])
    (failed : parseFiles env self rootPath = .ok (false, after)) :
    (getError after).columns = ["key", "value"] ∧
      (getError after).hasRowFor "component" ∧
      (getError after).hasRowFor "source" ∧
      (getError after).hasRowFor "message" := by
  have hCols :
      ((((self.m_errorMessage.clearTable.addColumn "key").addColumn
          "value").addRow ["ERROR", " "]).addRow
          ["component", "libKitsunemimiSakuraParser"]).columns
        = ["key", "value"] := by
    simp [TableItem.addRow, TableItem.addColumn, TableItem.clearTable]
  have hComponent :
      ["component", "libKitsunemimiSakuraParser"] ∈
        ((((self.m_errorMessage.clearTable.addColumn "key").addColumn
          "value").addRow ["ERROR", " "]).addRow
          ["component", "libKitsunemimiSakuraParser"]).rows := by
    simp [TableItem.addRow, TableItem.addColumn, TableItem.clearTable]
  unfold parseFiles parseAllFiles at failed
  simp only at failed
  unfold getError
  split at failed
  · injection failed with hEq
    injection hEq with _ hEq
    subst hEq
    refine ⟨by simp [TableItem.addRow, TableItem.addColumn,
      TableItem.clearTable], ?_, ?_, ?_⟩
    · exact TableItem.hasRowFor_of_mem _ _ "libKitsunemimiSakuraParser"
        (by simp [TableItem.addRow, TableItem.addColumn, TableItem.clearTable])
    · exact TableItem.hasRowFor_of_mem _ _ "while reading sakura-files"
        (by simp [TableItem.addRow, TableItem.addColumn, TableItem.clearTable])
    · exact TableItem.hasRowFor_of_mem _ _ ("path doesn't exist: " ++ rootPath)
        (by simp [TableItem.addRow, TableItem.addColumn, TableItem.clearTable])
  · split at failed
    · split at failed
      · injection failed with hEq
        injection hEq with _ hEq
        subst hEq
        refine ⟨by simp [TableItem.addRow, TableItem.addColumn,
          TableItem.clearTable], ?_, ?_, ?_⟩
        · exact TableItem.hasRowFor_of_mem _ _ "libKitsunemimiSakuraParser"
            (by simp [TableItem.addRow, TableItem.addColumn,
              TableItem.clearTable])
        · exact TableItem.hasRowFor_of_mem _ _ "while reading sakura-files"
            (by simp [TableItem.addRow, TableItem.addColumn,
              TableItem.clearTable])
        · exact TableItem.hasRowFor_of_mem _ _
            ("no files found in the directory: " ++ rootPath)
            (by simp [TableItem.addRow, TableItem.addColumn,
              TableItem.clearTable])
      · exact parseFileContents_rejected_reports env reports _ _ _ _ after
          hCols hComponent failed
    · exact parseFileContents_rejected_reports env reports _ _ _ _ after
        hCols hComponent failed

theorem C14_failed_parseFiles_reports_key_rows_witness :
    (sampleFileSystem.parser "abcd").res ≠ 0 ∧
    (∃ after : SakuraParsing String,
      parseFiles sampleFileSystem freshParsing "/nowhere"
          = .ok (false, after) ∧
        (getError after).rows =
          [["ERROR", " "], ["component", "libKitsunemimiSakuraParser"],
            ["source", "while reading sakura-files"],
            ["message", "path doesn't exist: /nowhere"]] ∧
        ((getError after).columns = ["key", "value"] ∧
          (getError after).hasRowFor "component" ∧
          (getError after).hasRowFor "source" ∧
          (getError after).hasRowFor "message")) ∧
      (∃ after : SakuraParsing String,
        parseFiles sampleFileSystem freshParsing "/empty"
            = .ok (false, after) ∧
          (getError after).rows =
            [["ERROR", " "], ["component", "libKitsunemimiSakuraParser"],
              ["source", "while reading sakura-files"],
              ["message", "no files found in the directory: /empty"]] ∧
          ((getError after).columns = ["key", "value"] ∧
            (getError after).hasRowFor "component" ∧
            (getError after).hasRowFor "source" ∧
            (getError after).hasRowFor "message")) ∧
      (∃ after : SakuraParsing String,
        parseFiles sampleFileSystem freshParsing "/r/locked.sakura"
            = .ok (false, after) ∧
          after.m_fileContents = [("/r/locked.sakura", "")] ∧
          (getError after).rows =
            [["ERROR", " "], ["component", "libKitsunemimiSakuraParser"],
              ["source", "while reading sakura-files"],
              ["message",
                "failed to read file-path: /r/locked.sakura with error: "
                  ++ "permission denied"]] ∧
          ((getError after).columns = ["key", "value"] ∧
            (getError after).hasRowFor "component" ∧
            (getError after).hasRowFor "source" ∧
            (getError after).hasRowFor "message")) ∧
      ∃ after : SakuraParsing String,
        parseFiles sampleFileSystem freshParsing "/r" = .ok (false, after) ∧
          after.m_fileContents =
            [("/r/root.sakura", "fine@/r/root.sakura"), ("/r/files", ""),
              ("/r/sub/a.sakura", "")] ∧
          (getError after).rows =
            [["ERROR", " "], ["component", "libKitsunemimiSakuraParser"],
              ["source", "while parsing sakura-file"],
              ["message", "syntax error"], ["line-number", "1"],
              ["position in line", "2"],
              ["broken part in string", "\"bc\""]] ∧
          ((getError after).columns = ["key", "value"] ∧
            (getError after).hasRowFor "component" ∧
            (getError after).hasRowFor "source" ∧
            (getError after).hasRowFor "message") := by
  have hRejects : (sampleFileSystem.parser "abcd").res ≠ 0 := by decide
  have hReports :
      ∀ input : String,
        (sampleFileSystem.parser input).res ≠ 0 →
          (sampleFileSystem.parser input).errors ≠ [] := by
    intro input hRes
    by_cases hInput : input = "abcd"
    · simp [sampleFileSystem, hInput]
    · simp [sampleFileSystem, hInput] at hRes
  exact
    ⟨hRejects,
      ⟨_, rfl, rfl,
        C14_failed_parseFiles_reports_key_rows sampleFileSystem freshParsing
          "/nowhere" _ hReports rfl⟩,
      ⟨_, rfl, rfl,
        C14_failed_parseFiles_reports_key_rows sampleFileSystem freshParsing
          "/empty" _ hReports rfl⟩,
      ⟨_, rfl, rfl, rfl,
        C14_failed_parseFiles_reports_key_rows sampleFileSystem freshParsing
          "/r/locked.sakura" _ hReports rfl⟩,
      ⟨_, rfl, rfl, rfl,
        C14_failed_parseFiles_reports_key_rows sampleFileSystem freshParsing
          "/r" _ hReports rfl⟩⟩

/-! ## Instances on concrete data -/

theorem C12_dry_run_executes_nothing_witness :
    (processFiles sampleCollaborators 0 fooBarInterface "/r" [("x", 5)] true
        "").1 = true ∧
      (processFiles sampleCollaborators 0 fooBarInterface "/r" [("x", 5)] true
        "").2.2.1 = 0 :=
  ⟨(C12_dry_run_executes_nothing sampleCollaborators 0 fooBarInterface "/r"
      [("x", 5)] "").2.2.mpr
      ⟨Or.inr rfl, rfl, declaringTree, rfl, rfl, rfl⟩,
    (C12_dry_run_executes_nothing sampleCollaborators 0 fooBarInterface "/r"
      [("x", 5)] "").2.1⟩

theorem C16_getFilesInDir_collects_reachable_files_witness :
    getFilesInDir "" sampleDirectory [] =
        [("/r/root.sakura", ""), ("/r/files", ""), ("/r/sub/a.sakura", "")] ∧
      ∃ added : List (String × String),
        getFilesInDir "" sampleDirectory [] = [] ++ added ∧
          (∀ item ∈ added, item.2 = "") ∧
          ∀ path : String,
            path ∈ added.map Prod.fst ↔ ReachableFile path sampleDirectory :=
  ⟨rfl, C16_getFilesInDir_collects_reachable_files "" sampleDirectory []⟩

theorem C17_getParsedFileContent_finds_first_match_witness :
    getParsedFileContent id "" sampleFileContents "" = "root" ∧
      getParsedFileContent id "" sampleFileContents "a" = "a" ∧
      getParsedFileContent id "" sampleFileContents "b" = "" :=
  ⟨(C17_getParsedFileContent_finds_first_match id "" sampleFileContents
      "").trans rfl,
    (C17_getParsedFileContent_finds_first_match id "" sampleFileContents
      "a").trans rfl,
    (C17_getParsedFileContent_finds_first_match id "" sampleFileContents
      "b").trans rfl⟩

/-! ## Registry: frame and lookup agreement -/

theorem getBlossom_eq_registryEntry (interface : SakuraLangInterface V)
    (groupName : String) (itemName : String) :
    getBlossom interface groupName itemName =
      (registryEntry interface groupName itemName).join := by
  unfold getBlossom registryEntry
  cases hGroup : StdMap.find interface.m_registeredBlossoms groupName with
  | none => rfl
  | some group =>
    cases hItem : StdMap.find group itemName with
    | none => simp [hItem]
    | some blossom => simp [hItem]

theorem doesBlossomExist_eq_registryEntry (interface : SakuraLangInterface V)
    (groupName : String) (itemName : String) :
    doesBlossomExist interface groupName itemName =
      (registryEntry interface groupName itemName).isSome := by
  unfold doesBlossomExist registryEntry
  cases hGroup : StdMap.find interface.m_registeredBlossoms groupName with
  | none => rfl
  | some group =>
    cases hItem : StdMap.find group itemName with
    | none => simp [hItem]
    | some blossom => simp [hItem]

theorem registryEntry_addBlossom_other (interface : SakuraLangInterface V)
    (groupName : String) (itemName : String)
    (newBlossom : Option (Blossom V)) (otherGroup : String)
    (otherName : String)
    (different : (otherGroup, otherName) ≠ (groupName, itemName)) :
    registryEntry (addBlossom interface groupName itemName newBlossom).2
        otherGroup otherName =
      registryEntry interface otherGroup otherName := by
  cases hExists : doesBlossomExist interface groupName itemName with
  | true => simp only [addBlossom, hExists, if_true]
  | false =>
    simp only [addBlossom, hExists, Bool.false_eq_true, if_false,
      registryEntry]
    by_cases hGroupEq : groupName = otherGroup
    · subst hGroupEq
      have hName : itemName ≠ otherName := by
        intro hEq
        exact different (by rw [hEq])
      rw [StdMap.find_modify_self]
      cases hGroup :
          StdMap.find interface.m_registeredBlossoms groupName with
      | none =>
        simp only [StdMap.find_insert_self _ _ _ hGroup, Option.map_some',
          Option.some_bind, Option.none_bind,
          StdMap.find_insert_other _ _ _ _ hName]
        rfl
      | some group =>
        simp only [hGroup, Option.map_some', Option.some_bind,
          StdMap.find_insert_other _ _ _ _ hName]
    · rw [StdMap.find_modify_other _ _ _ _ hGroupEq]
      cases hGroup :
          StdMap.find interface.m_registeredBlossoms groupName with
      | none => simp only [StdMap.find_insert_other _ _ _ _ hGroupEq]
      | some group => rfl

theorem registryEntry_addBlossom_self (interface : SakuraLangInterface V)
    (groupName : String) (itemName : String)
    (newBlossom : Option (Blossom V))
    (fresh : doesBlossomExist interface groupName itemName = false) :
    registryEntry (addBlossom interface groupName itemName newBlossom).2
        groupName itemName = some newBlossom := by
  simp only [addBlossom, fresh, Bool.false_eq_true, if_false, registryEntry]
  rw [StdMap.find_modify_self]
  cases hGroup : StdMap.find interface.m_registeredBlossoms groupName with
  | none =>
    have hEmpty :
        StdMap.find ([] : StdMap (Option (Blossom V))) itemName = none := rfl
    simp only [StdMap.find_insert_self _ _ _ hGroup, Option.map_some',
      Option.some_bind, StdMap.find_insert_self _ _ _ hEmpty]
  | some group =>
    have hItem : StdMap.find group itemName = none := by
      cases hFind : StdMap.find group itemName with
      | none => rfl
      | some old => simp [doesBlossomExist, hGroup, hFind] at fresh
    simp only [hGroup, Option.map_some', Option.some_bind,
      StdMap.find_insert_self _ _ _ hItem]

/-- C23: for every registry state, every addBlossom(group, name, h) call and
every key (g2, n2) other than (group, name), getBlossom(g2, n2) and
doesBlossomExist(g2, n2) return after the call what they returned before
it. -/
theorem C23_addBlossom_leaves_other_keys (interface : SakuraLangInterface V)
    (groupName : String) (itemName : String)
    (newBlossom : Option (Blossom V)) (otherGroup : String)
    (otherName : String)
    (different : (otherGroup, otherName) ≠ (groupName, itemName)) :
    getBlossom (addBlossom interface groupName itemName newBlossom).2
          otherGroup otherName =
        getBlossom interface otherGroup otherName ∧
      doesBlossomExist (addBlossom interface groupName itemName newBlossom).2
          otherGroup otherName =
        doesBlossomExist interface otherGroup otherName := by
  rw [getBlossom_eq_registryEntry, getBlossom_eq_registryEntry,
    doesBlossomExist_eq_registryEntry, doesBlossomExist_eq_registryEntry,
    registryEntry_addBlossom_other interface groupName itemName newBlossom
      otherGroup otherName different]
  exact ⟨rfl, rfl⟩

theorem C23_addBlossom_leaves_other_keys_witness :
    (("foo", "bar") : String × String) ≠ ("foo", "baz") ∧
      getBlossom
          (addBlossom fooBarInterface "foo" "baz" (some rejectLoudly)).2
          "foo" "bar" = some acceptAll ∧
      doesBlossomExist
          (addBlossom fooBarInterface "foo" "baz" (some rejectLoudly)).2
          "other" "baz" = false := by
  have hSame :=
    C23_addBlossom_leaves_other_keys fooBarInterface "foo" "baz"
      (some rejectLoudly) "foo" "bar" (by decide)
  have hOther :=
    C23_addBlossom_leaves_other_keys fooBarInterface "foo" "baz"
      (some rejectLoudly) "other" "baz" (by decide)
  exact ⟨by decide, hSame.1.trans rfl, hOther.2.trans rfl⟩

/-- C24 as stated fails: addBlossom stores the pointer it is passed, also the
null pointer; after addBlossom("foo", "bar", nullptr) on the empty registry,
doesBlossomExist("foo", "bar") is true and getBlossom("foo", "bar") returns
the null pointer. -/
theorem C24_null_handler_exists_without_being_returned :
    (addBlossom emptyInterface "foo" "bar" none).1 = true ∧
      doesBlossomExist (addBlossom emptyInterface "foo" "bar" none).2 "foo"
          "bar" = true ∧
      getBlossom (addBlossom emptyInterface "foo" "bar" none).2 "foo" "bar"
        = none :=
  ⟨rfl, rfl, rfl⟩

theorem registryEntry_of_reachable (interface : SakuraLangInterface V)
    (reachable : ReachableRegistry interface) :
    ∀ (groupName itemName : String),
      registryEntry interface groupName itemName ≠ some none := by
  induction reachable with
  | empty garden =>
    intro groupName itemName hEq
    simp [registryEntry, StdMap.find] at hEq
  | added interface addedGroup addedName handler _ ih =>
    intro groupName itemName
    by_cases hKey : (groupName, itemName) = (addedGroup, addedName)
    · injection hKey with hGroup hName
      subst hGroup
      subst hName
      cases hExists : doesBlossomExist interface groupName itemName with
      | true =>
        have hSame :
            (addBlossom interface groupName itemName (some handler)).2
              = interface := by
          simp [addBlossom, hExists]
        rw [hSame]
        exact ih groupName itemName
      | false =>
        rw [registryEntry_addBlossom_self interface groupName itemName
          (some handler) hExists]
        intro hEq
        injection hEq with hEq
        cases hEq
    · rw [registryEntry_addBlossom_other interface addedGroup addedName
        (some handler) groupName itemName hKey]
      exact ih groupName itemName

/-- C24 (amended): for every registry state reached from the empty registry by
addBlossom calls that pass a handler (not the null pointer) and for every
(group, name), doesBlossomExist(group, name) returns true exactly when
getBlossom(group, name) returns a handler. -/
theorem C24_lookups_agree_on_reachable_registries
    (interface : SakuraLangInterface V)
    (reachable : ReachableRegistry interface) (groupName : String)
    (itemName : String) :
    doesBlossomExist interface groupName itemName = true ↔
      ∃ handler : Blossom V,
        getBlossom interface groupName itemName = some handler := by
  have hEntry := registryEntry_of_reachable interface reachable groupName
    itemName
  rw [doesBlossomExist_eq_registryEntry, getBlossom_eq_registryEntry]
  cases hFind : registryEntry interface groupName itemName with
  | none => simp
  | some pointer =>
    cases pointer with
    | none => exact absurd hFind hEntry
    | some handler => simp

theorem C24_lookups_agree_on_reachable_registries_witness :
    ReachableRegistry
        (addBlossom emptyInterface "foo" "bar" (some acceptAll)).2 ∧
      (doesBlossomExist
          (addBlossom emptyInterface "foo" "bar" (some acceptAll)).2 "foo"
          "bar" = true ↔
        ∃ handler : Blossom Nat,
          getBlossom
            (addBlossom emptyInterface "foo" "bar" (some acceptAll)).2 "foo"
            "bar" = some handler) :=
  ⟨.added emptyInterface "foo" "bar" acceptAll (.empty emptyGarden),
    C24_lookups_agree_on_reachable_registries _
      (.added emptyInterface "foo" "bar" acceptAll (.empty emptyGarden))
      "foo" "bar"⟩

/-! ## Resource bodies are not validated -/

theorem checkBlossomItem_same_resource_keys
    (createError : BlossomItem V → String → String → String)
    (first second : SakuraLangInterface V)
    (sameRegistry :
      first.m_registeredBlossoms = second.m_registeredBlossoms)
    (sameKeys :
      ∀ key : String,
        (StdMap.find first.m_garden.resources key).isSome =
          (StdMap.find second.m_garden.resources key).isSome)
    (blossomItem : BlossomItem V) (errorMessage : String) :
    checkBlossomItem createError first blossomItem errorMessage =
      checkBlossomItem createError second blossomItem errorMessage := by
  have hKey := sameKeys blossomItem.blossomType
  have hGet :
      getBlossom first blossomItem.blossomGroupType blossomItem.blossomType =
        getBlossom second blossomItem.blossomGroupType
          blossomItem.blossomType := by
    simp only [getBlossom, sameRegistry]
  unfold checkBlossomItem getRessource
  rw [hGet]
  cases hFirst : StdMap.find first.m_garden.resources blossomItem.blossomType with
  | none =>
    cases hSecond :
        StdMap.find second.m_garden.resources blossomItem.blossomType with
    | none => rfl
    | some treeItem => simp [hFirst, hSecond] at hKey
  | some treeItem =>
    cases hSecond :
        StdMap.find second.m_garden.resources blossomItem.blossomType with
    | none => simp [hFirst, hSecond] at hKey
    | some other => rfl

theorem checkBlossomGroupChilds_same_resource_keys
    (createError : BlossomItem V → String → String → String)
    (first second : SakuraLangInterface V)
    (sameRegistry :
      first.m_registeredBlossoms = second.m_registeredBlossoms)
    (sameKeys :
      ∀ key : String,
        (StdMap.find first.m_garden.resources key).isSome =
          (StdMap.find second.m_garden.resources key).isSome)
    (blossomGroupType : String) (id : String) (values : StdMap V) :
    ∀ (blossoms : List (BlossomItem V)) (filePath errorMessage : String),
      checkBlossomGroupChilds createError first blossomGroupType id values
          blossoms filePath errorMessage =
        checkBlossomGroupChilds createError second blossomGroupType id values
          blossoms filePath errorMessage
  | [], _, _ => rfl
  | blossomItem :: rest, filePath, errorMessage => by
    simp only [checkBlossomGroupChilds, checkBlossomBranch,
      checkBlossomItem_same_resource_keys createError first second
        sameRegistry sameKeys,
      checkBlossomGroupChilds_same_resource_keys createError first second
        sameRegistry sameKeys blossomGroupType id values rest]

mutual

theorem checkSakuraItem_same_resource_keys
    (createError : BlossomItem V → String → String → String)
    (first second : SakuraLangInterface V)
    (sameRegistry :
      first.m_registeredBlossoms = second.m_registeredBlossoms)
    (sameKeys :
      ∀ key : String,
        (StdMap.find first.m_garden.resources key).isSome =
          (StdMap.find second.m_garden.resources key).isSome) :
    ∀ (item : SakuraItem V) (filePath errorMessage : String),
      checkSakuraItem createError first item filePath errorMessage =
        checkSakuraItem createError second item filePath errorMessage
  | .sequentiell childs, filePath, errorMessage => by
    simp only [checkSakuraItem,
      checkSequentiellChilds_same_resource_keys createError first second
        sameRegistry sameKeys childs]
  | .tree treeItem, filePath, errorMessage => by
    simp only [checkSakuraItem,
      checkTreeItem_same_resource_keys createError first second sameRegistry
        sameKeys treeItem]
  | .subtree referencedId values, _, _ => by
    simp only [checkSakuraItem]
  | .blossom blossomItem, filePath, errorMessage => by
    simp only [checkSakuraItem, checkBlossomBranch,
      checkBlossomItem_same_resource_keys createError first second
        sameRegistry sameKeys]
  | .blossomGroup id blossomGroupType nameHirarchie values blossoms, filePath,
      errorMessage => by
    simp only [checkSakuraItem,
      checkBlossomGroupChilds_same_resource_keys createError first second
        sameRegistry sameKeys blossomGroupType id values blossoms]
  | .ifBranching condition ifContent elseContent, filePath, errorMessage => by
    simp only [checkSakuraItem,
      checkSakuraItem_same_resource_keys createError first second
        sameRegistry sameKeys ifContent,
      checkSakuraItem_same_resource_keys createError first second
        sameRegistry sameKeys elseContent]
  | .forEachBranching tempVarName iterateArray content, filePath,
      errorMessage => by
    simp only [checkSakuraItem,
      checkSakuraItem_same_resource_keys createError first second
        sameRegistry sameKeys content]
  | .forBranching tempVarName start stop content, filePath, errorMessage => by
    simp only [checkSakuraItem,
      checkSakuraItem_same_resource_keys createError first second
        sameRegistry sameKeys content]
  | .parallel childs, filePath, errorMessage => by
    simp only [checkSakuraItem,
      checkSakuraItem_same_resource_keys createError first second
        sameRegistry sameKeys childs]
  | .undefined, _, _ => by
    simp only [checkSakuraItem]

theorem checkTreeItem_same_resource_keys
    (createError : BlossomItem V → String → String → String)
    (first second : SakuraLangInterface V)
    (sameRegistry :
      first.m_registeredBlossoms = second.m_registeredBlossoms)
    (sameKeys :
      ∀ key : String,
        (StdMap.find first.m_garden.resources key).isSome =
          (StdMap.find second.m_garden.resources key).isSome) :
    ∀ (treeItem : TreeItemOf (SakuraItem V) V) (errorMessage : String),
      checkTreeItem createError first treeItem errorMessage =
        checkTreeItem createError second treeItem errorMessage
  | ⟨rootPath, relativePath, id, values, childs⟩, errorMessage => by
    simp only [checkTreeItem,
      checkSakuraItem_same_resource_keys createError first second
        sameRegistry sameKeys childs]

theorem checkSequentiellChilds_same_resource_keys
    (createError : BlossomItem V → String → String → String)
    (first second : SakuraLangInterface V)
    (sameRegistry :
      first.m_registeredBlossoms = second.m_registeredBlossoms)
    (sameKeys :
      ∀ key : String,
        (StdMap.find first.m_garden.resources key).isSome =
          (StdMap.find second.m_garden.resources key).isSome) :
    ∀ (childs : List (SakuraItem V)) (filePath errorMessage : String),
      checkSequentiellChilds createError first childs filePath errorMessage =
        checkSequentiellChilds createError second childs filePath errorMessage
  | [], _, _ => by simp only [checkSequentiellChilds]
  | item :: rest, filePath, errorMessage => by
    simp only [checkSequentiellChilds,
      checkSakuraItem_same_resource_keys createError first second
        sameRegistry sameKeys item,
      checkSequentiellChilds_same_resource_keys createError first second
        sameRegistry sameKeys rest]

end

theorem checkAllTrees_same_resource_keys
    (createError : BlossomItem V → String → String → String)
    (first second : SakuraLangInterface V)
    (sameRegistry :
      first.m_registeredBlossoms = second.m_registeredBlossoms)
    (sameKeys :
      ∀ key : String,
        (StdMap.find first.m_garden.resources key).isSome =
          (StdMap.find second.m_garden.resources key).isSome) :
    ∀ (trees : StdMap (TreeItem V)) (errorMessage : String),
      checkAllTrees createError first trees errorMessage =
        checkAllTrees createError second trees errorMessage
  | [], _ => by simp only [checkAllTrees]
  | (key, treeItem) :: rest, errorMessage => by
    simp only [checkAllTrees,
      checkTreeItem_same_resource_keys createError first second sameRegistry
        sameKeys treeItem,
      checkAllTrees_same_resource_keys createError first second sameRegistry
        sameKeys rest]

/-- C22: for two gardens with the same trees map and the same keys in their
resources maps, checkAllItems returns the same result, leaves the same trees
and the same error message, whatever the resource trees contain. -/
theorem C22_resource_bodies_are_not_validated
    (createError : BlossomItem V → String → String → String)
    (interface : SakuraLangInterface V) (first second : SakuraGarden V)
    (errorMessage : String)
    (sameTrees : first.trees = second.trees)
    (sameKeys :
      ∀ key : String,
        (StdMap.find first.resources key).isSome =
          (StdMap.find second.resources key).isSome) :
    checkAllItems createError { interface with m_garden := first } first
        errorMessage =
      checkAllItems createError { interface with m_garden := second } second
        errorMessage := by
  unfold checkAllItems
  rw [sameTrees]
  exact checkAllTrees_same_resource_keys createError
    { interface with m_garden := first } { interface with m_garden := second }
    rfl sameKeys second.trees errorMessage

theorem C22_resource_bodies_are_not_validated_witness :
    (checkAllItems sampleCreateError
        { emptyInterface with m_garden := gardenWithBrokenResource }
        gardenWithBrokenResource "").1 = true ∧
      checkAllItems sampleCreateError
          { emptyInterface with m_garden := gardenWithEmptyResource }
          gardenWithEmptyResource "" =
        checkAllItems sampleCreateError
          { emptyInterface with m_garden := gardenWithBrokenResource }
          gardenWithBrokenResource "" :=
  ⟨rfl,
    C22_resource_bodies_are_not_validated sampleCreateError emptyInterface
      gardenWithEmptyResource gardenWithBrokenResource "" rfl
      (by
        intro key
        by_cases hKey : "bar" = key
        · simp [gardenWithEmptyResource, gardenWithBrokenResource,
            StdMap.find, hKey]
        · simp [gardenWithEmptyResource, gardenWithBrokenResource,
            StdMap.find, hKey])⟩

/-! ## Checking all trees of a garden -/

theorem checkSakuraItem_tree
    (createError : BlossomItem V → String → String → String)
    (interface : SakuraLangInterface V) (treeItem : TreeItem V)
    (filePath : String) (errorMessage : String) :
    checkSakuraItem createError interface (.tree treeItem) filePath
        errorMessage =
      ((checkTreeItem createError interface treeItem errorMessage).1,
        .tree (checkTreeItem createError interface treeItem errorMessage).2.1,
        (checkTreeItem createError interface treeItem errorMessage).2.2) := by
  simp only [checkSakuraItem]

theorem checkAllTrees_append
    (createError : BlossomItem V → String → String → String)
    (interface : SakuraLangInterface V) (rest : StdMap (TreeItem V)) :
    ∀ (pre : StdMap (TreeItem V)) (errorMessage : String),
      (checkAllTrees createError interface pre errorMessage).1 = true →
      checkAllTrees createError interface (pre ++ rest) errorMessage =
        ((checkAllTrees createError interface rest
            (checkAllTrees createError interface pre errorMessage).2.2).1,
          (checkAllTrees createError interface pre errorMessage).2.1 ++
            (checkAllTrees createError interface rest
              (checkAllTrees createError interface pre errorMessage).2.2).2.1,
          (checkAllTrees createError interface rest
            (checkAllTrees createError interface pre errorMessage).2.2).2.2)
  | [], errorMessage, _ => by
    simp only [checkAllTrees, List.nil_append]
  | (key, treeItem) :: pre, errorMessage, accepted => by
    rw [List.cons_append] at *
    simp only [checkAllTrees] at accepted ⊢
    cases hFirst :
        (checkTreeItem createError interface treeItem errorMessage).1 with
    | false => simp [hFirst] at accepted
    | true =>
      simp only [hFirst, Bool.true_eq_false, if_false] at accepted ⊢
      rw [checkAllTrees_append createError interface rest pre _ accepted]
      simp only [List.cons_append]

theorem checkAllTrees_of_append_accepted
    (createError : BlossomItem V → String → String → String)
    (interface : SakuraLangInterface V) (rest : StdMap (TreeItem V)) :
    ∀ (pre : StdMap (TreeItem V)) (errorMessage : String),
      (checkAllTrees createError interface (pre ++ rest) errorMessage).1
        = true →
      (checkAllTrees createError interface pre errorMessage).1 = true
  | [], _, _ => by simp only [checkAllTrees]
  | (key, treeItem) :: pre, errorMessage, accepted => by
    rw [List.cons_append] at *
    simp only [checkAllTrees] at accepted ⊢
    cases hFirst :
        (checkTreeItem createError interface treeItem errorMessage).1 with
    | false => simp [hFirst] at accepted
    | true =>
      simp only [hFirst, Bool.true_eq_false, if_false] at accepted ⊢
      exact checkAllTrees_of_append_accepted createError interface rest pre _
        accepted

theorem checkAllTrees_of_each_tree
    (createError : BlossomItem V → String → String → String)
    (interface : SakuraLangInterface V) :
    ∀ (trees : StdMap (TreeItem V)) (errorMessage : String),
      (∀ (pre : StdMap (TreeItem V)) (entry : String × TreeItem V)
          (post : StdMap (TreeItem V)),
        trees = pre ++ entry :: post →
        (checkTreeItem createError interface entry.2
          (checkAllTrees createError interface pre errorMessage).2.2).1
          = true) →
      (checkAllTrees createError interface trees errorMessage).1 = true
  | [], _, _ => by simp only [checkAllTrees]
  | (key, treeItem) :: rest, errorMessage, each => by
    have hFirst :
        (checkTreeItem createError interface treeItem errorMessage).1
          = true := by
      have h := each [] (key, treeItem) rest rfl
      simpa only [checkAllTrees] using h
    simp only [checkAllTrees, hFirst, Bool.true_eq_false, if_false]
    apply checkAllTrees_of_each_tree createError interface rest
    intro pre entry post hSplit
    have h := each ((key, treeItem) :: pre) entry post (by rw [hSplit]; rfl)
    simpa only [checkAllTrees, hFirst, Bool.true_eq_false, if_false] using h

/-- C21: checkAllItems returns true on a garden without trees; it returns true
exactly when checkSakuraItem, started with the empty file path and the error
message the trees before it left, returns true on every tree of garden.trees;
and when the trees before some tree are accepted and that tree fails, the
result is false, the error message is the one of that tree and the trees
behind it are left as they were; in the ascending key order of the map the
trees before it are those with a smaller key, so the failing tree is the one
with the smallest key that fails. -/
theorem C21_checkAllItems_checks_trees_in_key_order
    (createError : BlossomItem V → String → String → String)
    (interface : SakuraLangInterface V) (garden : SakuraGarden V)
    (errorMessage : String) :
    (garden.trees = [] →
        checkAllItems createError interface garden errorMessage =
          (true, [], errorMessage)) ∧
      ((checkAllItems createError interface garden errorMessage).1 = true ↔
        ∀ (pre : StdMap (TreeItem V)) (entry : String × TreeItem V)
            (post : StdMap (TreeItem V)),
          garden.trees = pre ++ entry :: post →
          (checkSakuraItem createError interface (.tree entry.2) ""
            (checkAllItems createError interface { garden with trees := pre }
              errorMessage).2.2).1 = true) ∧
      ∀ (pre : StdMap (TreeItem V)) (entry : String × TreeItem V)
          (post : StdMap (TreeItem V)),
        garden.trees = pre ++ entry :: post →
        (checkAllItems createError interface { garden with trees := pre }
          errorMessage).1 = true →
        (checkSakuraItem createError interface (.tree entry.2) ""
          (checkAllItems createError interface { garden with trees := pre }
            errorMessage).2.2).1 = false →
        (checkAllItems createError interface garden errorMessage).1 = false ∧
          (checkAllItems createError interface garden errorMessage).2.2 =
            (checkSakuraItem createError interface (.tree entry.2) ""
              (checkAllItems createError interface
                { garden with trees := pre } errorMessage).2.2).2.2 ∧
          (∃ checked : TreeItem V,
            (checkSakuraItem createError interface (.tree entry.2) ""
                (checkAllItems createError interface
                  { garden with trees := pre } errorMessage).2.2).2.1
              = .tree checked ∧
            (checkAllItems createError interface garden errorMessage).2.1 =
              (checkAllItems createError interface
                  { garden with trees := pre } errorMessage).2.1
                ++ (entry.1, checked) :: post) ∧
          (List.Pairwise (fun a b => a.1.data < b.1.data) garden.trees →
            (∀ before ∈ pre, before.1.data < entry.1.data) ∧
              ∀ behind ∈ post, entry.1.data < behind.1.data) := by
  simp only [checkAllItems, checkSakuraItem_tree]
  refine ⟨?_, ⟨?_, ?_⟩, ?_⟩
  · intro hEmpty
    rw [hEmpty]
    simp only [checkAllTrees]
  · intro accepted pre entry post hSplit
    rw [hSplit] at accepted
    have hPre :=
      checkAllTrees_of_append_accepted createError interface (entry :: post)
        pre errorMessage accepted
    rw [checkAllTrees_append createError interface (entry :: post) pre
      errorMessage hPre] at accepted
    simp only [checkAllTrees] at accepted
    cases hEntry :
        (checkTreeItem createError interface entry.2
          (checkAllTrees createError interface pre errorMessage).2.2).1 with
    | false => simp [hEntry] at accepted
    | true => rfl
  · exact checkAllTrees_of_each_tree createError interface garden.trees
      errorMessage
  · intro pre entry post hSplit hPre hEntry
    rw [hSplit, checkAllTrees_append createError interface (entry :: post) pre
      errorMessage hPre]
    simp only [checkAllTrees, hEntry, if_true]
    refine ⟨trivial, trivial, ⟨_, rfl, rfl⟩, ?_⟩
    intro hSorted
    rw [List.pairwise_append] at hSorted
    obtain ⟨_, hRest, hCross⟩ := hSorted
    rw [List.pairwise_cons] at hRest
    exact ⟨fun before hBefore =>
        hCross before hBefore entry (List.mem_cons_self _ _),
      fun behind hBehind => hRest.1 behind hBehind⟩

theorem C21_checkAllItems_checks_trees_in_key_order_witness :
    (checkAllItems sampleCreateError fooBarInterface threeTreeGarden "").1
        = false ∧
      (checkAllItems sampleCreateError fooBarInterface threeTreeGarden "").2.2
        = "validator: unknow blossom-type [/r/b.sakura|foo|unheard]" ∧
      (∀ before ∈ [("a.sakura", callingTree)],
        before.1.data < "b.sakura".data) ∧
      ∀ behind ∈ [("c.sakura", { unheardTree with relativePath := "c.sakura" })],
        "b.sakura".data < behind.1.data := by
  have h :=
    (C21_checkAllItems_checks_trees_in_key_order sampleCreateError
      fooBarInterface threeTreeGarden "").2.2
      [("a.sakura", callingTree)] ("b.sakura", unheardTree)
      [("c.sakura", { unheardTree with relativePath := "c.sakura" })]
      rfl rfl rfl
  refine ⟨h.1, h.2.1.trans rfl, ?_⟩
  exact h.2.2.2 (by
    simp only [threeTreeGarden, List.pairwise_cons, List.mem_cons,
      List.mem_singleton, List.not_mem_nil, List.Pairwise.nil, and_true,
      forall_eq_or_imp, forall_eq, or_false, false_imp_iff, implies_true]
    decide)

/-! ## Safety of the parse-error report -/

/-- C26: for a non-custom error whose line is between 1 and the number of
lines of the split input, whose begin column is at least 1 and whose end
column is at least the begin column (all of them 32-bit values), error()
indexes the list of lines within bounds, the uint32 value of
errorStart - 1 + errorLength is the exact one, error() ends without a fault,
and when a broken part is reported the substring lies inside the line and has
exactly end column - begin column characters. -/
theorem C26_error_report_is_safe
    (splitStringByDelimiter : String → Char → List String)
    (m_inputString : String) (m_errorMessage : TableItem)
    (location : Location) (message : String)
    (lineFromOne : 1 ≤ location.begin_.line)
    (lineInInput :
      location.begin_.line ≤ (splitStringByDelimiter m_inputString '\n').length)
    (columnFromOne : 1 ≤ location.begin_.column)
    (ordered : location.begin_.column ≤ location.end_.column)
    (lineIsUint32 : location.begin_.line < 2 ^ 32)
    (columnIsUint32 : location.end_.column < 2 ^ 32) :
    ∃ line : String,
      (splitStringByDelimiter m_inputString '\n')[location.begin_.line - 1]?
          = some line ∧
        (location.begin_.line % 2 ^ 32 + 2 ^ 32 - 1) % 2 ^ 32 =
          location.begin_.line - 1 ∧
        (location.begin_.column % 2 ^ 32 + 2 ^ 32 - 1 +
            (location.end_.column + 2 ^ 32 - location.begin_.column % 2 ^ 32)
              % 2 ^ 32) % 2 ^ 32 =
          location.begin_.column - 1
            + (location.end_.column - location.begin_.column) ∧
        error splitStringByDelimiter m_inputString m_errorMessage location
            message false =
          .ok
            (if line.length >
                location.begin_.column - 1
                  + (location.end_.column - location.begin_.column) then
              (((((m_errorMessage.addRow
                ["component", "libKitsunemimiSakuraParser"]).addRow
                ["source", "while parsing sakura-file"]).addRow
                ["message", message]).addRow
                ["line-number", toString location.begin_.line]).addRow
                ["position in line", toString location.begin_.column]).addRow
                ["broken part in string",
                  "\"" ++
                    String.mk
                      ((line.data.drop (location.begin_.column - 1)).take
                        (location.end_.column - location.begin_.column))
                    ++ "\""]
            else
              ((((m_errorMessage.addRow
                ["component", "libKitsunemimiSakuraParser"]).addRow
                ["source", "while parsing sakura-file"]).addRow
                ["message", message]).addRow
                ["line-number", toString location.begin_.line]).addRow
                ["position in line",
                  "UNKNOWN POSITION (maybe a string was not closed)"]) ∧
        (line.length >
            location.begin_.column - 1
              + (location.end_.column - location.begin_.column) →
          location.begin_.column - 1
              + (location.end_.column - location.begin_.column)
            ≤ line.length ∧
          substr line (location.begin_.column - 1)
              (location.end_.column - location.begin_.column) =
            .ok
              (String.mk
                ((line.data.drop (location.begin_.column - 1)).take
                  (location.end_.column - location.begin_.column))) ∧
          (String.mk
            ((line.data.drop (location.begin_.column - 1)).take
              (location.end_.column - location.begin_.column))).length =
            location.end_.column - location.begin_.column) := by
  have hPow : (2 : Nat) ^ 32 = 4294967296 := by norm_num
  rw [hPow] at lineIsUint32 columnIsUint32
  have hIndex : location.begin_.line - 1
      < (splitStringByDelimiter m_inputString '\n').length := by omega
  have hLineMod : location.begin_.line % 2 ^ 32 = location.begin_.line := by
    rw [hPow]; omega
  have hIdx :
      (location.begin_.line % 2 ^ 32 + 2 ^ 32 - 1) % 2 ^ 32 =
        location.begin_.line - 1 := by
    rw [hPow]; omega
  have hLen :
      (location.end_.column + 2 ^ 32 - location.begin_.column % 2 ^ 32)
          % 2 ^ 32 =
        location.end_.column - location.begin_.column := by
    rw [hPow]; omega
  have hStart :
      (location.begin_.column % 2 ^ 32 + 2 ^ 32 - 1) % 2 ^ 32 =
        location.begin_.column - 1 := by
    rw [hPow]; omega
  have hSpan :
      (location.begin_.column % 2 ^ 32 + 2 ^ 32 - 1 +
          (location.end_.column + 2 ^ 32 - location.begin_.column % 2 ^ 32)
            % 2 ^ 32) % 2 ^ 32 =
        location.begin_.column - 1
          + (location.end_.column - location.begin_.column) := by
    rw [hPow]; omega
  have hIdxPlain :
      (location.begin_.line + 2 ^ 32 - 1) % 2 ^ 32 =
        location.begin_.line - 1 := by
    rw [hPow]; omega
  have hSpanPlain :
      (location.begin_.column % 2 ^ 32 + 2 ^ 32 - 1 +
          (location.end_.column - location.begin_.column)) % 2 ^ 32 =
        location.begin_.column - 1
          + (location.end_.column - location.begin_.column) := by
    rw [hPow]; omega
  obtain ⟨line, hLine⟩ :
      ∃ line : String,
        (splitStringByDelimiter m_inputString '\n')[location.begin_.line - 1]?
          = some line :=
    ⟨_, List.getElem?_eq_getElem hIndex⟩
  have hLength : line.length = line.data.length := rfl
  refine ⟨line, hLine, hIdx, hSpan, ?_, ?_⟩
  · unfold error
    simp only [hIdxPlain, hSpanPlain, hStart, hLen, hLineMod, hLine, if_true]
    by_cases hInside :
        line.length >
          location.begin_.column - 1
            + (location.end_.column - location.begin_.column)
    · have hPos : ¬ location.begin_.column - 1 > line.length := by omega
      simp only [hInside, if_true, substr, hPos, if_false]
    · simp only [hInside, if_false]
  · intro hInside
    refine ⟨by omega, ?_, ?_⟩
    · have hPos : ¬ location.begin_.column - 1 > line.length := by omega
      simp only [substr, hPos, if_false]
    · rw [hLength] at hInside
      simp only [String.length, List.length_take, List.length_drop]
      omega

theorem C26_error_report_is_safe_witness :
    ∃ reported : TableItem,
      error oneLine "abcd" freshErrorTable lastTokenLocation "syntax error"
          false = .ok reported ∧
        ["broken part in string", "\"bc\""] ∈ reported.rows := by
  obtain ⟨line, hLine, _, _, hOk, _⟩ :=
    C26_error_report_is_safe oneLine "abcd" freshErrorTable lastTokenLocation
      "syntax error" (by decide) (by decide) (by decide) (by decide)
      (by decide) (by decide)
  have hAbcd : line = "abcd" := by
    simpa [oneLine, lastTokenLocation] using hLine.symm
  subst hAbcd
  exact ⟨_, hOk, by decide⟩

/-! ## Quoted tokens -/

theorem removeQuotesLoop_never_ends (input : String)
    (tooLong : 2 ^ 32 ≤ input.length - 1) :
    ∀ (fuel i : Nat) (result : String),
      i < 2 ^ 32 → removeQuotesLoop input fuel i result = none
  | 0, _, _, _ => rfl
  | fuel + 1, i, result, hCounter => by
    have hCondition : i < input.length - 1 :=
      Nat.lt_of_lt_of_le hCounter tooLong
    simp only [removeQuotesLoop, hCondition, if_true]
    exact removeQuotesLoop_never_ends input tooLong fuel _ _
      (Nat.mod_lt _ (by norm_num))

theorem removeQuotes_never_returns (input : String)
    (tooLong : 2 ^ 32 ≤ input.length - 1)
    (quoted :
      input.data.getD 0 ' ' = '"'
        ∧ input.data.getD (input.length - 1) ' ' = '"') :
    ∀ fuel : Nat, removeQuotes fuel input = none := by
  intro fuel
  have hNonEmpty : ¬ input.length = 0 := by
    intro hEmpty
    rw [hEmpty] at tooLong
    exact absurd tooLong (by norm_num)
  simp only [removeQuotes, hNonEmpty, if_false, quoted, and_self, if_true]
  exact removeQuotesLoop_never_ends input tooLong fuel 1 "" (by norm_num)

theorem quotedRun_length (count : Nat) :
    (quotedRun count).length = count + 2 := by
  simp only [quotedRun, String.length, List.length_cons, List.length_append,
    List.length_replicate, List.length_nil]

theorem quotedRun_first (count : Nat) :
    (quotedRun count).data.getD 0 ' ' = '"' := by
  simp only [quotedRun, List.getD_cons_zero]

theorem quotedRun_last (count : Nat) :
    (quotedRun count).data.getD ((quotedRun count).length - 1) ' ' = '"' := by
  rw [quotedRun_length]
  have hIndex : count + 2 - 1 = count + 1 := by omega
  rw [hIndex]
  simp only [quotedRun, List.getD_cons_succ]
  rw [List.getD_append_right _ _ _ _ (by rw [List.length_replicate])]
  rw [List.length_replicate, Nat.sub_self, List.getD_cons_zero]

theorem quotedRun_too_long (count : Nat) (huge : 2 ^ 32 ≤ count) :
    2 ^ 32 ≤ (quotedRun count).length - 1 := by
  rw [quotedRun_length]
  omega

/-- C25 (code defect): on the quoted text of 2^32 + 2 characters (a double
quote, 2^32 letters, a double quote) the uint32 counter of the loop of
removeQuotes stays below the bound input.length() - 1 = 2^32 + 1 for ever, so
removeQuotes does not return, however many times the loop condition is
tested. -/
theorem C25_loop_counter_wraps_on_huge_input :
    (quotedRun (2 ^ 32)).length = 2 ^ 32 + 2 ∧
      (quotedRun (2 ^ 32)).data.getD 0 ' ' = '"' ∧
      (quotedRun (2 ^ 32)).data.getD ((quotedRun (2 ^ 32)).length - 1) ' '
        = '"' ∧
      ∀ fuel : Nat, removeQuotes fuel (quotedRun (2 ^ 32)) = none :=
  ⟨quotedRun_length (2 ^ 32), quotedRun_first (2 ^ 32),
    quotedRun_last (2 ^ 32),
    removeQuotes_never_returns (quotedRun (2 ^ 32))
      (quotedRun_too_long (2 ^ 32) (Nat.le_refl _))
      ⟨quotedRun_first (2 ^ 32), quotedRun_last (2 ^ 32)⟩⟩

theorem removeQuotesLoop_ends (input : String)
    (fits : input.length ≤ 2 ^ 32) :
    ∀ (remaining i fuel : Nat) (result : String),
      i + remaining = input.length - 1 → remaining < fuel →
      removeQuotesLoop input fuel i result =
        some (String.mk (result.data ++ (input.data.drop i).take remaining))
  | remaining, _, 0, _, _, hFuel => absurd hFuel (Nat.not_lt_zero remaining)
  | 0, i, fuel + 1, result, hSum, _ => by
    have hCondition : ¬ i < input.length - 1 := by omega
    simp only [removeQuotesLoop, hCondition, if_false, List.take_zero,
      List.append_nil]
  | remaining + 1, i, fuel + 1, result, hSum, hFuel => by
    have hPow : (2 : Nat) ^ 32 = 4294967296 := by norm_num
    have hLength : input.length = input.data.length := rfl
    have hCondition : i < input.length - 1 := by omega
    have hNext : (i + 1) % 2 ^ 32 = i + 1 := by
      rw [hPow] at fits ⊢
      omega
    have hInside : i < input.data.length := by omega
    simp only [removeQuotesLoop, hCondition, if_true, hNext]
    rw [removeQuotesLoop_ends input fits remaining (i + 1) fuel _ (by omega)
      (by omega)]
    rw [List.drop_eq_getElem_cons hInside, List.take_succ_cons,
      String.data_push, List.getD_eq_getElem _ _ hInside, List.append_assoc,
      List.singleton_append]

theorem removeQuotes_of_quoted (input : String)
    (fits : input.length ≤ 2 ^ 32) (nonEmpty : input.length ≠ 0)
    (quoted :
      input.data.getD 0 ' ' = '"'
        ∧ input.data.getD (input.length - 1) ' ' = '"') :
    removeQuotes input.length input =
      some (String.mk ((input.data.drop 1).take (input.length - 2))) := by
  simp only [removeQuotes, nonEmpty, if_false, quoted, and_self, if_true]
  by_cases hOne : input.length = 1
  · rw [hOne]
    have hCondition : ¬ 1 < input.length - 1 := by omega
    simp only [removeQuotesLoop, hCondition, if_false, Nat.sub_self,
      List.take_zero]
    rfl
  · rw [removeQuotesLoop_ends input fits (input.length - 2) 1 input.length ""
      (by omega) (by omega)]
    rfl

theorem removeQuotes_of_unquoted (fuel : Nat) (input : String)
    (unquoted :
      input.length = 0 ∨
        ¬ (input.data.getD 0 ' ' = '"'
          ∧ input.data.getD (input.length - 1) ' ' = '"')) :
    removeQuotes fuel input = some input := by
  unfold removeQuotes
  rcases unquoted with hEmpty | hPlain
  · simp only [hEmpty, if_true]
  · by_cases hEmpty : input.length = 0
    · simp only [hEmpty, if_true]
    · simp only [hEmpty, if_false, hPlain]

end Sakura
